import Mathlib

/-!
Hardware counter GPU backend: `mali_kbase_hwcnt_gpu.c`.

A shallow embedding of the Mali "v5" hardware counter backend
(`drivers/gpu/arm/midgard/mali_kbase_hwcnt_gpu.c`) and a verification of its
enable-map codec, its block layout planner and its dump merge engine.

Conventions of the embedding:

* C unsigned integers are natural numbers; every operation that can leave the
  range of its C type is followed by an explicit `% 2 ^ w`.
* A pointer argument that may be `NULL` is an `Option`.
* A pointer to a metadata is the address it holds together with the object
  at that address; two such pointers are compared by address.
* A function that writes through a pointer returns the new content of the
  pointee.
* The generic metadata container, the enable-map storage and the dump-buffer
  storage (`mali_kbase_hwcnt_types.h`) are not part of the translated file;
  their accessors are modelled from the specification and marked as such.
-/

namespace KbaseHwcnt

/-! ## Constants -/

/-- `KBASE_HWCNT_V5_BLOCK_TYPE_COUNT`. -/
def KBASE_HWCNT_V5_BLOCK_TYPE_COUNT : Nat := 4

/-- `KBASE_HWCNT_V5_HEADERS_PER_BLOCK`. -/
def KBASE_HWCNT_V5_HEADERS_PER_BLOCK : Nat := 4

/-- `KBASE_HWCNT_V5_COUNTERS_PER_BLOCK`. -/
def KBASE_HWCNT_V5_COUNTERS_PER_BLOCK : Nat := 60

/-- `KBASE_HWCNT_V5_VALUES_PER_BLOCK`. -/
def KBASE_HWCNT_V5_VALUES_PER_BLOCK : Nat :=
  KBASE_HWCNT_V5_HEADERS_PER_BLOCK + KBASE_HWCNT_V5_COUNTERS_PER_BLOCK

/-- Index of the PRFCNT_EN header into a V5 counter block. -/
def KBASE_HWCNT_V5_PRFCNT_EN_HEADER : Nat := 2

/-- Modelled from the spec: `KBASE_HWCNT_AVAIL_MASK_BITS` of
`mali_kbase_hwcnt_types.h`, the width of the availability mask ("total instance
count ≤ 64"). -/
def KBASE_HWCNT_AVAIL_MASK_BITS : Nat := 64

/-- Modelled from the spec: `KBASE_HWCNT_VALUE_BYTES` of
`mali_kbase_hwcnt_types.h`, the size of one 32-bit dump value. -/
def KBASE_HWCNT_VALUE_BYTES : Nat := 4

/-- Modelled from the spec: `KBASE_HWCNT_BITFIELD_BITS` of
`mali_kbase_hwcnt_types.h`, the width of one enable-map bitfield word. -/
def KBASE_HWCNT_BITFIELD_BITS : Nat := 64

/-- The errno value behind the "invalid argument" error (`linux/errno.h`). -/
def EINVAL : Int := 22

/-! ## Enumerations (declared in `mali_kbase_hwcnt_gpu.h`) -/

/-- Modelled from the spec: the counter-set selector `enum kbase_hwcnt_set`
(Primary, Secondary, Tertiary). -/
inductive kbase_hwcnt_set where
  | KBASE_HWCNT_SET_PRIMARY
  | KBASE_HWCNT_SET_SECONDARY
  | KBASE_HWCNT_SET_TERTIARY
  deriving DecidableEq, Repr

/-- Modelled from the spec: the group type field of the metadata; the backend
only knows the "v5" family, every other value of the 64-bit field is
`GROUP_TYPE_UNKNOWN`. -/
inductive kbase_hwcnt_gpu_group_type where
  | KBASE_HWCNT_GPU_GROUP_TYPE_V5
  | GROUP_TYPE_UNKNOWN
  deriving DecidableEq, Repr

/-- Modelled from the spec: the block type field of the metadata. The ten named
values are the ones the translated file mentions; every other value of the
64-bit field is `BLOCK_TYPE_UNKNOWN` (the `default:` arm of the switches). -/
inductive kbase_hwcnt_gpu_v5_block_type where
  | KBASE_HWCNT_GPU_V5_BLOCK_TYPE_PERF_FE
  | KBASE_HWCNT_GPU_V5_BLOCK_TYPE_PERF_FE2
  | KBASE_HWCNT_GPU_V5_BLOCK_TYPE_PERF_FE3
  | KBASE_HWCNT_GPU_V5_BLOCK_TYPE_PERF_TILER
  | KBASE_HWCNT_GPU_V5_BLOCK_TYPE_PERF_SC
  | KBASE_HWCNT_GPU_V5_BLOCK_TYPE_PERF_SC2
  | KBASE_HWCNT_GPU_V5_BLOCK_TYPE_PERF_SC3
  | KBASE_HWCNT_GPU_V5_BLOCK_TYPE_PERF_MEMSYS
  | KBASE_HWCNT_GPU_V5_BLOCK_TYPE_PERF_MEMSYS2
  | KBASE_HWCNT_GPU_V5_BLOCK_TYPE_PERF_UNDEFINED
  | BLOCK_TYPE_UNKNOWN
  deriving DecidableEq, Repr

open kbase_hwcnt_set kbase_hwcnt_gpu_group_type kbase_hwcnt_gpu_v5_block_type

/-! ## Data model -/

/-- Modelled from the spec: the chip descriptor `struct kbase_hwcnt_gpu_info`
(slice count, a `size_t`; 64-bit core-presence mask; clock-domain count). -/
structure kbase_hwcnt_gpu_info where
  l2_count : Nat
  core_mask : Nat
  clk_cnt : Nat
  deriving DecidableEq, Repr

/-- Modelled from the spec: `struct kbase_hwcnt_block_description`
(type, instance count, header-value count, counter-value count). -/
structure kbase_hwcnt_block_description where
  type : kbase_hwcnt_gpu_v5_block_type
  inst_cnt : Nat
  hdr_cnt : Nat
  ctr_cnt : Nat
  deriving DecidableEq, Repr

/-- Modelled from the spec: `struct kbase_hwcnt_group_description`; `blk_cnt`
is the length of `blks`. -/
structure kbase_hwcnt_group_description where
  type : kbase_hwcnt_gpu_group_type
  blks : List kbase_hwcnt_block_description
  deriving DecidableEq, Repr

/-- Modelled from the spec: `struct kbase_hwcnt_description`; `grp_cnt` is the
length of `grps`. `avail_mask` is `none` when the C expression that computes it
has no defined value. -/
structure kbase_hwcnt_description where
  grps : List kbase_hwcnt_group_description
  avail_mask : Option Nat
  clk_cnt : Nat
  deriving DecidableEq, Repr

/-- Modelled from the spec: a reference `const struct kbase_hwcnt_metadata *`
to the immutable metadata kept by the external metadata container. `addr` is
the address that the pointer holds; the other fields are the object at that
address: the groups of block descriptions, the availability mask, the clock
count and the byte size of a dump buffer. The C comparison of two such pointers
with `!=` compares `addr` and nothing else, so two metadata objects with the
same content at different addresses are different metadata. -/
structure kbase_hwcnt_metadata where
  addr : Nat
  grps : List kbase_hwcnt_group_description
  avail_mask : Option Nat
  clk_cnt : Nat
  dump_buf_bytes : Nat
  deriving DecidableEq, Repr

/-- Modelled from the spec: the enable map. `enable_map grp blk blk_inst idx` is
the 64-bit bitfield word `idx` of block instance `(grp, blk, blk_inst)`. -/
structure kbase_hwcnt_enable_map where
  metadata : kbase_hwcnt_metadata
  enable_map : Nat → Nat → Nat → Nat → Nat

/-- Modelled from the spec: the dump buffer. `dump_buf grp blk blk_inst j` is
the 32-bit value `j` of block instance `(grp, blk, blk_inst)`. -/
structure kbase_hwcnt_dump_buffer where
  metadata : kbase_hwcnt_metadata
  dump_buf : Nat → Nat → Nat → Nat → Nat

/-- The physical enable map `struct kbase_hwcnt_physical_enable_map`: four
32-bit bitmaps. -/
structure kbase_hwcnt_physical_enable_map where
  fe_bm : Nat
  shader_bm : Nat
  tiler_bm : Nat
  mmu_l2_bm : Nat
  deriving DecidableEq, Repr

/-! ## Metadata container accessors (external collaborator) -/

/-- Modelled from the spec: block description `blk` of group `grp`, when both
indices are in range. -/
def kbase_hwcnt_metadata_block (md : kbase_hwcnt_metadata) (grp blk : Nat) :
    Option kbase_hwcnt_block_description :=
  match md.grps.get? grp with
  | some g => g.blks.get? blk
  | none => none

/-- Modelled from the spec: `kbase_hwcnt_metadata_group_count`. -/
def kbase_hwcnt_metadata_group_count (md : kbase_hwcnt_metadata) : Nat :=
  md.grps.length

/-- Modelled from the spec: `kbase_hwcnt_metadata_group_type`. -/
def kbase_hwcnt_metadata_group_type (md : kbase_hwcnt_metadata) (grp : Nat) :
    kbase_hwcnt_gpu_group_type :=
  match md.grps.get? grp with
  | some g => g.type
  | none => GROUP_TYPE_UNKNOWN

/-- Modelled from the spec: `kbase_hwcnt_metadata_block_count`. -/
def kbase_hwcnt_metadata_block_count (md : kbase_hwcnt_metadata) (grp : Nat) : Nat :=
  match md.grps.get? grp with
  | some g => g.blks.length
  | none => 0

/-- Modelled from the spec: `kbase_hwcnt_metadata_block_type`. -/
def kbase_hwcnt_metadata_block_type (md : kbase_hwcnt_metadata) (grp blk : Nat) :
    kbase_hwcnt_gpu_v5_block_type :=
  match kbase_hwcnt_metadata_block md grp blk with
  | some b => b.type
  | none => BLOCK_TYPE_UNKNOWN

/-- Modelled from the spec: `kbase_hwcnt_metadata_block_instance_count`. -/
def kbase_hwcnt_metadata_block_instance_count (md : kbase_hwcnt_metadata)
    (grp blk : Nat) : Nat :=
  match kbase_hwcnt_metadata_block md grp blk with
  | some b => b.inst_cnt
  | none => 0

/-- Modelled from the spec: `kbase_hwcnt_metadata_block_headers_count`. -/
def kbase_hwcnt_metadata_block_headers_count (md : kbase_hwcnt_metadata)
    (grp blk : Nat) : Nat :=
  match kbase_hwcnt_metadata_block md grp blk with
  | some b => b.hdr_cnt
  | none => 0

/-- Modelled from the spec: `kbase_hwcnt_metadata_block_counters_count`. -/
def kbase_hwcnt_metadata_block_counters_count (md : kbase_hwcnt_metadata)
    (grp blk : Nat) : Nat :=
  match kbase_hwcnt_metadata_block md grp blk with
  | some b => b.ctr_cnt
  | none => 0

/-- Modelled from the spec: `kbase_hwcnt_metadata_block_values_count`, headers
plus counters (a `size_t`). -/
def kbase_hwcnt_metadata_block_values_count (md : kbase_hwcnt_metadata)
    (grp blk : Nat) : Nat :=
  (kbase_hwcnt_metadata_block_headers_count md grp blk +
    kbase_hwcnt_metadata_block_counters_count md grp blk) % 2 ^ 64

/-- Modelled from the spec: the iteration `kbase_hwcnt_metadata_for_each_block`,
"a stable deterministic iteration of (group, block, instance) triples": groups
in order, blocks of a group in order, instances of a block in order. -/
def kbase_hwcnt_metadata_for_each_block (md : kbase_hwcnt_metadata) :
    List (Nat × Nat × Nat) :=
  (List.range (kbase_hwcnt_metadata_group_count md)).flatMap fun grp =>
    (List.range (kbase_hwcnt_metadata_block_count md grp)).flatMap fun blk =>
      (List.range (kbase_hwcnt_metadata_block_instance_count md grp blk)).map
        fun blk_inst => (grp, blk, blk_inst)

/-- Modelled from the spec: the byte size of a dump buffer, the sum over all
blocks of `inst_cnt * (hdr_cnt + ctr_cnt) * KBASE_HWCNT_VALUE_BYTES`, as a
`size_t`. -/
def kbase_hwcnt_description_dump_buf_bytes (grps : List kbase_hwcnt_group_description) :
    Nat :=
  ((grps.map fun g =>
      (g.blks.map fun b =>
        b.inst_cnt * (b.hdr_cnt + b.ctr_cnt) * KBASE_HWCNT_VALUE_BYTES).sum).sum) % 2 ^ 64

/-- Modelled from the spec: the metadata container's constructor
`kbase_hwcnt_metadata_create`, "construct(groups, availabilityMask, clockCount)
→ metadata or error"; this model stores the description in a new object and
never fails. `addr` is the address of the new object, chosen by the
allocator. -/
def kbase_hwcnt_metadata_create (addr : Nat) (desc : kbase_hwcnt_description) :
    Except Int kbase_hwcnt_metadata :=
  .ok { addr := addr
        grps := desc.grps
        avail_mask := desc.avail_mask
        clk_cnt := desc.clk_cnt
        dump_buf_bytes := kbase_hwcnt_description_dump_buf_bytes desc.grps }

/-- Modelled from the spec: `kbase_hwcnt_bitfield_count`, the number of 64-bit
bitfield words that hold `val_cnt` enable bits. -/
def kbase_hwcnt_bitfield_count (val_cnt : Nat) : Nat :=
  (val_cnt + (KBASE_HWCNT_BITFIELD_BITS - 1)) / KBASE_HWCNT_BITFIELD_BITS

/-- Modelled from the spec: `kbase_hwcnt_enable_map_block_enabled`: a
block instance is enabled when at least one of its values is requested in the
enable map. -/
def kbase_hwcnt_enable_map_block_enabled (enable_map : kbase_hwcnt_enable_map)
    (grp blk blk_inst : Nat) : Bool :=
  let val_cnt := kbase_hwcnt_metadata_block_values_count enable_map.metadata grp blk
  (List.range (kbase_hwcnt_bitfield_count val_cnt)).any fun bitfld_idx =>
    let remaining_values := val_cnt - bitfld_idx * KBASE_HWCNT_BITFIELD_BITS
    let block_enable_map_mask :=
      if remaining_values < KBASE_HWCNT_BITFIELD_BITS then 2 ^ remaining_values - 1
      else 2 ^ 64 - 1
    (enable_map.enable_map grp blk blk_inst bitfld_idx &&& block_enable_map_mask) != 0

/-- Modelled from the spec: `kbase_hwcnt_dump_buffer_block_copy`, "overwrite
mode replaces destination words with source words verbatim". -/
def kbase_hwcnt_dump_buffer_block_copy (dst_blk src_blk : Nat → Nat) (val_cnt : Nat) :
    Nat → Nat :=
  fun j => if j < val_cnt then src_blk j else dst_blk j

/-- Modelled from the spec: `kbase_hwcnt_dump_buffer_block_zero`, "overwrite
mode zeroes all 64 destination words". -/
def kbase_hwcnt_dump_buffer_block_zero (dst_blk : Nat → Nat) (val_cnt : Nat) : Nat → Nat :=
  fun j => if j < val_cnt then 0 else dst_blk j

/-- Modelled from the spec: `kbase_hwcnt_dump_buffer_block_accumulate`, whose
body is in `mali_kbase_hwcnt_types.h`: "accumulate mode adds each source word
into the destination word with 32-bit wraparound, no saturation". -/
def kbase_hwcnt_dump_buffer_block_accumulate (dst_blk src_blk : Nat → Nat)
    (hdr_cnt ctr_cnt : Nat) : Nat → Nat :=
  fun j => if j < (hdr_cnt + ctr_cnt) % 2 ^ 64 then (dst_blk j + src_blk j) % 2 ^ 32
    else dst_blk j

/-- Storage update behind `kbase_hwcnt_dump_buffer_block_instance` and
`kbase_hwcnt_enable_map_block_instance`: the words of block instance
`(grp, blk, blk_inst)` are replaced, every other instance is kept. -/
def block_instance_store (store : Nat → Nat → Nat → Nat → Nat) (grp blk blk_inst : Nat)
    (words : Nat → Nat) : Nat → Nat → Nat → Nat → Nat :=
  fun g b i => if g = grp ∧ b = blk ∧ i = blk_inst then words else store g b i

/-- Modelled from the spec: `fls64` of `linux/bitops.h` on a 64-bit value, the
index of the highest set bit plus one, and 0 for 0. -/
def fls64 (x : Nat) : Nat :=
  (List.range 64).foldl (fun r i => if x.testBit i then i + 1 else r) 0

/-- The C expression `x << n` on `u64`; it has no defined value when the shift
count is 64 or more. -/
def shl_u64 (x n : Nat) : Option Nat :=
  if n < 64 then some ((x <<< n) % 2 ^ 64) else none

/-! ## Block layout planner -/

/-- `kbasep_get_fe_block_type`. -/
def kbasep_get_fe_block_type (counter_set : kbase_hwcnt_set) (is_csf : Bool) :
    kbase_hwcnt_gpu_v5_block_type :=
  match counter_set with
  | KBASE_HWCNT_SET_PRIMARY => KBASE_HWCNT_GPU_V5_BLOCK_TYPE_PERF_FE
  | KBASE_HWCNT_SET_SECONDARY =>
    if is_csf then KBASE_HWCNT_GPU_V5_BLOCK_TYPE_PERF_FE2
    else KBASE_HWCNT_GPU_V5_BLOCK_TYPE_PERF_UNDEFINED
  | KBASE_HWCNT_SET_TERTIARY =>
    if is_csf then KBASE_HWCNT_GPU_V5_BLOCK_TYPE_PERF_FE3
    else KBASE_HWCNT_GPU_V5_BLOCK_TYPE_PERF_UNDEFINED

/-- `kbasep_get_tiler_block_type`. -/
def kbasep_get_tiler_block_type (counter_set : kbase_hwcnt_set) :
    kbase_hwcnt_gpu_v5_block_type :=
  match counter_set with
  | KBASE_HWCNT_SET_PRIMARY => KBASE_HWCNT_GPU_V5_BLOCK_TYPE_PERF_TILER
  | KBASE_HWCNT_SET_SECONDARY => KBASE_HWCNT_GPU_V5_BLOCK_TYPE_PERF_UNDEFINED
  | KBASE_HWCNT_SET_TERTIARY => KBASE_HWCNT_GPU_V5_BLOCK_TYPE_PERF_UNDEFINED

/-- `kbasep_get_sc_block_type`. -/
def kbasep_get_sc_block_type (counter_set : kbase_hwcnt_set) (is_csf : Bool) :
    kbase_hwcnt_gpu_v5_block_type :=
  match counter_set with
  | KBASE_HWCNT_SET_PRIMARY => KBASE_HWCNT_GPU_V5_BLOCK_TYPE_PERF_SC
  | KBASE_HWCNT_SET_SECONDARY => KBASE_HWCNT_GPU_V5_BLOCK_TYPE_PERF_SC2
  | KBASE_HWCNT_SET_TERTIARY =>
    if is_csf then KBASE_HWCNT_GPU_V5_BLOCK_TYPE_PERF_SC3
    else KBASE_HWCNT_GPU_V5_BLOCK_TYPE_PERF_UNDEFINED

/-- `kbasep_get_memsys_block_type`. -/
def kbasep_get_memsys_block_type (counter_set : kbase_hwcnt_set) :
    kbase_hwcnt_gpu_v5_block_type :=
  match counter_set with
  | KBASE_HWCNT_SET_PRIMARY => KBASE_HWCNT_GPU_V5_BLOCK_TYPE_PERF_MEMSYS
  | KBASE_HWCNT_SET_SECONDARY => KBASE_HWCNT_GPU_V5_BLOCK_TYPE_PERF_MEMSYS2
  | KBASE_HWCNT_SET_TERTIARY => KBASE_HWCNT_GPU_V5_BLOCK_TYPE_PERF_UNDEFINED

/-- The four block descriptions `blks[0..3]` filled in by
`kbasep_hwcnt_backend_gpu_metadata_create`. -/
def kbasep_hwcnt_backend_gpu_metadata_create_blks (gpu_info : kbase_hwcnt_gpu_info)
    (is_csf : Bool) (counter_set : kbase_hwcnt_set) (sc_block_count : Nat) :
    List kbase_hwcnt_block_description :=
  [ { type := kbasep_get_fe_block_type counter_set is_csf
      inst_cnt := 1
      hdr_cnt := KBASE_HWCNT_V5_HEADERS_PER_BLOCK
      ctr_cnt := KBASE_HWCNT_V5_COUNTERS_PER_BLOCK },
    { type := kbasep_get_tiler_block_type counter_set
      inst_cnt := 1
      hdr_cnt := KBASE_HWCNT_V5_HEADERS_PER_BLOCK
      ctr_cnt := KBASE_HWCNT_V5_COUNTERS_PER_BLOCK },
    { type := kbasep_get_memsys_block_type counter_set
      inst_cnt := gpu_info.l2_count
      hdr_cnt := KBASE_HWCNT_V5_HEADERS_PER_BLOCK
      ctr_cnt := KBASE_HWCNT_V5_COUNTERS_PER_BLOCK },
    { type := kbasep_get_sc_block_type counter_set is_csf
      inst_cnt := sc_block_count
      hdr_cnt := KBASE_HWCNT_V5_HEADERS_PER_BLOCK
      ctr_cnt := KBASE_HWCNT_V5_COUNTERS_PER_BLOCK } ]

/-- The description `desc` handed to the metadata container by
`kbasep_hwcnt_backend_gpu_metadata_create`. -/
def kbasep_hwcnt_backend_gpu_metadata_create_desc (gpu_info : kbase_hwcnt_gpu_info)
    (is_csf : Bool) (counter_set : kbase_hwcnt_set) : kbase_hwcnt_description :=
  let non_sc_block_count := (2 + gpu_info.l2_count) % 2 ^ 64
  let sc_block_count := fls64 gpu_info.core_mask
  { grps := [ { type := KBASE_HWCNT_GPU_GROUP_TYPE_V5
                blks := kbasep_hwcnt_backend_gpu_metadata_create_blks gpu_info is_csf
                  counter_set sc_block_count } ]
    clk_cnt := gpu_info.clk_cnt
    avail_mask :=
      match shl_u64 1 non_sc_block_count, shl_u64 gpu_info.core_mask non_sc_block_count with
      | some one_shifted, some core_shifted =>
        some (((one_shifted + 2 ^ 64 - 1) % 2 ^ 64) ||| core_shifted)
      | _, _ => none }

/-- `kbasep_hwcnt_backend_gpu_metadata_create`. The constructor of the external
metadata container is the parameter `metadata_create`. -/
def kbasep_hwcnt_backend_gpu_metadata_create
    (metadata_create : kbase_hwcnt_description → Except Int kbase_hwcnt_metadata)
    (gpu_info : kbase_hwcnt_gpu_info) (is_csf : Bool) (counter_set : kbase_hwcnt_set) :
    Except Int kbase_hwcnt_metadata :=
  let non_sc_block_count := (2 + gpu_info.l2_count) % 2 ^ 64
  let sc_block_count := fls64 gpu_info.core_mask
  if (sc_block_count + non_sc_block_count) % 2 ^ 64 > KBASE_HWCNT_AVAIL_MASK_BITS then
    .error (-EINVAL)
  else
    metadata_create (kbasep_hwcnt_backend_gpu_metadata_create_desc gpu_info is_csf counter_set)

/-- `kbasep_hwcnt_backend_jm_dump_bytes`: the size in bytes of the raw dump of
the GPU, computed in `size_t`. -/
def kbasep_hwcnt_backend_jm_dump_bytes (gpu_info : kbase_hwcnt_gpu_info) : Nat :=
  ((2 + gpu_info.l2_count + fls64 gpu_info.core_mask) *
    KBASE_HWCNT_V5_VALUES_PER_BLOCK * KBASE_HWCNT_VALUE_BYTES) % 2 ^ 64

/-- What `kbase_hwcnt_jm_metadata_create` leaves behind: the return value, the
contents of `*out_metadata` and `*out_dump_bytes` (`none` for a `NULL` pointer),
and whether the consistency assertion
`WARN_ON(dump_bytes != metadata->dump_buf_bytes)` fired. -/
structure jm_metadata_create_result where
  ret : Int
  out_metadata : Option (Option kbase_hwcnt_metadata)
  out_dump_bytes : Option Nat
  warned : Bool

/-- `kbase_hwcnt_jm_metadata_create`. The pointee of `out_metadata` is itself a
pointer to a metadata, `none` while it designates nothing. -/
def kbase_hwcnt_jm_metadata_create
    (metadata_create : kbase_hwcnt_description → Except Int kbase_hwcnt_metadata)
    (gpu_info : Option kbase_hwcnt_gpu_info) (counter_set : kbase_hwcnt_set)
    (out_metadata : Option (Option kbase_hwcnt_metadata)) (out_dump_bytes : Option Nat) :
    jm_metadata_create_result :=
  match gpu_info, out_metadata, out_dump_bytes with
  | some info, some _, some _ =>
    let dump_bytes := kbasep_hwcnt_backend_jm_dump_bytes info
    match kbasep_hwcnt_backend_gpu_metadata_create metadata_create info false counter_set with
    | .error errcode =>
      { ret := errcode, out_metadata := out_metadata, out_dump_bytes := out_dump_bytes
        warned := false }
    | .ok metadata =>
      { ret := 0, out_metadata := some (some metadata), out_dump_bytes := some dump_bytes
        warned := decide (dump_bytes ≠ metadata.dump_buf_bytes) }
  | _, _, _ =>
    { ret := -EINVAL, out_metadata := out_metadata, out_dump_bytes := out_dump_bytes
      warned := false }

/-- `kbase_hwcnt_csf_metadata_create`: the return value and the content of
`*out_metadata` afterwards. -/
def kbase_hwcnt_csf_metadata_create
    (metadata_create : kbase_hwcnt_description → Except Int kbase_hwcnt_metadata)
    (gpu_info : Option kbase_hwcnt_gpu_info) (counter_set : kbase_hwcnt_set)
    (out_metadata : Option (Option kbase_hwcnt_metadata)) :
    Int × Option (Option kbase_hwcnt_metadata) :=
  match gpu_info, out_metadata with
  | some info, some _ =>
    match kbasep_hwcnt_backend_gpu_metadata_create metadata_create info true counter_set with
    | .error errcode => (errcode, out_metadata)
    | .ok metadata => (0, some (some metadata))
  | _, _ => (-EINVAL, out_metadata)

/-! ## Dump merge engine -/

/-- `is_block_type_shader`. -/
def is_block_type_shader (grp_type : kbase_hwcnt_gpu_group_type)
    (blk_type : kbase_hwcnt_gpu_v5_block_type) (_blk : Nat) : Bool :=
  if grp_type ≠ KBASE_HWCNT_GPU_GROUP_TYPE_V5 then false
  else if blk_type = KBASE_HWCNT_GPU_V5_BLOCK_TYPE_PERF_SC ∨
      blk_type = KBASE_HWCNT_GPU_V5_BLOCK_TYPE_PERF_SC2 ∨
      blk_type = KBASE_HWCNT_GPU_V5_BLOCK_TYPE_PERF_SC3 then true
  else false

/-- The variables that the loop of `kbase_hwcnt_jm_dump_get` carries from one
block instance to the next: the destination values, `src_offset` and
`core_mask`. -/
structure jm_dump_state where
  dump_buf : Nat → Nat → Nat → Nat → Nat
  src_offset : Nat
  core_mask : Nat

/-- One pass of the loop body of `kbase_hwcnt_jm_dump_get`, for the
block instance `it = (grp, blk, blk_inst)`. `dump_src` is the raw source viewed as
32-bit words. -/
def kbase_hwcnt_jm_dump_get_block (metadata : kbase_hwcnt_metadata)
    (dst_enable_map : kbase_hwcnt_enable_map) (dump_src : Nat → Nat) (accumulate : Bool)
    (st : jm_dump_state) (it : Nat × Nat × Nat) : jm_dump_state :=
  let grp := it.1
  let blk := it.2.1
  let blk_inst := it.2.2
  let hdr_cnt := kbase_hwcnt_metadata_block_headers_count metadata grp blk
  let ctr_cnt := kbase_hwcnt_metadata_block_counters_count metadata grp blk
  let blk_type := kbase_hwcnt_metadata_block_type metadata grp blk
  let is_shader_core :=
    is_block_type_shader (kbase_hwcnt_metadata_group_type metadata grp) blk_type blk
  let dump_buf :=
    if kbase_hwcnt_enable_map_block_enabled dst_enable_map grp blk blk_inst then
      let dst_blk := st.dump_buf grp blk blk_inst
      let src_blk := fun j => dump_src (st.src_offset + j)
      if !is_shader_core || (st.core_mask &&& 1) != 0 then
        if accumulate then
          block_instance_store st.dump_buf grp blk blk_inst
            (kbase_hwcnt_dump_buffer_block_accumulate dst_blk src_blk hdr_cnt ctr_cnt)
        else
          block_instance_store st.dump_buf grp blk blk_inst
            (kbase_hwcnt_dump_buffer_block_copy dst_blk src_blk
              ((hdr_cnt + ctr_cnt) % 2 ^ 64))
      else if !accumulate then
        block_instance_store st.dump_buf grp blk blk_inst
          (kbase_hwcnt_dump_buffer_block_zero dst_blk ((hdr_cnt + ctr_cnt) % 2 ^ 64))
      else st.dump_buf
    else st.dump_buf
  { dump_buf := dump_buf
    src_offset := (st.src_offset + (hdr_cnt + ctr_cnt)) % 2 ^ 64
    core_mask := if is_shader_core then st.core_mask >>> 1 else st.core_mask }

/-- The loop of `kbase_hwcnt_jm_dump_get` over the block instances `its`. -/
def kbase_hwcnt_jm_dump_get_loop (metadata : kbase_hwcnt_metadata)
    (dst_enable_map : kbase_hwcnt_enable_map) (dump_src : Nat → Nat) (accumulate : Bool)
    (st : jm_dump_state) (its : List (Nat × Nat × Nat)) : jm_dump_state :=
  its.foldl (kbase_hwcnt_jm_dump_get_block metadata dst_enable_map dump_src accumulate) st

/-- `kbase_hwcnt_jm_dump_get`: the return value and the content of `*dst`
afterwards (`none` when `dst` is `NULL`). The test
`dst_enable_map->metadata != dst->metadata` compares two pointers, that is, the
two addresses. -/
def kbase_hwcnt_jm_dump_get (dst : Option kbase_hwcnt_dump_buffer)
    (src : Option (Nat → Nat)) (dst_enable_map : Option kbase_hwcnt_enable_map)
    (pm_core_mask : Nat) (accumulate : Bool) : Int × Option kbase_hwcnt_dump_buffer :=
  match dst, src, dst_enable_map with
  | some d, some dump_src, some em =>
    if em.metadata.addr ≠ d.metadata.addr then (-EINVAL, dst)
    else
      let metadata := d.metadata
      let st := kbase_hwcnt_jm_dump_get_loop metadata em dump_src accumulate
        { dump_buf := d.dump_buf, src_offset := 0, core_mask := pm_core_mask }
        (kbase_hwcnt_metadata_for_each_block metadata)
      (0, some { metadata := d.metadata, dump_buf := st.dump_buf })
  | _, _, _ => (-EINVAL, dst)

/-- The variables that the loop of `kbase_hwcnt_csf_dump_get` carries from one
block instance to the next. -/
structure csf_dump_state where
  dump_buf : Nat → Nat → Nat → Nat → Nat
  src_offset : Nat

/-- One pass of the loop body of `kbase_hwcnt_csf_dump_get`. -/
def kbase_hwcnt_csf_dump_get_block (metadata : kbase_hwcnt_metadata)
    (dst_enable_map : kbase_hwcnt_enable_map) (dump_src : Nat → Nat) (accumulate : Bool)
    (st : csf_dump_state) (it : Nat × Nat × Nat) : csf_dump_state :=
  let grp := it.1
  let blk := it.2.1
  let blk_inst := it.2.2
  let hdr_cnt := kbase_hwcnt_metadata_block_headers_count metadata grp blk
  let ctr_cnt := kbase_hwcnt_metadata_block_counters_count metadata grp blk
  let dump_buf :=
    if kbase_hwcnt_enable_map_block_enabled dst_enable_map grp blk blk_inst then
      let dst_blk := st.dump_buf grp blk blk_inst
      let src_blk := fun j => dump_src (st.src_offset + j)
      if accumulate then
        block_instance_store st.dump_buf grp blk blk_inst
          (kbase_hwcnt_dump_buffer_block_accumulate dst_blk src_blk hdr_cnt ctr_cnt)
      else
        block_instance_store st.dump_buf grp blk blk_inst
          (kbase_hwcnt_dump_buffer_block_copy dst_blk src_blk
            ((hdr_cnt + ctr_cnt) % 2 ^ 64))
    else st.dump_buf
  { dump_buf := dump_buf
    src_offset := (st.src_offset + (hdr_cnt + ctr_cnt)) % 2 ^ 64 }

/-- The loop of `kbase_hwcnt_csf_dump_get` over the block instances `its`. -/
def kbase_hwcnt_csf_dump_get_loop (metadata : kbase_hwcnt_metadata)
    (dst_enable_map : kbase_hwcnt_enable_map) (dump_src : Nat → Nat) (accumulate : Bool)
    (st : csf_dump_state) (its : List (Nat × Nat × Nat)) : csf_dump_state :=
  its.foldl (kbase_hwcnt_csf_dump_get_block metadata dst_enable_map dump_src accumulate) st

/-- `kbase_hwcnt_csf_dump_get`: the return value and the content of `*dst`
afterwards (`none` when `dst` is `NULL`). The test
`dst_enable_map->metadata != dst->metadata` compares two pointers, that is, the
two addresses. -/
def kbase_hwcnt_csf_dump_get (dst : Option kbase_hwcnt_dump_buffer)
    (src : Option (Nat → Nat)) (dst_enable_map : Option kbase_hwcnt_enable_map)
    (accumulate : Bool) : Int × Option kbase_hwcnt_dump_buffer :=
  match dst, src, dst_enable_map with
  | some d, some dump_src, some em =>
    if em.metadata.addr ≠ d.metadata.addr then (-EINVAL, dst)
    else
      let metadata := d.metadata
      let st := kbase_hwcnt_csf_dump_get_loop metadata em dump_src accumulate
        { dump_buf := d.dump_buf, src_offset := 0 }
        (kbase_hwcnt_metadata_for_each_block metadata)
      (0, some { metadata := d.metadata, dump_buf := st.dump_buf })
  | _, _, _ => (-EINVAL, dst)

/-! ## Enable-map codec -/

/-- One pass of the inner loop of
`kbasep_hwcnt_backend_gpu_block_map_to_physical`: `packed` after the pass for
`hword_bit`; `mask` and `packed` are `u16`. -/
def block_map_to_physical_hword (dword packed hword_bit : Nat) : Nat :=
  let dword_bit := hword_bit * 4
  let mask := ((((dword >>> (dword_bit + 0)) &&& 0x1) |||
                ((dword >>> (dword_bit + 1)) &&& 0x1) |||
                ((dword >>> (dword_bit + 2)) &&& 0x1) |||
                ((dword >>> (dword_bit + 3)) &&& 0x1)) % 2 ^ 16)
  (packed ||| (mask <<< hword_bit)) % 2 ^ 16

/-- One pass of the outer loop of
`kbasep_hwcnt_backend_gpu_block_map_to_physical`: `phys` after the pass for
`dword_idx`. -/
def block_map_to_physical_dword (lo hi : Nat) (phys dword_idx : Nat) : Nat :=
  let dword := [lo, hi].getD dword_idx 0
  let packed := (List.range 16).foldl (block_map_to_physical_hword dword) 0
  (phys ||| ((packed <<< (16 * dword_idx)) % 2 ^ 32)) % 2 ^ 32

/-- `kbasep_hwcnt_backend_gpu_block_map_to_physical`. -/
def kbasep_hwcnt_backend_gpu_block_map_to_physical (lo hi : Nat) : Nat :=
  (List.range 2).foldl (block_map_to_physical_dword lo hi) 0

/-- One pass of the inner loop of
`kbasep_hwcnt_backend_gpu_block_map_from_physical`: `dword` (a `u64`) after the
pass for `hword_bit`. -/
def block_map_from_physical_hword (packed dword hword_bit : Nat) : Nat :=
  let dword_bit := hword_bit * 4
  let mask := (packed >>> hword_bit) &&& 0x1
  let dword := (dword ||| ((mask <<< (dword_bit + 0)) % 2 ^ 64)) % 2 ^ 64
  let dword := (dword ||| ((mask <<< (dword_bit + 1)) % 2 ^ 64)) % 2 ^ 64
  let dword := (dword ||| ((mask <<< (dword_bit + 2)) % 2 ^ 64)) % 2 ^ 64
  (dword ||| ((mask <<< (dword_bit + 3)) % 2 ^ 64)) % 2 ^ 64

/-- The body of the outer loop of
`kbasep_hwcnt_backend_gpu_block_map_from_physical`: the value stored in
`dwords[dword_idx]`. -/
def block_map_from_physical_dword (phys dword_idx : Nat) : Nat :=
  let packed := (phys >>> (16 * dword_idx)) % 2 ^ 16
  (List.range 16).foldl (block_map_from_physical_hword packed) 0

/-- `kbasep_hwcnt_backend_gpu_block_map_from_physical`: the pair `(*lo, *hi)`. -/
def kbasep_hwcnt_backend_gpu_block_map_from_physical (phys : Nat) : Nat × Nat :=
  (block_map_from_physical_dword phys 0, block_map_from_physical_dword phys 1)

/-- The four accumulators `fe_bm`, `shader_bm`, `tiler_bm`, `mmu_l2_bm` (each a
`u64`) of `kbase_hwcnt_gpu_enable_map_to_physical`. -/
structure enable_map_to_physical_state where
  fe_bm : Nat
  shader_bm : Nat
  tiler_bm : Nat
  mmu_l2_bm : Nat
  deriving DecidableEq, Repr

/-- One pass of the loop body of `kbase_hwcnt_gpu_enable_map_to_physical`. -/
def kbase_hwcnt_gpu_enable_map_to_physical_block (src : kbase_hwcnt_enable_map)
    (st : enable_map_to_physical_state) (it : Nat × Nat × Nat) :
    enable_map_to_physical_state :=
  let grp := it.1
  let blk := it.2.1
  let blk_inst := it.2.2
  let grp_type := kbase_hwcnt_metadata_group_type src.metadata grp
  let blk_type := kbase_hwcnt_metadata_block_type src.metadata grp blk
  let blk_map := src.enable_map grp blk blk_inst
  if grp_type = KBASE_HWCNT_GPU_GROUP_TYPE_V5 then
    match blk_type with
    | KBASE_HWCNT_GPU_V5_BLOCK_TYPE_PERF_UNDEFINED => st
    | KBASE_HWCNT_GPU_V5_BLOCK_TYPE_PERF_FE
    | KBASE_HWCNT_GPU_V5_BLOCK_TYPE_PERF_FE2
    | KBASE_HWCNT_GPU_V5_BLOCK_TYPE_PERF_FE3 => { st with fe_bm := st.fe_bm ||| blk_map 0 }
    | KBASE_HWCNT_GPU_V5_BLOCK_TYPE_PERF_TILER =>
      { st with tiler_bm := st.tiler_bm ||| blk_map 0 }
    | KBASE_HWCNT_GPU_V5_BLOCK_TYPE_PERF_SC
    | KBASE_HWCNT_GPU_V5_BLOCK_TYPE_PERF_SC2
    | KBASE_HWCNT_GPU_V5_BLOCK_TYPE_PERF_SC3 =>
      { st with shader_bm := st.shader_bm ||| blk_map 0 }
    | KBASE_HWCNT_GPU_V5_BLOCK_TYPE_PERF_MEMSYS
    | KBASE_HWCNT_GPU_V5_BLOCK_TYPE_PERF_MEMSYS2 =>
      { st with mmu_l2_bm := st.mmu_l2_bm ||| blk_map 0 }
    | BLOCK_TYPE_UNKNOWN => st
  else st

/-- `kbase_hwcnt_gpu_enable_map_to_physical`: the content of `*dst` afterwards
(`none` when `dst` is `NULL`). -/
def kbase_hwcnt_gpu_enable_map_to_physical (dst : Option kbase_hwcnt_physical_enable_map)
    (src : Option kbase_hwcnt_enable_map) : Option kbase_hwcnt_physical_enable_map :=
  match src, dst with
  | some s, some _ =>
    let st := (kbase_hwcnt_metadata_for_each_block s.metadata).foldl
      (kbase_hwcnt_gpu_enable_map_to_physical_block s)
      { fe_bm := 0, shader_bm := 0, tiler_bm := 0, mmu_l2_bm := 0 }
    some { fe_bm := kbasep_hwcnt_backend_gpu_block_map_to_physical st.fe_bm 0
           shader_bm := kbasep_hwcnt_backend_gpu_block_map_to_physical st.shader_bm 0
           tiler_bm := kbasep_hwcnt_backend_gpu_block_map_to_physical st.tiler_bm 0
           mmu_l2_bm := kbasep_hwcnt_backend_gpu_block_map_to_physical st.mmu_l2_bm 0 }
  | _, _ => dst

/-- The store `*blk_map = value`: bitfield word 0 of a block instance of the
enable map is replaced. -/
def enable_map_store_first (enable_map : Nat → Nat → Nat → Nat → Nat)
    (grp blk blk_inst : Nat) (value : Nat) : Nat → Nat → Nat → Nat → Nat :=
  block_instance_store enable_map grp blk blk_inst
    (fun idx => if idx = 0 then value else enable_map grp blk blk_inst idx)

/-- One pass of the loop body of `kbase_hwcnt_gpu_enable_map_from_physical`;
`fe_bm`, `shader_bm`, `tiler_bm` and `mmu_l2_bm` are the unpacked low words. -/
def kbase_hwcnt_gpu_enable_map_from_physical_block (metadata : kbase_hwcnt_metadata)
    (fe_bm shader_bm tiler_bm mmu_l2_bm : Nat) (enable_map : Nat → Nat → Nat → Nat → Nat)
    (it : Nat × Nat × Nat) : Nat → Nat → Nat → Nat → Nat :=
  let grp := it.1
  let blk := it.2.1
  let blk_inst := it.2.2
  let grp_type := kbase_hwcnt_metadata_group_type metadata grp
  let blk_type := kbase_hwcnt_metadata_block_type metadata grp blk
  if grp_type = KBASE_HWCNT_GPU_GROUP_TYPE_V5 then
    match blk_type with
    | KBASE_HWCNT_GPU_V5_BLOCK_TYPE_PERF_UNDEFINED => enable_map
    | KBASE_HWCNT_GPU_V5_BLOCK_TYPE_PERF_FE
    | KBASE_HWCNT_GPU_V5_BLOCK_TYPE_PERF_FE2
    | KBASE_HWCNT_GPU_V5_BLOCK_TYPE_PERF_FE3 =>
      enable_map_store_first enable_map grp blk blk_inst fe_bm
    | KBASE_HWCNT_GPU_V5_BLOCK_TYPE_PERF_TILER =>
      enable_map_store_first enable_map grp blk blk_inst tiler_bm
    | KBASE_HWCNT_GPU_V5_BLOCK_TYPE_PERF_SC
    | KBASE_HWCNT_GPU_V5_BLOCK_TYPE_PERF_SC2
    | KBASE_HWCNT_GPU_V5_BLOCK_TYPE_PERF_SC3 =>
      enable_map_store_first enable_map grp blk blk_inst shader_bm
    | KBASE_HWCNT_GPU_V5_BLOCK_TYPE_PERF_MEMSYS
    | KBASE_HWCNT_GPU_V5_BLOCK_TYPE_PERF_MEMSYS2 =>
      enable_map_store_first enable_map grp blk blk_inst mmu_l2_bm
    | BLOCK_TYPE_UNKNOWN => enable_map
  else enable_map

/-- `kbase_hwcnt_gpu_enable_map_from_physical`: the content of `*dst`
afterwards (`none` when `dst` is `NULL`). -/
def kbase_hwcnt_gpu_enable_map_from_physical (dst : Option kbase_hwcnt_enable_map)
    (src : Option kbase_hwcnt_physical_enable_map) : Option kbase_hwcnt_enable_map :=
  match src, dst with
  | some s, some d =>
    let metadata := d.metadata
    let fe_bm := (kbasep_hwcnt_backend_gpu_block_map_from_physical s.fe_bm).1
    let shader_bm := (kbasep_hwcnt_backend_gpu_block_map_from_physical s.shader_bm).1
    let tiler_bm := (kbasep_hwcnt_backend_gpu_block_map_from_physical s.tiler_bm).1
    let mmu_l2_bm := (kbasep_hwcnt_backend_gpu_block_map_from_physical s.mmu_l2_bm).1
    let enable_map := (kbase_hwcnt_metadata_for_each_block metadata).foldl
      (kbase_hwcnt_gpu_enable_map_from_physical_block metadata fe_bm shader_bm tiler_bm
        mmu_l2_bm) d.enable_map
    some { metadata := d.metadata, enable_map := enable_map }
  | _, _ => dst

/-! ## Header patcher -/

/-- One pass of the loop body of `kbase_hwcnt_gpu_patch_dump_headers`. -/
def kbase_hwcnt_gpu_patch_dump_headers_block (metadata : kbase_hwcnt_metadata)
    (enable_map : kbase_hwcnt_enable_map) (dump_buf : Nat → Nat → Nat → Nat → Nat)
    (it : Nat × Nat × Nat) : Nat → Nat → Nat → Nat → Nat :=
  let grp := it.1
  let blk := it.2.1
  let blk_inst := it.2.2
  let grp_type := kbase_hwcnt_metadata_group_type metadata grp
  let buf_blk := dump_buf grp blk blk_inst
  let blk_map := enable_map.enable_map grp blk blk_inst
  let prfcnt_en := kbasep_hwcnt_backend_gpu_block_map_to_physical (blk_map 0) 0
  if grp_type = KBASE_HWCNT_GPU_GROUP_TYPE_V5 then
    block_instance_store dump_buf grp blk blk_inst
      (fun j => if j = KBASE_HWCNT_V5_PRFCNT_EN_HEADER then prfcnt_en else buf_blk j)
  else dump_buf

/-- `kbase_hwcnt_gpu_patch_dump_headers`: the content of `*buf` afterwards
(`none` when `buf` is `NULL`). The test `buf->metadata != enable_map->metadata`
compares two pointers, that is, the two addresses. -/
def kbase_hwcnt_gpu_patch_dump_headers (buf : Option kbase_hwcnt_dump_buffer)
    (enable_map : Option kbase_hwcnt_enable_map) : Option kbase_hwcnt_dump_buffer :=
  match buf, enable_map with
  | some b, some em =>
    if b.metadata.addr ≠ em.metadata.addr then buf
    else
      let dump_buf := (kbase_hwcnt_metadata_for_each_block b.metadata).foldl
        (kbase_hwcnt_gpu_patch_dump_headers_block b.metadata em) b.dump_buf
      some { metadata := b.metadata, dump_buf := dump_buf }
  | _, _ => buf

/-! ## Derived notions used to state the properties -/

/-- The value of `is_shader_core` in the loop body of `kbase_hwcnt_jm_dump_get`
for the block instance `it = (grp, blk, blk_inst)`. -/
def block_is_shader (metadata : kbase_hwcnt_metadata) (it : Nat × Nat × Nat) : Bool :=
  is_block_type_shader (kbase_hwcnt_metadata_group_type metadata it.1)
    (kbase_hwcnt_metadata_block_type metadata it.1 it.2.1) it.2.1

/-- The number of values `hdr_cnt + ctr_cnt` by which the loop body of the merge
advances `src_offset` for the block instance `it`. -/
def block_src_words (metadata : kbase_hwcnt_metadata) (it : Nat × Nat × Nat) : Nat :=
  kbase_hwcnt_metadata_block_headers_count metadata it.1 it.2.1 +
    kbase_hwcnt_metadata_block_counters_count metadata it.1 it.2.1

/-- The four accumulators of the `switch` in
`kbase_hwcnt_gpu_enable_map_to_physical` and
`kbase_hwcnt_gpu_enable_map_from_physical`. -/
inductive v5_role where
  | FE
  | TILER
  | SHADER
  | MEMSYS
  deriving DecidableEq, Repr

/-- The arm of the `switch` of `kbase_hwcnt_gpu_enable_map_to_physical` and
`kbase_hwcnt_gpu_enable_map_from_physical` taken for a group type and a block
type: the role whose bitmap the block belongs to, or `none` for the arms that
do nothing (undefined type, unknown type, unknown group). -/
def v5_block_role (grp_type : kbase_hwcnt_gpu_group_type)
    (blk_type : kbase_hwcnt_gpu_v5_block_type) : Option v5_role :=
  if grp_type = KBASE_HWCNT_GPU_GROUP_TYPE_V5 then
    match blk_type with
    | KBASE_HWCNT_GPU_V5_BLOCK_TYPE_PERF_UNDEFINED => none
    | KBASE_HWCNT_GPU_V5_BLOCK_TYPE_PERF_FE
    | KBASE_HWCNT_GPU_V5_BLOCK_TYPE_PERF_FE2
    | KBASE_HWCNT_GPU_V5_BLOCK_TYPE_PERF_FE3 => some v5_role.FE
    | KBASE_HWCNT_GPU_V5_BLOCK_TYPE_PERF_TILER => some v5_role.TILER
    | KBASE_HWCNT_GPU_V5_BLOCK_TYPE_PERF_SC
    | KBASE_HWCNT_GPU_V5_BLOCK_TYPE_PERF_SC2
    | KBASE_HWCNT_GPU_V5_BLOCK_TYPE_PERF_SC3 => some v5_role.SHADER
    | KBASE_HWCNT_GPU_V5_BLOCK_TYPE_PERF_MEMSYS
    | KBASE_HWCNT_GPU_V5_BLOCK_TYPE_PERF_MEMSYS2 => some v5_role.MEMSYS
    | BLOCK_TYPE_UNKNOWN => none
  else none

/-- The role of the block instance `it` in the metadata. -/
def block_role (metadata : kbase_hwcnt_metadata) (it : Nat × Nat × Nat) : Option v5_role :=
  v5_block_role (kbase_hwcnt_metadata_group_type metadata it.1)
    (kbase_hwcnt_metadata_block_type metadata it.1 it.2.1)

/-- The bitmap of a role in a physical enable map. -/
def kbase_hwcnt_physical_enable_map.role_bm (p : kbase_hwcnt_physical_enable_map) :
    v5_role → Nat
  | v5_role.FE => p.fe_bm
  | v5_role.TILER => p.tiler_bm
  | v5_role.SHADER => p.shader_bm
  | v5_role.MEMSYS => p.mmu_l2_bm

/-- The accumulator of a role in the loop of
`kbase_hwcnt_gpu_enable_map_to_physical`. -/
def enable_map_to_physical_state.role_bm (st : enable_map_to_physical_state) :
    v5_role → Nat
  | v5_role.FE => st.fe_bm
  | v5_role.TILER => st.tiler_bm
  | v5_role.SHADER => st.shader_bm
  | v5_role.MEMSYS => st.mmu_l2_bm

/-! ## The scenario of the merge example

One front-end, one tiler, one memory-system slice and a core mask `0b101`
(three shader-core instances, cores 0 and 2 present), Primary counter set on
the legacy path. -/

/-- The chip descriptor of the example. -/
def merge_example_gpu_info : kbase_hwcnt_gpu_info :=
  { l2_count := 1, core_mask := 0b101, clk_cnt := 1 }

/-- The metadata that `kbasep_hwcnt_backend_gpu_metadata_create` builds for
`merge_example_gpu_info`. -/
def merge_example_metadata : kbase_hwcnt_metadata :=
  { addr := 0x1000
    grps := [ { type := KBASE_HWCNT_GPU_GROUP_TYPE_V5
                blks := [ { type := KBASE_HWCNT_GPU_V5_BLOCK_TYPE_PERF_FE
                            inst_cnt := 1, hdr_cnt := 4, ctr_cnt := 60 },
                          { type := KBASE_HWCNT_GPU_V5_BLOCK_TYPE_PERF_TILER
                            inst_cnt := 1, hdr_cnt := 4, ctr_cnt := 60 },
                          { type := KBASE_HWCNT_GPU_V5_BLOCK_TYPE_PERF_MEMSYS
                            inst_cnt := 1, hdr_cnt := 4, ctr_cnt := 60 },
                          { type := KBASE_HWCNT_GPU_V5_BLOCK_TYPE_PERF_SC
                            inst_cnt := 3, hdr_cnt := 4, ctr_cnt := 60 } ] } ]
    avail_mask := some 0b101111
    clk_cnt := 1
    dump_buf_bytes := 1536 }

/-- An enable map with every value of every block instance enabled. -/
def merge_example_enable_map : kbase_hwcnt_enable_map :=
  { metadata := merge_example_metadata, enable_map := fun _ _ _ _ => 2 ^ 64 - 1 }

/-- An enable map with the tiler block disabled and every other block
enabled. -/
def merge_example_enable_map_no_tiler : kbase_hwcnt_enable_map :=
  { metadata := merge_example_metadata
    enable_map := fun _ blk _ _ => if blk = 1 then 0 else 2 ^ 64 - 1 }

/-- A destination buffer pre-filled with 1s. -/
def merge_example_dump_buffer : kbase_hwcnt_dump_buffer :=
  { metadata := merge_example_metadata, dump_buf := fun _ _ _ _ => 1 }

/-- A raw source of all-ones words. -/
def merge_example_src : Nat → Nat := fun _ => 2 ^ 32 - 1

/-- A second metadata object with the content of `merge_example_metadata`, built
separately and kept at another address. -/
def merge_example_metadata_copy : kbase_hwcnt_metadata :=
  { merge_example_metadata with addr := 0x4000 }

/-- An enable map bound to `merge_example_metadata_copy`, with every value of
every block instance enabled. -/
def merge_example_enable_map_copy : kbase_hwcnt_enable_map :=
  { metadata := merge_example_metadata_copy, enable_map := fun _ _ _ _ => 2 ^ 64 - 1 }

/-! ## Further example inputs for the enable-map codec -/

/-- The metadata that `kbasep_hwcnt_backend_gpu_metadata_create` builds for
`merge_example_gpu_info` on the legacy path with the Secondary counter set: the
front-end and the tiler have the undefined type. -/
def secondary_example_metadata : kbase_hwcnt_metadata :=
  { addr := 0x2000
    grps := [ { type := KBASE_HWCNT_GPU_GROUP_TYPE_V5
                blks := [ { type := KBASE_HWCNT_GPU_V5_BLOCK_TYPE_PERF_UNDEFINED
                            inst_cnt := 1, hdr_cnt := 4, ctr_cnt := 60 },
                          { type := KBASE_HWCNT_GPU_V5_BLOCK_TYPE_PERF_UNDEFINED
                            inst_cnt := 1, hdr_cnt := 4, ctr_cnt := 60 },
                          { type := KBASE_HWCNT_GPU_V5_BLOCK_TYPE_PERF_MEMSYS2
                            inst_cnt := 1, hdr_cnt := 4, ctr_cnt := 60 },
                          { type := KBASE_HWCNT_GPU_V5_BLOCK_TYPE_PERF_SC2
                            inst_cnt := 3, hdr_cnt := 4, ctr_cnt := 60 } ] } ]
    avail_mask := some 0b101111
    clk_cnt := 1
    dump_buf_bytes := 1536 }

/-- A chip descriptor with one memory-system slice and an empty core mask. -/
def no_core_example_gpu_info : kbase_hwcnt_gpu_info :=
  { l2_count := 1, core_mask := 0, clk_cnt := 1 }

/-- The metadata that `kbasep_hwcnt_backend_gpu_metadata_create` builds for
`no_core_example_gpu_info` with the Primary counter set: the shader-core block
has no instance. -/
def no_core_example_metadata : kbase_hwcnt_metadata :=
  { addr := 0x3000
    grps := [ { type := KBASE_HWCNT_GPU_GROUP_TYPE_V5
                blks := [ { type := KBASE_HWCNT_GPU_V5_BLOCK_TYPE_PERF_FE
                            inst_cnt := 1, hdr_cnt := 4, ctr_cnt := 60 },
                          { type := KBASE_HWCNT_GPU_V5_BLOCK_TYPE_PERF_TILER
                            inst_cnt := 1, hdr_cnt := 4, ctr_cnt := 60 },
                          { type := KBASE_HWCNT_GPU_V5_BLOCK_TYPE_PERF_MEMSYS
                            inst_cnt := 1, hdr_cnt := 4, ctr_cnt := 60 },
                          { type := KBASE_HWCNT_GPU_V5_BLOCK_TYPE_PERF_SC
                            inst_cnt := 0, hdr_cnt := 4, ctr_cnt := 60 } ] } ]
    avail_mask := some 0b111
    clk_cnt := 1
    dump_buf_bytes := 768 }

/-- An enable map over `merge_example_metadata` in which every block instance
holds the same first bitmap word, with only value 0 enabled. -/
def single_value_example_enable_map : kbase_hwcnt_enable_map :=
  { metadata := merge_example_metadata, enable_map := fun _ _ _ _ => 1 }

/-- An enable map over `merge_example_metadata` in which every block instance
has the values 0 to 7 enabled. -/
def two_groups_example_enable_map : kbase_hwcnt_enable_map :=
  { metadata := merge_example_metadata, enable_map := fun _ _ _ _ => 0xFF }

/-! ## Example inputs for the header patcher and for undefined block types -/

/-- An enable map over `merge_example_metadata` with the values 0 to 3 of the
front-end block enabled and nothing else. -/
def header_example_enable_map : kbase_hwcnt_enable_map :=
  { metadata := merge_example_metadata
    enable_map := fun _ blk _ _ => if blk = 0 then 0xF else 0 }

/-- An enable map over `secondary_example_metadata` with every value of every
block instance enabled, the two blocks of undefined type included. -/
def secondary_example_enable_map : kbase_hwcnt_enable_map :=
  { metadata := secondary_example_metadata, enable_map := fun _ _ _ _ => 2 ^ 64 - 1 }

/-- An enable map over `secondary_example_metadata` in which the two blocks of
undefined type (front-end and tiler) are disabled and the others enabled. -/
def secondary_example_enable_map_defined_only : kbase_hwcnt_enable_map :=
  { metadata := secondary_example_metadata
    enable_map := fun _ blk _ _ => if blk < 2 then 0 else 2 ^ 64 - 1 }

/-- A destination buffer over `secondary_example_metadata` pre-filled with
1s. -/
def secondary_example_dump_buffer : kbase_hwcnt_dump_buffer :=
  { metadata := secondary_example_metadata, dump_buf := fun _ _ _ _ => 1 }

/-! ## Bit-level facts about the codec -/

theorem one_testBit (k : Nat) : (1 : Nat).testBit k = decide (k = 0) := by
  cases k with
  | zero => simp
  | succ k => simp [Nat.testBit_succ]

theorem block_map_to_physical_hword_testBit (dword packed h g : Nat) :
    (block_map_to_physical_hword dword packed h).testBit g
      = (decide (g < 16) && (packed.testBit g || (decide (g = h) &&
          (dword.testBit (4 * h) || dword.testBit (4 * h + 1) || dword.testBit (4 * h + 2) ||
            dword.testBit (4 * h + 3))))) := by
  unfold block_map_to_physical_hword
  simp only [Nat.testBit_mod_two_pow, Nat.testBit_or, Nat.testBit_shiftLeft, Nat.testBit_and,
      Nat.testBit_shiftRight, one_testBit]
  by_cases h2 : g = h
  · subst h2
    have e : 4 * g = g * 4 := by omega
    simp [e]
  · by_cases h3 : g ≥ h
    · have : ¬ (g - h = 0) := by omega
      simp [h2, h3, this]
    · simp [h2, h3]

theorem block_map_to_physical_hword_loop_testBit (dword n g : Nat) (hn : n ≤ 16) :
    ((List.range n).foldl (block_map_to_physical_hword dword) 0).testBit g
      = (decide (g < n) &&
          (dword.testBit (4 * g) || dword.testBit (4 * g + 1) || dword.testBit (4 * g + 2) ||
            dword.testBit (4 * g + 3))) := by
  induction n with
  | zero => simp
  | succ n ih =>
    rw [List.range_succ, List.foldl_append, List.foldl_cons, List.foldl_nil,
      block_map_to_physical_hword_testBit, ih (by omega)]
    by_cases h1 : g < n
    · have h2 : g ≠ n := by omega
      have h3 : g < 16 := by omega
      have h4 : g < n + 1 := by omega
      simp [h1, h2, h3, h4]
    · by_cases h2 : g = n
      · subst h2
        have h3 : g < 16 := by omega
        simp [h3]
      · have : ¬ (g < n + 1) := by omega
        simp [h1, this, h2]

theorem block_map_to_physical_testBit (lo hi b : Nat) :
    (kbasep_hwcnt_backend_gpu_block_map_to_physical lo hi).testBit b
      = if b < 16 then
          (lo.testBit (4 * b) || lo.testBit (4 * b + 1) || lo.testBit (4 * b + 2) ||
            lo.testBit (4 * b + 3))
        else if b < 32 then
          (hi.testBit (4 * (b - 16)) || hi.testBit (4 * (b - 16) + 1) ||
            hi.testBit (4 * (b - 16) + 2) || hi.testBit (4 * (b - 16) + 3))
        else false := by
  unfold kbasep_hwcnt_backend_gpu_block_map_to_physical
  rw [show List.range 2 = [0, 1] from rfl, List.foldl_cons, List.foldl_cons, List.foldl_nil]
  unfold block_map_to_physical_dword
  simp only [Nat.testBit_mod_two_pow, Nat.testBit_or, Nat.testBit_shiftLeft,
    block_map_to_physical_hword_loop_testBit _ 16 _ (Nat.le_refl 16), Nat.zero_testBit,
    List.getD_cons_zero, List.getD_cons_succ, Nat.mul_zero, Nat.mul_one, Bool.false_or]
  by_cases h1 : b < 16
  · have h2 : b < 32 := by omega
    have h3 : ¬ (b ≥ 16) := by omega
    simp [h1, h2, h3]
  · by_cases h2 : b < 32
    · have h3 : b ≥ 16 := by omega
      have h4 : b - 16 < 16 := by omega
      simp [h1, h2, h3, h4]
    · simp [h1, h2]

theorem block_map_to_physical_lt (lo hi : Nat) :
    kbasep_hwcnt_backend_gpu_block_map_to_physical lo hi < 2 ^ 32 := by
  unfold kbasep_hwcnt_backend_gpu_block_map_to_physical
  rw [show List.range 2 = [0, 1] from rfl, List.foldl_cons, List.foldl_cons, List.foldl_nil]
  unfold block_map_to_physical_dword
  exact Nat.mod_lt _ (by norm_num)

theorem block_map_from_physical_hword_testBit (packed dword h b : Nat) :
    (block_map_from_physical_hword packed dword h).testBit b
      = (decide (b < 64) && (dword.testBit b || (decide (b / 4 = h) && packed.testBit h))) := by
  unfold block_map_from_physical_hword
  simp only [Nat.testBit_mod_two_pow, Nat.testBit_or, Nat.testBit_shiftLeft, Nat.testBit_and,
      Nat.testBit_shiftRight, one_testBit]
  by_cases hb : b < 64
  · by_cases h4 : b / 4 = h
    · simp only [hb, h4, decide_True, Bool.true_and]
      have hk : b = h * 4 + 0 ∨ b = h * 4 + 1 ∨ b = h * 4 + 2 ∨ b = h * 4 + 3 := by omega
      rcases hk with hk | hk | hk | hk <;> subst hk <;> simp
    · have n0 : ¬ (b ≥ h * 4 + 0 ∧ b - (h * 4 + 0) = 0) := by omega
      have n1 : ¬ (b ≥ h * 4 + 1 ∧ b - (h * 4 + 1) = 0) := by omega
      have n2 : ¬ (b ≥ h * 4 + 2 ∧ b - (h * 4 + 2) = 0) := by omega
      have n3 : ¬ (b ≥ h * 4 + 3 ∧ b - (h * 4 + 3) = 0) := by omega
      simp only [hb, h4, decide_True, decide_False, Bool.true_and, Bool.false_and, Bool.or_false]
      cases hd : dword.testBit b
      · simp
        refine ⟨⟨⟨?_, ?_⟩, ?_⟩, ?_⟩ <;> intro h1 _ h2 <;> omega
      · simp
  · simp [hb]

theorem block_map_from_physical_hword_loop_testBit (packed n b : Nat) :
    ((List.range n).foldl (block_map_from_physical_hword packed) 0).testBit b
      = (decide (b < 64) && decide (b / 4 < n) && packed.testBit (b / 4)) := by
  induction n with
  | zero => simp
  | succ n ih =>
    rw [List.range_succ, List.foldl_append, List.foldl_cons, List.foldl_nil,
      block_map_from_physical_hword_testBit, ih]
    by_cases hb : b < 64
    · by_cases h1 : b / 4 < n
      · have h2 : b / 4 < n + 1 := by omega
        have h3 : b / 4 ≠ n := by omega
        simp [hb, h1, h2, h3]
      · by_cases h2 : b / 4 = n
        · subst h2
          simp [hb]
        · have h3 : ¬ (b / 4 < n + 1) := by omega
          simp [hb, h1, h2, h3]
    · simp [hb]

theorem block_map_from_physical_dword_testBit (phys idx b : Nat) :
    (block_map_from_physical_dword phys idx).testBit b
      = (decide (b < 64) && phys.testBit (16 * idx + b / 4)) := by
  unfold block_map_from_physical_dword
  simp only [block_map_from_physical_hword_loop_testBit, Nat.testBit_mod_two_pow,
    Nat.testBit_shiftRight]
  by_cases hb : b < 64
  · have h1 : b / 4 < 16 := by omega
    simp [hb, h1]
  · simp [hb]

theorem block_map_from_physical_dword_lt (phys idx : Nat) :
    block_map_from_physical_dword phys idx < 2 ^ 64 := by
  apply Nat.lt_pow_two_of_testBit
  intro i hi
  rw [block_map_from_physical_dword_testBit]
  have : ¬ (i < 64) := by
    intro h
    have : 2 ^ i < 2 ^ 64 := Nat.pow_lt_pow_right (by norm_num) h
    omega
  simp [this]

/-- Packing the unpacked low word of a physical bitmap returns its low 16
bits. -/
theorem block_map_to_physical_from_physical (phys : Nat) :
    kbasep_hwcnt_backend_gpu_block_map_to_physical
      (kbasep_hwcnt_backend_gpu_block_map_from_physical phys).1 0 = phys % 2 ^ 16 := by
  apply Nat.eq_of_testBit_eq
  intro b
  rw [block_map_to_physical_testBit, Nat.testBit_mod_two_pow]
  simp only [kbasep_hwcnt_backend_gpu_block_map_from_physical,
    block_map_from_physical_dword_testBit, Nat.zero_testBit]
  by_cases hb : b < 16
  · have e0 : (4 * b) / 4 = b := by omega
    have e1 : (4 * b + 1) / 4 = b := by omega
    have e2 : (4 * b + 2) / 4 = b := by omega
    have e3 : (4 * b + 3) / 4 = b := by omega
    have l0 : 4 * b < 64 := by omega
    have l1 : 4 * b + 1 < 64 := by omega
    have l2 : 4 * b + 2 < 64 := by omega
    have l3 : 4 * b + 3 < 64 := by omega
    simp [hb, e0, e1, e2, e3, l0, l1, l2, l3]
  · simp [hb]

/-- Unpacking a packed low word sets a whole aligned group of four bits exactly
when the word had a bit of that group set. -/
theorem block_map_from_physical_to_physical_testBit (lo b : Nat) :
    (kbasep_hwcnt_backend_gpu_block_map_from_physical
      (kbasep_hwcnt_backend_gpu_block_map_to_physical lo 0)).1.testBit b
      = (decide (b < 64) &&
          (lo.testBit (4 * (b / 4)) || lo.testBit (4 * (b / 4) + 1) ||
            lo.testBit (4 * (b / 4) + 2) || lo.testBit (4 * (b / 4) + 3))) := by
  simp only [kbasep_hwcnt_backend_gpu_block_map_from_physical,
    block_map_from_physical_dword_testBit, block_map_to_physical_testBit]
  by_cases hb : b < 64
  · have h1 : b / 4 < 16 := by omega
    simp [hb, h1]
  · simp [hb]

/-! ## The merge loop, one block instance at a time -/

theorem block_instance_store_same (store : Nat → Nat → Nat → Nat → Nat) (g b i : Nat)
    (words : Nat → Nat) : block_instance_store store g b i words g b i = words := by
  simp [block_instance_store]

theorem block_instance_store_other (store : Nat → Nat → Nat → Nat → Nat) (g b i g' b' i' : Nat)
    (words : Nat → Nat) (h : (g', b', i') ≠ (g, b, i)) :
    block_instance_store store g b i words g' b' i' = store g' b' i' := by
  have : ¬ (g' = g ∧ b' = b ∧ i' = i) := by
    rintro ⟨rfl, rfl, rfl⟩
    exact h rfl
  simp [block_instance_store, this]

theorem jm_block_src_offset (md : kbase_hwcnt_metadata) (em : kbase_hwcnt_enable_map)
    (src : Nat → Nat) (acc : Bool) (st : jm_dump_state) (it : Nat × Nat × Nat) :
    (kbase_hwcnt_jm_dump_get_block md em src acc st it).src_offset
      = (st.src_offset + block_src_words md it) % 2 ^ 64 := rfl

theorem jm_block_core_mask (md : kbase_hwcnt_metadata) (em : kbase_hwcnt_enable_map)
    (src : Nat → Nat) (acc : Bool) (st : jm_dump_state) (it : Nat × Nat × Nat) :
    (kbase_hwcnt_jm_dump_get_block md em src acc st it).core_mask
      = if block_is_shader md it then st.core_mask >>> 1 else st.core_mask := rfl

theorem jm_block_other (md : kbase_hwcnt_metadata) (em : kbase_hwcnt_enable_map)
    (src : Nat → Nat) (acc : Bool) (st : jm_dump_state) (it : Nat × Nat × Nat)
    (g b i : Nat) (h : (g, b, i) ≠ it) :
    (kbase_hwcnt_jm_dump_get_block md em src acc st it).dump_buf g b i = st.dump_buf g b i := by
  obtain ⟨g0, b0, i0⟩ := it
  simp only [kbase_hwcnt_jm_dump_get_block]
  split_ifs <;> first | rfl | exact block_instance_store_other _ _ _ _ _ _ _ _ h

theorem jm_block_disabled (md : kbase_hwcnt_metadata) (em : kbase_hwcnt_enable_map)
    (src : Nat → Nat) (acc : Bool) (st : jm_dump_state) (it : Nat × Nat × Nat)
    (h : kbase_hwcnt_enable_map_block_enabled em it.1 it.2.1 it.2.2 = false) :
    (kbase_hwcnt_jm_dump_get_block md em src acc st it).dump_buf = st.dump_buf := by
  simp [kbase_hwcnt_jm_dump_get_block, h]

/-- What the loop body of `kbase_hwcnt_jm_dump_get` leaves in the visited
block instance when that instance is enabled. -/
theorem jm_block_enabled (md : kbase_hwcnt_metadata) (em : kbase_hwcnt_enable_map)
    (src : Nat → Nat) (acc : Bool) (st : jm_dump_state) (g b i : Nat)
    (h : kbase_hwcnt_enable_map_block_enabled em g b i = true) (j : Nat) :
    (kbase_hwcnt_jm_dump_get_block md em src acc st (g, b, i)).dump_buf g b i j
      = if block_is_shader md (g, b, i) = false ∨ st.core_mask.testBit 0 = true then
          (if j < block_src_words md (g, b, i) % 2 ^ 64 then
            (if acc then (st.dump_buf g b i j + src (st.src_offset + j)) % 2 ^ 32
             else src (st.src_offset + j))
           else st.dump_buf g b i j)
        else if acc then st.dump_buf g b i j
        else (if j < block_src_words md (g, b, i) % 2 ^ 64 then 0 else st.dump_buf g b i j) := by
  have hbit : ((st.core_mask &&& 1) != 0) = st.core_mask.testBit 0 := by
    simp [Nat.testBit, Nat.and_comm]
  simp only [kbase_hwcnt_jm_dump_get_block, h, if_true, hbit]
  simp only [block_is_shader, block_src_words]
  cases hs : is_block_type_shader (kbase_hwcnt_metadata_group_type md g)
      (kbase_hwcnt_metadata_block_type md g b) b <;>
    cases hc : st.core_mask.testBit 0 <;> cases acc <;>
    simp [block_instance_store_same, kbase_hwcnt_dump_buffer_block_accumulate,
      kbase_hwcnt_dump_buffer_block_copy, kbase_hwcnt_dump_buffer_block_zero]

theorem jm_loop_nil (md : kbase_hwcnt_metadata) (em : kbase_hwcnt_enable_map)
    (src : Nat → Nat) (acc : Bool) (st : jm_dump_state) :
    kbase_hwcnt_jm_dump_get_loop md em src acc st [] = st := rfl

theorem jm_loop_cons (md : kbase_hwcnt_metadata) (em : kbase_hwcnt_enable_map)
    (src : Nat → Nat) (acc : Bool) (st : jm_dump_state) (it : Nat × Nat × Nat)
    (its : List (Nat × Nat × Nat)) :
    kbase_hwcnt_jm_dump_get_loop md em src acc st (it :: its)
      = kbase_hwcnt_jm_dump_get_loop md em src acc
          (kbase_hwcnt_jm_dump_get_block md em src acc st it) its := rfl

theorem jm_loop_append (md : kbase_hwcnt_metadata) (em : kbase_hwcnt_enable_map)
    (src : Nat → Nat) (acc : Bool) (st : jm_dump_state) (xs ys : List (Nat × Nat × Nat)) :
    kbase_hwcnt_jm_dump_get_loop md em src acc st (xs ++ ys)
      = kbase_hwcnt_jm_dump_get_loop md em src acc
          (kbase_hwcnt_jm_dump_get_loop md em src acc st xs) ys := by
  simp [kbase_hwcnt_jm_dump_get_loop, List.foldl_append]

theorem jm_loop_core_mask (md : kbase_hwcnt_metadata) (em : kbase_hwcnt_enable_map)
    (src : Nat → Nat) (acc : Bool) (its : List (Nat × Nat × Nat)) (st : jm_dump_state) :
    (kbase_hwcnt_jm_dump_get_loop md em src acc st its).core_mask
      = st.core_mask >>> (its.countP (block_is_shader md)) := by
  induction its generalizing st with
  | nil => simp [jm_loop_nil]
  | cons it its ih =>
    rw [jm_loop_cons, ih, jm_block_core_mask, List.countP_cons]
    by_cases hs : block_is_shader md it = true
    · simp only [hs, if_true]
      rw [← Nat.shiftRight_add, Nat.add_comm]
    · simp [hs]

theorem jm_loop_src_offset (md : kbase_hwcnt_metadata) (em : kbase_hwcnt_enable_map)
    (src : Nat → Nat) (acc : Bool) (its : List (Nat × Nat × Nat)) (st : jm_dump_state) :
    (kbase_hwcnt_jm_dump_get_loop md em src acc st its).src_offset
      = if its = [] then st.src_offset
        else (st.src_offset + (its.map (block_src_words md)).sum) % 2 ^ 64 := by
  induction its generalizing st with
  | nil => simp [jm_loop_nil]
  | cons it its ih =>
    rw [jm_loop_cons, ih, jm_block_src_offset]
    by_cases hn : its = []
    · subst hn
      simp
    · simp only [hn, if_false, List.map_cons, List.sum_cons, reduceCtorEq]
      rw [Nat.mod_add_mod, Nat.add_assoc]

theorem jm_loop_other (md : kbase_hwcnt_metadata) (em : kbase_hwcnt_enable_map)
    (src : Nat → Nat) (acc : Bool) (its : List (Nat × Nat × Nat)) (st : jm_dump_state)
    (g b i : Nat) (h : (g, b, i) ∉ its) :
    (kbase_hwcnt_jm_dump_get_loop md em src acc st its).dump_buf g b i = st.dump_buf g b i := by
  induction its generalizing st with
  | nil => rfl
  | cons it its ih =>
    rw [jm_loop_cons, ih _ (fun hm => h (List.mem_cons_of_mem _ hm)),
      jm_block_other md em src acc st it g b i (fun he => h (he ▸ List.mem_cons_self _ _))]

theorem jm_loop_disabled (md : kbase_hwcnt_metadata) (em : kbase_hwcnt_enable_map)
    (src : Nat → Nat) (acc : Bool) (its : List (Nat × Nat × Nat)) (st : jm_dump_state)
    (g b i : Nat) (h : kbase_hwcnt_enable_map_block_enabled em g b i = false) :
    (kbase_hwcnt_jm_dump_get_loop md em src acc st its).dump_buf g b i = st.dump_buf g b i := by
  induction its generalizing st with
  | nil => rfl
  | cons it its ih =>
    rw [jm_loop_cons, ih]
    by_cases he : (g, b, i) = it
    · subst he
      rw [jm_block_disabled md em src acc st (g, b, i) h]
    · exact jm_block_other md em src acc st it g b i he

/-! ## The order of iteration -/

theorem mem_for_each_block (md : kbase_hwcnt_metadata) (g b i : Nat) :
    (g, b, i) ∈ kbase_hwcnt_metadata_for_each_block md ↔
      g < kbase_hwcnt_metadata_group_count md ∧ b < kbase_hwcnt_metadata_block_count md g ∧
        i < kbase_hwcnt_metadata_block_instance_count md g b := by
  simp only [kbase_hwcnt_metadata_for_each_block, List.mem_flatMap, List.mem_map, List.mem_range,
    Prod.mk.injEq]
  constructor
  · rintro ⟨g', hg, b', hb, i', hi, rfl, rfl, rfl⟩
    exact ⟨hg, hb, hi⟩
  · rintro ⟨hg, hb, hi⟩
    exact ⟨g, hg, b, hb, i, hi, rfl, rfl, rfl⟩

theorem for_each_block_nodup (md : kbase_hwcnt_metadata) :
    (kbase_hwcnt_metadata_for_each_block md).Nodup := by
  unfold kbase_hwcnt_metadata_for_each_block
  rw [List.nodup_flatMap]
  refine ⟨fun g _ => ?_, ?_⟩
  · rw [List.nodup_flatMap]
    refine ⟨fun b _ => ?_, ?_⟩
    · refine (List.nodup_range _).map ?_
      intro x y hxy
      simpa using hxy
    · refine (List.nodup_range _).imp ?_
      intro x y hxy
      simp only [Function.onFun, List.disjoint_left, List.mem_map, List.mem_range, not_exists,
        not_and]
      rintro a ⟨i, _, rfl⟩ j _ hj
      simp only [Prod.mk.injEq] at hj
      exact hxy hj.2.1.symm
  · refine (List.nodup_range _).imp ?_
    intro x y hxy
    simp only [Function.onFun, List.disjoint_left, List.mem_flatMap, List.mem_map,
      List.mem_range, not_exists, not_and]
    rintro a ⟨b, _, i, _, rfl⟩ b' _ i' _ hj
    simp only [Prod.mk.injEq] at hj
    exact hxy hj.1.symm

theorem list_split_at {α : Type} (L : List α) (k : Nat) (a : α) (hk : L[k]? = some a) :
    L = L.take k ++ a :: L.drop (k + 1) := by
  obtain ⟨hlt, rfl⟩ := List.getElem?_eq_some.mp hk
  rw [← List.drop_eq_getElem_cons hlt, List.take_append_drop]

/-- The block instance visited at position `k`: the loop reaches it in the
state left by the first `k` passes, with its destination values as they were
at the start, and no later pass touches it. -/
theorem jm_loop_at (md : kbase_hwcnt_metadata) (em : kbase_hwcnt_enable_map)
    (src : Nat → Nat) (acc : Bool) (L : List (Nat × Nat × Nat)) (hnd : L.Nodup)
    (st : jm_dump_state) (k g b i : Nat) (hk : L[k]? = some (g, b, i)) :
    (kbase_hwcnt_jm_dump_get_loop md em src acc st L).dump_buf g b i
        = (kbase_hwcnt_jm_dump_get_block md em src acc
            (kbase_hwcnt_jm_dump_get_loop md em src acc st (L.take k)) (g, b, i)).dump_buf g b i ∧
      (kbase_hwcnt_jm_dump_get_loop md em src acc st (L.take k)).dump_buf g b i
        = st.dump_buf g b i := by
  have hsplit := list_split_at L k (g, b, i) hk
  have hnd2 := hnd
  rw [hsplit, List.nodup_append, List.nodup_cons] at hnd2
  obtain ⟨_, ⟨hnotin, _⟩, hdisj⟩ := hnd2
  have hpre : (g, b, i) ∉ L.take k := fun hm => hdisj hm (List.mem_cons_self _ _)
  constructor
  · conv_lhs => rw [hsplit]
    rw [jm_loop_append, jm_loop_cons, jm_loop_other _ _ _ _ _ _ _ _ _ hnotin]
  · exact jm_loop_other md em src acc _ st g b i hpre

/-! ## Metadata built by the planner -/

theorem metadata_create_ok_grps {addr : Nat} (gpu_info : kbase_hwcnt_gpu_info)
    (is_csf : Bool) (counter_set : kbase_hwcnt_set) (md : kbase_hwcnt_metadata)
    (h : kbasep_hwcnt_backend_gpu_metadata_create (kbase_hwcnt_metadata_create addr) gpu_info
      is_csf counter_set = .ok md) :
    md.grps = [ { type := KBASE_HWCNT_GPU_GROUP_TYPE_V5
                  blks := kbasep_hwcnt_backend_gpu_metadata_create_blks gpu_info is_csf
                    counter_set (fls64 gpu_info.core_mask) } ] := by
  unfold kbasep_hwcnt_backend_gpu_metadata_create at h
  simp only at h
  split_ifs at h
  simp only [kbase_hwcnt_metadata_create, kbasep_hwcnt_backend_gpu_metadata_create_desc,
    Except.ok.injEq] at h
  rw [← h]

theorem planner_for_each_block (gpu_info : kbase_hwcnt_gpu_info) (is_csf : Bool)
    (counter_set : kbase_hwcnt_set) (md : kbase_hwcnt_metadata)
    (hg : md.grps = [ { type := KBASE_HWCNT_GPU_GROUP_TYPE_V5
                        blks := kbasep_hwcnt_backend_gpu_metadata_create_blks gpu_info is_csf
                          counter_set (fls64 gpu_info.core_mask) } ]) :
    kbase_hwcnt_metadata_for_each_block md
      = ((0, 0, 0) :: (0, 1, 0) :: (List.range gpu_info.l2_count).map (fun i => (0, 2, i))) ++
            (List.range (fls64 gpu_info.core_mask)).map (fun i => (0, 3, i)) := by
  simp [kbase_hwcnt_metadata_for_each_block, kbase_hwcnt_metadata_group_count,
    kbase_hwcnt_metadata_block_count, kbase_hwcnt_metadata_block_instance_count,
    kbase_hwcnt_metadata_block, hg, kbasep_hwcnt_backend_gpu_metadata_create_blks,
    List.range_succ]

theorem planner_block_src_words (gpu_info : kbase_hwcnt_gpu_info) (is_csf : Bool)
    (counter_set : kbase_hwcnt_set) (md : kbase_hwcnt_metadata)
    (hg : md.grps = [ { type := KBASE_HWCNT_GPU_GROUP_TYPE_V5
                        blks := kbasep_hwcnt_backend_gpu_metadata_create_blks gpu_info is_csf
                          counter_set (fls64 gpu_info.core_mask) } ])
    (it : Nat × Nat × Nat) (hit : it ∈ kbase_hwcnt_metadata_for_each_block md) :
    block_src_words md it = 64 := by
  rw [planner_for_each_block gpu_info is_csf counter_set md hg] at hit
  simp only [List.cons_append, List.mem_cons, List.mem_append, List.mem_map, List.mem_range] at hit
  rcases hit with rfl | rfl | ⟨i, _, rfl⟩ | ⟨i, _, rfl⟩ <;>
    simp [block_src_words, kbase_hwcnt_metadata_block_headers_count,
      kbase_hwcnt_metadata_block_counters_count, kbase_hwcnt_metadata_block, hg,
      kbasep_hwcnt_backend_gpu_metadata_create_blks, KBASE_HWCNT_V5_HEADERS_PER_BLOCK,
      KBASE_HWCNT_V5_COUNTERS_PER_BLOCK]

theorem planner_block_is_shader (gpu_info : kbase_hwcnt_gpu_info) (is_csf : Bool)
    (counter_set : kbase_hwcnt_set) (md : kbase_hwcnt_metadata)
    (hg : md.grps = [ { type := KBASE_HWCNT_GPU_GROUP_TYPE_V5
                        blks := kbasep_hwcnt_backend_gpu_metadata_create_blks gpu_info is_csf
                          counter_set (fls64 gpu_info.core_mask) } ])
    (g b i : Nat) (hs : block_is_shader md (g, b, i) = true) :
    g = 0 ∧ b = 3 ∧ ∀ j, block_is_shader md (0, 3, j) = true := by
  simp only [block_is_shader, kbase_hwcnt_metadata_group_type, kbase_hwcnt_metadata_block_type,
    kbase_hwcnt_metadata_block, hg, kbasep_hwcnt_backend_gpu_metadata_create_blks] at hs ⊢
  match g, b with
  | 0, 0 => cases counter_set <;> cases is_csf <;> simp [is_block_type_shader, kbasep_get_fe_block_type] at hs
  | 0, 1 => cases counter_set <;> simp [is_block_type_shader, kbasep_get_tiler_block_type] at hs
  | 0, 2 => cases counter_set <;> simp [is_block_type_shader, kbasep_get_memsys_block_type] at hs
  | 0, 3 =>
    refine ⟨rfl, rfl, fun _ => ?_⟩
    simpa using hs
  | 0, (b + 4) => simp [is_block_type_shader] at hs
  | (g + 1), b => simp [is_block_type_shader] at hs

theorem sum_map_const_of_forall {α : Type} (f : α → Nat) (c : Nat) (l : List α)
    (h : ∀ a ∈ l, f a = c) : (l.map f).sum = c * l.length := by
  induction l with
  | nil => simp
  | cons a l ih =>
    rw [List.map_cons, List.sum_cons, List.length_cons, h a (List.mem_cons_self _ _),
      ih (fun x hx => h x (List.mem_cons_of_mem _ hx))]
    ring

theorem planner_shader_count (gpu_info : kbase_hwcnt_gpu_info) (is_csf : Bool)
    (counter_set : kbase_hwcnt_set) (md : kbase_hwcnt_metadata)
    (hg : md.grps = [ { type := KBASE_HWCNT_GPU_GROUP_TYPE_V5
                        blks := kbasep_hwcnt_backend_gpu_metadata_create_blks gpu_info is_csf
                          counter_set (fls64 gpu_info.core_mask) } ])
    (k g b i : Nat) (hk : (kbase_hwcnt_metadata_for_each_block md)[k]? = some (g, b, i))
    (hs : block_is_shader md (g, b, i) = true) :
    ((kbase_hwcnt_metadata_for_each_block md).take k).countP (block_is_shader md) = i := by
  obtain ⟨rfl, rfl, hall⟩ := planner_block_is_shader gpu_info is_csf counter_set md hg g b i hs
  rw [planner_for_each_block gpu_info is_csf counter_set md hg] at hk ⊢
  generalize hA : ((0, 0, 0) :: (0, 1, 0) ::
    (List.range gpu_info.l2_count).map (fun i => ((0 : Nat), (2 : Nat), i))) = A at hk ⊢
  have hAmem : ∀ it ∈ A, it.2.1 ≠ 3 := by
    intro it hit
    rw [← hA] at hit
    simp only [List.mem_cons, List.mem_map, List.mem_range] at hit
    rcases hit with rfl | rfl | ⟨j, _, rfl⟩ <;> simp
  have hAns : ∀ it ∈ A, ¬ block_is_shader md it = true := by
    intro it hit hsh
    obtain ⟨g', b', i'⟩ := it
    exact hAmem _ hit (planner_block_is_shader gpu_info is_csf counter_set md hg g' b' i' hsh).2.1
  by_cases hlt : k < A.length
  · rw [List.getElem?_append_left hlt] at hk
    exact absurd rfl (hAmem _ (List.mem_iff_getElem?.mpr ⟨k, hk⟩))
  · rw [List.getElem?_append_right (by omega), List.getElem?_map] at hk
    have hi : k - A.length = i ∧ i < fls64 gpu_info.core_mask := by
      by_cases hr : k - A.length < fls64 gpu_info.core_mask
      · rw [List.getElem?_range hr] at hk
        simp only [Option.map_some', Option.some.injEq, Prod.mk.injEq, true_and] at hk
        omega
      · rw [List.getElem?_eq_none (by simpa using hr)] at hk
        simp at hk
    rw [List.take_append_eq_append_take, List.countP_append,
      List.countP_eq_zero.mpr (fun a ha => hAns a (List.mem_of_mem_take ha)), Nat.zero_add,
      ← List.map_take, List.take_range, hi.1]
    rw [List.countP_eq_length.mpr]
    · simp
      omega
    · intro a ha
      simp only [List.mem_map, List.mem_range] at ha
      obtain ⟨j, _, rfl⟩ := ha
      exact hall j

/-- The legacy merge runs its loop as soon as the two `metadata` pointers hold
the same address. -/
theorem jm_dump_get_same_addr (d : kbase_hwcnt_dump_buffer) (src : Nat → Nat)
    (em : kbase_hwcnt_enable_map) (pm : Nat) (acc : Bool)
    (haddr : em.metadata.addr = d.metadata.addr) :
    kbase_hwcnt_jm_dump_get (some d) (some src) (some em) pm acc
      = (0, some { metadata := d.metadata
                   dump_buf := (kbase_hwcnt_jm_dump_get_loop d.metadata em src acc
                     { dump_buf := d.dump_buf, src_offset := 0, core_mask := pm }
                     (kbase_hwcnt_metadata_for_each_block d.metadata)).dump_buf }) := by
  simp [kbase_hwcnt_jm_dump_get, haddr]

theorem jm_dump_get_ok (d : kbase_hwcnt_dump_buffer) (src : Nat → Nat)
    (em : kbase_hwcnt_enable_map) (pm : Nat) (acc : Bool) (hmd : em.metadata = d.metadata) :
    kbase_hwcnt_jm_dump_get (some d) (some src) (some em) pm acc
      = (0, some { metadata := d.metadata
                   dump_buf := (kbase_hwcnt_jm_dump_get_loop d.metadata em src acc
                     { dump_buf := d.dump_buf, src_offset := 0, core_mask := pm }
                     (kbase_hwcnt_metadata_for_each_block d.metadata)).dump_buf }) := by
  simp [kbase_hwcnt_jm_dump_get, hmd]

/-- The merge of `kbase_hwcnt_jm_dump_get` on a planner-built metadata, seen
from the block instance at position `k`. -/
theorem planner_jm_loop_result (gpu_info : kbase_hwcnt_gpu_info) (is_csf : Bool)
    (counter_set : kbase_hwcnt_set) (md : kbase_hwcnt_metadata)
    (hg : md.grps = [ { type := KBASE_HWCNT_GPU_GROUP_TYPE_V5
                        blks := kbasep_hwcnt_backend_gpu_metadata_create_blks gpu_info is_csf
                          counter_set (fls64 gpu_info.core_mask) } ])
    (em : kbase_hwcnt_enable_map) (src : Nat → Nat) (acc : Bool)
    (buf : Nat → Nat → Nat → Nat → Nat) (pm k g b i : Nat)
    (hk : (kbase_hwcnt_metadata_for_each_block md)[k]? = some (g, b, i))
    (hen : kbase_hwcnt_enable_map_block_enabled em g b i = true) (j : Nat) (hj : j < 64) :
    (kbase_hwcnt_jm_dump_get_loop md em src acc
        { dump_buf := buf, src_offset := 0, core_mask := pm }
        (kbase_hwcnt_metadata_for_each_block md)).dump_buf g b i j
      = if block_is_shader md (g, b, i) = false ∨ pm.testBit i = true then
          (if acc then (buf g b i j + src (64 * k % 2 ^ 64 + j)) % 2 ^ 32
           else src (64 * k % 2 ^ 64 + j))
        else if acc then buf g b i j else 0 := by
  obtain ⟨hat, hpre⟩ := jm_loop_at md em src acc (kbase_hwcnt_metadata_for_each_block md)
    (for_each_block_nodup md) { dump_buf := buf, src_offset := 0, core_mask := pm } k g b i hk
  have hklen : k < (kbase_hwcnt_metadata_for_each_block md).length :=
    (List.getElem?_eq_some.mp hk).1
  have hmem : (g, b, i) ∈ kbase_hwcnt_metadata_for_each_block md :=
    List.mem_iff_getElem?.mpr ⟨k, hk⟩
  have hw : block_src_words md (g, b, i) = 64 :=
    planner_block_src_words gpu_info is_csf counter_set md hg _ hmem
  have hoff : (kbase_hwcnt_jm_dump_get_loop md em src acc
      { dump_buf := buf, src_offset := 0, core_mask := pm }
      ((kbase_hwcnt_metadata_for_each_block md).take k)).src_offset = 64 * k % 2 ^ 64 := by
    rw [jm_loop_src_offset]
    have hsum := sum_map_const_of_forall (block_src_words md) 64
      ((kbase_hwcnt_metadata_for_each_block md).take k)
      (fun a ha => planner_block_src_words gpu_info is_csf counter_set md hg a
        (List.mem_of_mem_take ha))
    rw [hsum, List.length_take, Nat.min_eq_left (Nat.le_of_lt hklen)]
    split_ifs with hnil
    · have : ((kbase_hwcnt_metadata_for_each_block md).take k).length = 0 := by
        rw [hnil]; rfl
      rw [List.length_take, Nat.min_eq_left (Nat.le_of_lt hklen)] at this
      simp [this]
    · simp only [Nat.zero_add]
  have hmask : (kbase_hwcnt_jm_dump_get_loop md em src acc
      { dump_buf := buf, src_offset := 0, core_mask := pm }
      ((kbase_hwcnt_metadata_for_each_block md).take k)).core_mask
        = pm >>> ((kbase_hwcnt_metadata_for_each_block md).take k).countP (block_is_shader md) :=
    jm_loop_core_mask md em src acc _ _
  rw [hat, jm_block_enabled md em src acc _ g b i hen j, hoff, hmask, hpre, hw,
    Nat.testBit_shiftRight, Nat.add_zero]
  have hj' : j < 64 % 2 ^ 64 := by norm_num; exact hj
  simp only [hj', if_true]
  by_cases hs : block_is_shader md (g, b, i) = true
  · rw [planner_shader_count gpu_info is_csf counter_set md hg k g b i hk hs]
  · have hs' : block_is_shader md (g, b, i) = false := by simpa using hs
    simp [hs']

/-! ## The command-stream merge loop -/

/-- The command-stream merge runs its loop as soon as the two `metadata`
pointers hold the same address. -/
theorem csf_dump_get_same_addr (d : kbase_hwcnt_dump_buffer) (src : Nat → Nat)
    (em : kbase_hwcnt_enable_map) (acc : Bool)
    (haddr : em.metadata.addr = d.metadata.addr) :
    kbase_hwcnt_csf_dump_get (some d) (some src) (some em) acc
      = (0, some { metadata := d.metadata
                   dump_buf := (kbase_hwcnt_csf_dump_get_loop d.metadata em src acc
                     { dump_buf := d.dump_buf, src_offset := 0 }
                     (kbase_hwcnt_metadata_for_each_block d.metadata)).dump_buf }) := by
  simp [kbase_hwcnt_csf_dump_get, haddr]

theorem csf_dump_get_ok (d : kbase_hwcnt_dump_buffer) (src : Nat → Nat)
    (em : kbase_hwcnt_enable_map) (acc : Bool) (hmd : em.metadata = d.metadata) :
    kbase_hwcnt_csf_dump_get (some d) (some src) (some em) acc
      = (0, some { metadata := d.metadata
                   dump_buf := (kbase_hwcnt_csf_dump_get_loop d.metadata em src acc
                     { dump_buf := d.dump_buf, src_offset := 0 }
                     (kbase_hwcnt_metadata_for_each_block d.metadata)).dump_buf }) := by
  simp [kbase_hwcnt_csf_dump_get, hmd]

theorem csf_block_other (md : kbase_hwcnt_metadata) (em : kbase_hwcnt_enable_map)
    (src : Nat → Nat) (acc : Bool) (st : csf_dump_state) (it : Nat × Nat × Nat)
    (g b i : Nat) (h : (g, b, i) ≠ it) :
    (kbase_hwcnt_csf_dump_get_block md em src acc st it).dump_buf g b i = st.dump_buf g b i := by
  obtain ⟨g0, b0, i0⟩ := it
  simp only [kbase_hwcnt_csf_dump_get_block]
  split_ifs <;> first | rfl | exact block_instance_store_other _ _ _ _ _ _ _ _ h

theorem csf_block_disabled (md : kbase_hwcnt_metadata) (em : kbase_hwcnt_enable_map)
    (src : Nat → Nat) (acc : Bool) (st : csf_dump_state) (it : Nat × Nat × Nat)
    (h : kbase_hwcnt_enable_map_block_enabled em it.1 it.2.1 it.2.2 = false) :
    (kbase_hwcnt_csf_dump_get_block md em src acc st it).dump_buf = st.dump_buf := by
  simp [kbase_hwcnt_csf_dump_get_block, h]

theorem csf_loop_cons (md : kbase_hwcnt_metadata) (em : kbase_hwcnt_enable_map)
    (src : Nat → Nat) (acc : Bool) (st : csf_dump_state) (it : Nat × Nat × Nat)
    (its : List (Nat × Nat × Nat)) :
    kbase_hwcnt_csf_dump_get_loop md em src acc st (it :: its)
      = kbase_hwcnt_csf_dump_get_loop md em src acc
          (kbase_hwcnt_csf_dump_get_block md em src acc st it) its := rfl

theorem csf_loop_disabled (md : kbase_hwcnt_metadata) (em : kbase_hwcnt_enable_map)
    (src : Nat → Nat) (acc : Bool) (its : List (Nat × Nat × Nat)) (st : csf_dump_state)
    (g b i : Nat) (h : kbase_hwcnt_enable_map_block_enabled em g b i = false) :
    (kbase_hwcnt_csf_dump_get_loop md em src acc st its).dump_buf g b i = st.dump_buf g b i := by
  induction its generalizing st with
  | nil => rfl
  | cons it its ih =>
    rw [csf_loop_cons, ih]
    by_cases he : (g, b, i) = it
    · subst he
      rw [csf_block_disabled md em src acc st (g, b, i) h]
    · exact csf_block_other md em src acc st it g b i he

/-! ## Properties of the bit-packing rule -/

/-- C3 (Bit-Packing Rule): for all 64-bit `lo` and `hi` and every `g < 16`, bit `g`
of `kbasep_hwcnt_backend_gpu_block_map_to_physical lo hi` is set iff one of the
bits `4g .. 4g+3` of `lo` is set, bit `16 + g` is set iff one of the bits
`4g .. 4g+3` of `hi` is set, and the result has no bit at position 32 or above. -/
theorem block_map_to_physical_bit_packing (lo hi g : Nat) (_hlo : lo < 2 ^ 64)
    (_hhi : hi < 2 ^ 64) (hg : g < 16) :
    ((kbasep_hwcnt_backend_gpu_block_map_to_physical lo hi).testBit g
        = (lo.testBit (4 * g) || lo.testBit (4 * g + 1) || lo.testBit (4 * g + 2) ||
            lo.testBit (4 * g + 3))) ∧
      ((kbasep_hwcnt_backend_gpu_block_map_to_physical lo hi).testBit (16 + g)
        = (hi.testBit (4 * g) || hi.testBit (4 * g + 1) || hi.testBit (4 * g + 2) ||
            hi.testBit (4 * g + 3))) ∧
      (∀ b, 32 ≤ b → (kbasep_hwcnt_backend_gpu_block_map_to_physical lo hi).testBit b = false) ∧
      kbasep_hwcnt_backend_gpu_block_map_to_physical lo hi < 2 ^ 32 := by
  refine ⟨?_, ?_, ?_, block_map_to_physical_lt lo hi⟩
  · rw [block_map_to_physical_testBit, if_pos hg]
  · rw [block_map_to_physical_testBit, if_neg (by omega), if_pos (by omega)]
    have e : 16 + g - 16 = g := by omega
    rw [e]
  · intro b hb
    rw [block_map_to_physical_testBit, if_neg (by omega), if_neg (by omega)]

/-- C3 at `lo = 0x20`, `hi = 0x1`, `g = 1`: bit 1 of the result comes from bit 5
of `lo`, bit 17 is clear because bits 4..7 of `hi` are clear. -/
theorem block_map_to_physical_bit_packing_witness :
    ((kbasep_hwcnt_backend_gpu_block_map_to_physical 0x20 0x1).testBit 1
        = (Nat.testBit 0x20 (4 * 1) || Nat.testBit 0x20 (4 * 1 + 1) ||
            Nat.testBit 0x20 (4 * 1 + 2) || Nat.testBit 0x20 (4 * 1 + 3))) ∧
      ((kbasep_hwcnt_backend_gpu_block_map_to_physical 0x20 0x1).testBit (16 + 1)
        = (Nat.testBit 0x1 (4 * 1) || Nat.testBit 0x1 (4 * 1 + 1) ||
            Nat.testBit 0x1 (4 * 1 + 2) || Nat.testBit 0x1 (4 * 1 + 3))) ∧
      (∀ b, 32 ≤ b →
        (kbasep_hwcnt_backend_gpu_block_map_to_physical 0x20 0x1).testBit b = false) ∧
      kbasep_hwcnt_backend_gpu_block_map_to_physical 0x20 0x1 < 2 ^ 32 :=
  block_map_to_physical_bit_packing 0x20 0x1 1 (by decide) (by decide) (by decide)

/-! ## Properties of the legacy merge -/

/-- C4 (legacy merge, accumulate mode; the accumulate helper is modelled from the
specification): on a planner-built metadata, for the block instance
`(g, b, i)` at position `k` of the metadata order (`k < 2 ^ 58`, so that the
word offset `64 * k` fits a `size_t`) that is enabled and is either
not a shader core or a shader core whose availability bit `i` is set,
`kbase_hwcnt_jm_dump_get` with `accumulate = true` returns 0 and leaves in each
of the 64 destination words `j` the sum of the old word and the source word
`64 * k + j`, modulo `2 ^ 32`. -/
theorem jm_dump_get_accumulate_wraps (addr : Nat) (gpu_info : kbase_hwcnt_gpu_info)
    (is_csf : Bool)
    (counter_set : kbase_hwcnt_set) (md : kbase_hwcnt_metadata) (d : kbase_hwcnt_dump_buffer)
    (src : Nat → Nat) (em : kbase_hwcnt_enable_map) (pm k g b i : Nat)
    (hmd : kbasep_hwcnt_backend_gpu_metadata_create (kbase_hwcnt_metadata_create addr) gpu_info
      is_csf counter_set = .ok md)
    (hd : d.metadata = md) (hem : em.metadata = md)
    (hk : (kbase_hwcnt_metadata_for_each_block md)[k]? = some (g, b, i)) (hk58 : k < 2 ^ 58)
    (hen : kbase_hwcnt_enable_map_block_enabled em g b i = true)
    (hav : block_is_shader md (g, b, i) = false ∨ pm.testBit i = true) :
    ∃ d', kbase_hwcnt_jm_dump_get (some d) (some src) (some em) pm true = (0, some d') ∧
      ∀ j, j < 64 → d'.dump_buf g b i j = (d.dump_buf g b i j + src (64 * k + j)) % 2 ^ 32 := by
  subst hd
  refine ⟨_, jm_dump_get_ok d src em pm true hem, ?_⟩
  intro j hj
  have hmod : 64 * k % 2 ^ 64 = 64 * k := Nat.mod_eq_of_lt (by omega)
  have h := planner_jm_loop_result gpu_info is_csf counter_set d.metadata
    (metadata_create_ok_grps gpu_info is_csf counter_set d.metadata hmd) em src true
    d.dump_buf pm k g b i hk hen j hj
  rw [if_pos hav, hmod] at h
  simpa using h

/-- C4 on the example of the specification: destination pre-filled with 1s,
all-ones source, all blocks enabled, availability mask `0b101`;
shader-core instance 2 (position 5) ends with `source + 1` modulo `2 ^ 32` in
every word. -/
theorem jm_dump_get_accumulate_wraps_witness :
    ∃ d', kbase_hwcnt_jm_dump_get (some merge_example_dump_buffer) (some merge_example_src)
        (some merge_example_enable_map) 0b101 true = (0, some d') ∧
      ∀ j, j < 64 → d'.dump_buf 0 3 2 j
        = (merge_example_dump_buffer.dump_buf 0 3 2 j + merge_example_src (64 * 5 + j)) % 2 ^ 32 :=
  jm_dump_get_accumulate_wraps 0x1000 merge_example_gpu_info false KBASE_HWCNT_SET_PRIMARY
    merge_example_metadata merge_example_dump_buffer merge_example_src merge_example_enable_map
    0b101 5 0 3 2 rfl rfl rfl (by decide) (by decide) (by decide) (Or.inr (by decide))

/-- C5 (legacy merge, overwrite mode): on a planner-built metadata, for the
block instance `(g, b, i)` at position `k` of the metadata order (`k < 2 ^ 58`,
so that the word offset `64 * k` fits a `size_t`) that is enabled and is
either not a shader core or a shader core whose availability bit `i` is set,
`kbase_hwcnt_jm_dump_get` with `accumulate = false` returns 0 and leaves in
each of the 64 destination words `j` the raw source word `64 * k + j`, whatever
the enable state of the other blocks. -/
theorem jm_dump_get_overwrite_copies (addr : Nat) (gpu_info : kbase_hwcnt_gpu_info)
    (is_csf : Bool)
    (counter_set : kbase_hwcnt_set) (md : kbase_hwcnt_metadata) (d : kbase_hwcnt_dump_buffer)
    (src : Nat → Nat) (em : kbase_hwcnt_enable_map) (pm k g b i : Nat)
    (hmd : kbasep_hwcnt_backend_gpu_metadata_create (kbase_hwcnt_metadata_create addr) gpu_info
      is_csf counter_set = .ok md)
    (hd : d.metadata = md) (hem : em.metadata = md)
    (hk : (kbase_hwcnt_metadata_for_each_block md)[k]? = some (g, b, i)) (hk58 : k < 2 ^ 58)
    (hen : kbase_hwcnt_enable_map_block_enabled em g b i = true)
    (hav : block_is_shader md (g, b, i) = false ∨ pm.testBit i = true) :
    ∃ d', kbase_hwcnt_jm_dump_get (some d) (some src) (some em) pm false = (0, some d') ∧
      ∀ j, j < 64 → d'.dump_buf g b i j = src (64 * k + j) := by
  subst hd
  refine ⟨_, jm_dump_get_ok d src em pm false hem, ?_⟩
  intro j hj
  have hmod : 64 * k % 2 ^ 64 = 64 * k := Nat.mod_eq_of_lt (by omega)
  have h := planner_jm_loop_result gpu_info is_csf counter_set d.metadata
    (metadata_create_ok_grps gpu_info is_csf counter_set d.metadata hmd) em src false
    d.dump_buf pm k g b i hk hen j hj
  rw [if_pos hav, hmod] at h
  simpa using h

/-- C5 on the example of the specification (slice count 1, core mask `0b101`,
availability mask `0b101`), with the tiler disabled and a source whose word
`w` holds `w`: shader-core instance 2, at position 5, still receives the source
words `64 * 5 + j`. -/
theorem jm_dump_get_overwrite_copies_witness :
    ∃ d', kbase_hwcnt_jm_dump_get (some merge_example_dump_buffer) (some (fun w => w))
        (some merge_example_enable_map_no_tiler) 0b101 false = (0, some d') ∧
      ∀ j, j < 64 → d'.dump_buf 0 3 2 j = (fun w => w) (64 * 5 + j) :=
  jm_dump_get_overwrite_copies 0x1000 merge_example_gpu_info false KBASE_HWCNT_SET_PRIMARY
    merge_example_metadata merge_example_dump_buffer (fun w => w)
    merge_example_enable_map_no_tiler 0b101 5 0 3 2 rfl rfl rfl (by decide) (by decide)
    (by decide) (Or.inr (by decide))

/-- C6 (legacy merge, absent core): on a planner-built metadata, for an enabled
shader-core block instance `(g, b, i)` whose availability bit `i` is clear,
`kbase_hwcnt_jm_dump_get` returns 0 and, with `accumulate = true`, leaves the
64 destination words of the instance unchanged, and with `accumulate = false`
sets them to zero. -/
theorem jm_dump_get_absent_core (addr : Nat) (gpu_info : kbase_hwcnt_gpu_info)
    (is_csf : Bool)
    (counter_set : kbase_hwcnt_set) (md : kbase_hwcnt_metadata) (d : kbase_hwcnt_dump_buffer)
    (src : Nat → Nat) (em : kbase_hwcnt_enable_map) (pm g b i : Nat)
    (hmd : kbasep_hwcnt_backend_gpu_metadata_create (kbase_hwcnt_metadata_create addr) gpu_info
      is_csf counter_set = .ok md)
    (hd : d.metadata = md) (hem : em.metadata = md)
    (hin : (g, b, i) ∈ kbase_hwcnt_metadata_for_each_block md)
    (hen : kbase_hwcnt_enable_map_block_enabled em g b i = true)
    (hsh : block_is_shader md (g, b, i) = true) (hav : pm.testBit i = false) :
    (∃ d', kbase_hwcnt_jm_dump_get (some d) (some src) (some em) pm true = (0, some d') ∧
      ∀ j, j < 64 → d'.dump_buf g b i j = d.dump_buf g b i j) ∧
    (∃ d', kbase_hwcnt_jm_dump_get (some d) (some src) (some em) pm false = (0, some d') ∧
      ∀ j, j < 64 → d'.dump_buf g b i j = 0) := by
  subst hd
  obtain ⟨k, hk⟩ := List.mem_iff_getElem?.mp hin
  have hcond : ¬ (block_is_shader d.metadata (g, b, i) = false ∨ pm.testBit i = true) := by
    simp [hsh, hav]
  refine ⟨⟨_, jm_dump_get_ok d src em pm true hem, ?_⟩,
    ⟨_, jm_dump_get_ok d src em pm false hem, ?_⟩⟩
  · intro j hj
    have h := planner_jm_loop_result gpu_info is_csf counter_set d.metadata
      (metadata_create_ok_grps gpu_info is_csf counter_set d.metadata hmd) em src true
      d.dump_buf pm k g b i hk hen j hj
    rw [if_neg hcond] at h
    simpa using h
  · intro j hj
    have h := planner_jm_loop_result gpu_info is_csf counter_set d.metadata
      (metadata_create_ok_grps gpu_info is_csf counter_set d.metadata hmd) em src false
      d.dump_buf pm k g b i hk hen j hj
    rw [if_neg hcond] at h
    simpa using h

/-- C6 on the example of the specification: shader-core instance 1 is absent
under the availability mask `0b101`; it keeps its pre-fill in accumulate mode
and is zeroed in overwrite mode. -/
theorem jm_dump_get_absent_core_witness :
    (∃ d', kbase_hwcnt_jm_dump_get (some merge_example_dump_buffer) (some merge_example_src)
        (some merge_example_enable_map) 0b101 true = (0, some d') ∧
      ∀ j, j < 64 → d'.dump_buf 0 3 1 j = merge_example_dump_buffer.dump_buf 0 3 1 j) ∧
    (∃ d', kbase_hwcnt_jm_dump_get (some merge_example_dump_buffer) (some merge_example_src)
        (some merge_example_enable_map) 0b101 false = (0, some d') ∧
      ∀ j, j < 64 → d'.dump_buf 0 3 1 j = 0) :=
  jm_dump_get_absent_core 0x1000 merge_example_gpu_info false KBASE_HWCNT_SET_PRIMARY
    merge_example_metadata merge_example_dump_buffer merge_example_src merge_example_enable_map
    0b101 0 3 1 rfl rfl rfl (by decide) (by decide) (by decide) (by decide)

/-- C7 (core-mask synchronisation in the legacy merge): for every metadata, enable
map, source, mode and availability mask `pm`, when the loop of
`kbase_hwcnt_jm_dump_get` reaches the block instance at position `k`, its
`core_mask` is `pm` shifted right by the number `n` of shader-core instances
visited before, so the bit it tests is bit `n` of `pm`; the pass shifts the
mask by one more bit exactly when the instance is a shader core, whatever the
enable map; and on a planner-built metadata `n` is the instance index of the
shader-core block instance. -/
theorem jm_dump_get_core_mask_sync (md : kbase_hwcnt_metadata) (em : kbase_hwcnt_enable_map)
    (src : Nat → Nat) (acc : Bool) (buf : Nat → Nat → Nat → Nat → Nat) (pm k g b i : Nat)
    (hk : (kbase_hwcnt_metadata_for_each_block md)[k]? = some (g, b, i)) :
    (kbase_hwcnt_jm_dump_get_loop md em src acc
        { dump_buf := buf, src_offset := 0, core_mask := pm }
        ((kbase_hwcnt_metadata_for_each_block md).take k)).core_mask
      = pm >>> ((kbase_hwcnt_metadata_for_each_block md).take k).countP (block_is_shader md) ∧
    (((kbase_hwcnt_jm_dump_get_loop md em src acc
        { dump_buf := buf, src_offset := 0, core_mask := pm }
        ((kbase_hwcnt_metadata_for_each_block md).take k)).core_mask &&& 1) != 0)
      = pm.testBit (((kbase_hwcnt_metadata_for_each_block md).take k).countP
          (block_is_shader md)) ∧
    (kbase_hwcnt_jm_dump_get_block md em src acc
        (kbase_hwcnt_jm_dump_get_loop md em src acc
          { dump_buf := buf, src_offset := 0, core_mask := pm }
          ((kbase_hwcnt_metadata_for_each_block md).take k)) (g, b, i)).core_mask
      = (if block_is_shader md (g, b, i) then
          pm >>> (((kbase_hwcnt_metadata_for_each_block md).take k).countP
            (block_is_shader md) + 1)
        else
          pm >>> ((kbase_hwcnt_metadata_for_each_block md).take k).countP
            (block_is_shader md)) ∧
    (∀ (addr : Nat) (gpu_info : kbase_hwcnt_gpu_info) (is_csf : Bool)
        (counter_set : kbase_hwcnt_set),
      kbasep_hwcnt_backend_gpu_metadata_create (kbase_hwcnt_metadata_create addr) gpu_info
        is_csf counter_set = .ok md →
      block_is_shader md (g, b, i) = true →
      ((kbase_hwcnt_metadata_for_each_block md).take k).countP (block_is_shader md) = i) := by
  have hmask := jm_loop_core_mask md em src acc
    ((kbase_hwcnt_metadata_for_each_block md).take k)
    { dump_buf := buf, src_offset := 0, core_mask := pm }
  refine ⟨hmask, ?_, ?_, ?_⟩
  · rw [hmask]
    simp [Nat.testBit, Nat.and_comm]
  · rw [jm_block_core_mask, hmask]
    split_ifs
    · rw [Nat.shiftRight_add]
    · rfl
  · intro addr gpu_info is_csf counter_set hmd hs
    exact planner_shader_count gpu_info is_csf counter_set md
      (metadata_create_ok_grps gpu_info is_csf counter_set md hmd) k g b i hk hs

/-- C7 on the example of the specification with the tiler disabled: at
position 5 the loop visits shader-core instance 2, has consumed two bits of the
availability mask `0b101`, tests bit 2 and consumes a third bit. -/
theorem jm_dump_get_core_mask_sync_witness :
    (((kbase_hwcnt_jm_dump_get_loop merge_example_metadata merge_example_enable_map_no_tiler
        merge_example_src false
        { dump_buf := merge_example_dump_buffer.dump_buf, src_offset := 0, core_mask := 0b101 }
        ((kbase_hwcnt_metadata_for_each_block merge_example_metadata).take 5)).core_mask
          &&& 1) != 0)
      = Nat.testBit 0b101 (((kbase_hwcnt_metadata_for_each_block merge_example_metadata).take
          5).countP (block_is_shader merge_example_metadata)) ∧
    ((kbase_hwcnt_metadata_for_each_block merge_example_metadata).take 5).countP
      (block_is_shader merge_example_metadata) = 2 :=
  ⟨(jm_dump_get_core_mask_sync merge_example_metadata merge_example_enable_map_no_tiler
      merge_example_src false merge_example_dump_buffer.dump_buf 0b101 5 0 3 2
      (by decide)).2.1,
   (jm_dump_get_core_mask_sync merge_example_metadata merge_example_enable_map_no_tiler
      merge_example_src false merge_example_dump_buffer.dump_buf 0b101 5 0 3 2
      (by decide)).2.2.2 0x1000 merge_example_gpu_info false KBASE_HWCNT_SET_PRIMARY rfl
      (by decide)⟩

/-- C8 (disabled blocks are untouched): for every destination buffer, source,
enable map, availability mask and mode, a block instance that is not enabled
in the enable map has the same destination words after
`kbase_hwcnt_jm_dump_get` and after `kbase_hwcnt_csf_dump_get` as before. -/
theorem dump_get_disabled_untouched (d : kbase_hwcnt_dump_buffer) (src : Nat → Nat)
    (em : kbase_hwcnt_enable_map) (pm : Nat) (acc : Bool) (g b i : Nat)
    (hen : kbase_hwcnt_enable_map_block_enabled em g b i = false) :
    (∃ d', (kbase_hwcnt_jm_dump_get (some d) (some src) (some em) pm acc).2 = some d' ∧
      ∀ j, d'.dump_buf g b i j = d.dump_buf g b i j) ∧
    (∃ d', (kbase_hwcnt_csf_dump_get (some d) (some src) (some em) acc).2 = some d' ∧
      ∀ j, d'.dump_buf g b i j = d.dump_buf g b i j) := by
  by_cases hmd : em.metadata.addr = d.metadata.addr
  · refine ⟨⟨_, by rw [jm_dump_get_same_addr d src em pm acc hmd], ?_⟩,
      ⟨_, by rw [csf_dump_get_same_addr d src em acc hmd], ?_⟩⟩
    · intro j
      exact congrFun (jm_loop_disabled d.metadata em src acc _ _ g b i hen) j
    · intro j
      exact congrFun (csf_loop_disabled d.metadata em src acc _ _ g b i hen) j
  · refine ⟨⟨d, by simp [kbase_hwcnt_jm_dump_get, hmd], fun _ => rfl⟩,
      ⟨d, by simp [kbase_hwcnt_csf_dump_get, hmd], fun _ => rfl⟩⟩

/-- C8 on the example of the specification with the tiler disabled: the tiler
block keeps its pre-fill in overwrite mode on both merge paths. -/
theorem dump_get_disabled_untouched_witness :
    (∃ d', (kbase_hwcnt_jm_dump_get (some merge_example_dump_buffer) (some merge_example_src)
        (some merge_example_enable_map_no_tiler) 0b101 false).2 = some d' ∧
      ∀ j, d'.dump_buf 0 1 0 j = merge_example_dump_buffer.dump_buf 0 1 0 j) ∧
    (∃ d', (kbase_hwcnt_csf_dump_get (some merge_example_dump_buffer) (some merge_example_src)
        (some merge_example_enable_map_no_tiler) false).2 = some d' ∧
      ∀ j, d'.dump_buf 0 1 0 j = merge_example_dump_buffer.dump_buf 0 1 0 j) :=
  dump_get_disabled_untouched merge_example_dump_buffer merge_example_src
    merge_example_enable_map_no_tiler 0b101 false 0 1 0 (by decide)

/-- C9 (merge argument validation): `kbase_hwcnt_jm_dump_get` and
`kbase_hwcnt_csf_dump_get` return `-EINVAL` if and only if `dst`, the raw
source or the enable map is absent or the enable map and `dst` are bound to
different metadata, that is, their two `metadata` pointers hold different
addresses, whatever the content of the objects; in that case the destination is
left as it was, and in every other case they return 0. -/
theorem dump_get_argument_validation (dst : Option kbase_hwcnt_dump_buffer)
    (src : Option (Nat → Nat)) (em : Option kbase_hwcnt_enable_map) (pm : Nat) (acc : Bool) :
    ((kbase_hwcnt_jm_dump_get dst src em pm acc).1 = -EINVAL ↔
      (dst = none ∨ src = none ∨ em = none ∨
        ∃ d e, dst = some d ∧ em = some e ∧ e.metadata.addr ≠ d.metadata.addr)) ∧
    ((kbase_hwcnt_jm_dump_get dst src em pm acc).1 = -EINVAL →
      (kbase_hwcnt_jm_dump_get dst src em pm acc).2 = dst) ∧
    ((kbase_hwcnt_jm_dump_get dst src em pm acc).1 ≠ -EINVAL →
      (kbase_hwcnt_jm_dump_get dst src em pm acc).1 = 0) ∧
    ((kbase_hwcnt_csf_dump_get dst src em acc).1 = -EINVAL ↔
      (dst = none ∨ src = none ∨ em = none ∨
        ∃ d e, dst = some d ∧ em = some e ∧ e.metadata.addr ≠ d.metadata.addr)) ∧
    ((kbase_hwcnt_csf_dump_get dst src em acc).1 = -EINVAL →
      (kbase_hwcnt_csf_dump_get dst src em acc).2 = dst) ∧
    ((kbase_hwcnt_csf_dump_get dst src em acc).1 ≠ -EINVAL →
      (kbase_hwcnt_csf_dump_get dst src em acc).1 = 0) := by
  have hne : (-EINVAL : Int) ≠ 0 := by decide
  cases dst with
  | none => simp [kbase_hwcnt_jm_dump_get, kbase_hwcnt_csf_dump_get]
  | some d =>
    cases src with
    | none => simp [kbase_hwcnt_jm_dump_get, kbase_hwcnt_csf_dump_get]
    | some s =>
      cases em with
      | none => simp [kbase_hwcnt_jm_dump_get, kbase_hwcnt_csf_dump_get]
      | some e =>
        by_cases hmd : e.metadata.addr = d.metadata.addr
        · simp [kbase_hwcnt_jm_dump_get, kbase_hwcnt_csf_dump_get, hmd, hne.symm]
        · simp [kbase_hwcnt_jm_dump_get, kbase_hwcnt_csf_dump_get, hmd]

/-- C9 on the example of the specification. With an absent raw source both
merges leave the destination buffer as it was. With an enable map bound to
`merge_example_metadata_copy`, a separate object whose content equals that of
the metadata of the destination buffer, both merges return `-EINVAL`. With
an enable map bound to the metadata of the destination buffer both return 0. -/
theorem dump_get_argument_validation_witness :
    ((kbase_hwcnt_jm_dump_get (some merge_example_dump_buffer) none
        (some merge_example_enable_map) 0b101 true).2 = some merge_example_dump_buffer ∧
      (kbase_hwcnt_csf_dump_get (some merge_example_dump_buffer) none
        (some merge_example_enable_map) true).2 = some merge_example_dump_buffer) ∧
    ({ merge_example_metadata_copy with addr := merge_example_metadata.addr }
        = merge_example_metadata ∧
      (kbase_hwcnt_jm_dump_get (some merge_example_dump_buffer) (some merge_example_src)
        (some merge_example_enable_map_copy) 0b101 true).1 = -EINVAL ∧
      (kbase_hwcnt_csf_dump_get (some merge_example_dump_buffer) (some merge_example_src)
        (some merge_example_enable_map_copy) true).1 = -EINVAL) ∧
    ((kbase_hwcnt_jm_dump_get (some merge_example_dump_buffer) (some merge_example_src)
        (some merge_example_enable_map) 0b101 true).1 = 0 ∧
      (kbase_hwcnt_csf_dump_get (some merge_example_dump_buffer) (some merge_example_src)
        (some merge_example_enable_map) true).1 = 0) :=
  ⟨⟨(dump_get_argument_validation (some merge_example_dump_buffer) none
        (some merge_example_enable_map) 0b101 true).2.1 rfl,
      (dump_get_argument_validation (some merge_example_dump_buffer) none
        (some merge_example_enable_map) 0b101 true).2.2.2.2.1 rfl⟩,
    ⟨rfl,
      (dump_get_argument_validation (some merge_example_dump_buffer) (some merge_example_src)
        (some merge_example_enable_map_copy) 0b101 true).1.mpr
        (Or.inr (Or.inr (Or.inr ⟨_, _, rfl, rfl, by decide⟩))),
      (dump_get_argument_validation (some merge_example_dump_buffer) (some merge_example_src)
        (some merge_example_enable_map_copy) 0b101 true).2.2.2.1.mpr
        (Or.inr (Or.inr (Or.inr ⟨_, _, rfl, rfl, by decide⟩)))⟩,
    ⟨(dump_get_argument_validation (some merge_example_dump_buffer) (some merge_example_src)
        (some merge_example_enable_map) 0b101 true).2.2.1 (by decide),
      (dump_get_argument_validation (some merge_example_dump_buffer) (some merge_example_src)
        (some merge_example_enable_map) 0b101 true).2.2.2.2.2 (by decide)⟩⟩

/-! ## The enable-map loops, one block instance at a time -/

theorem to_physical_block_role_bm (m : kbase_hwcnt_enable_map)
    (st : enable_map_to_physical_state) (it : Nat × Nat × Nat) (r : v5_role) :
    (kbase_hwcnt_gpu_enable_map_to_physical_block m st it).role_bm r
      = if block_role m.metadata it = some r then
          st.role_bm r ||| m.enable_map it.1 it.2.1 it.2.2 0
        else st.role_bm r := by
  unfold kbase_hwcnt_gpu_enable_map_to_physical_block block_role v5_block_role
  by_cases hgt : kbase_hwcnt_metadata_group_type m.metadata it.1 = KBASE_HWCNT_GPU_GROUP_TYPE_V5
  · simp only [hgt, if_true]
    split <;> cases r <;> simp [enable_map_to_physical_state.role_bm]
  · simp only [hgt, if_false]
    simp

theorem to_physical_loop_role_bm (m : kbase_hwcnt_enable_map) (r : v5_role) (w : Nat)
    (its : List (Nat × Nat × Nat)) (st : enable_map_to_physical_state)
    (hw : ∀ it ∈ its, block_role m.metadata it = some r → m.enable_map it.1 it.2.1 it.2.2 0 = w) :
    (its.foldl (kbase_hwcnt_gpu_enable_map_to_physical_block m) st).role_bm r
      = if ∃ it ∈ its, block_role m.metadata it = some r then st.role_bm r ||| w
        else st.role_bm r := by
  induction its generalizing st with
  | nil => simp
  | cons it its ih =>
    rw [List.foldl_cons, ih _ (fun a ha => hw a (List.mem_cons_of_mem _ ha)),
      to_physical_block_role_bm]
    by_cases hr : block_role m.metadata it = some r
    · have hex : ∃ a ∈ it :: its, block_role m.metadata a = some r :=
        ⟨it, List.mem_cons_self _ _, hr⟩
      rw [if_pos hr, if_pos hex, hw it (List.mem_cons_self _ _) hr]
      split_ifs
      · rw [Nat.lor_assoc, Nat.or_self]
      · rfl
    · rw [if_neg hr]
      have hiff : (∃ a ∈ it :: its, block_role m.metadata a = some r) ↔
          (∃ a ∈ its, block_role m.metadata a = some r) := by
        constructor
        · rintro ⟨a, ha, har⟩
          rcases List.mem_cons.mp ha with rfl | ha'
          · exact absurd har hr
          · exact ⟨a, ha', har⟩
        · rintro ⟨a, ha, har⟩
          exact ⟨a, List.mem_cons_of_mem _ ha, har⟩
      simp only [hiff]

theorem from_physical_block_eq (md : kbase_hwcnt_metadata) (fe sh ti mm : Nat)
    (em : Nat → Nat → Nat → Nat → Nat) (it : Nat × Nat × Nat) :
    kbase_hwcnt_gpu_enable_map_from_physical_block md fe sh ti mm em it
      = match block_role md it with
        | some r => enable_map_store_first em it.1 it.2.1 it.2.2
            ((kbase_hwcnt_physical_enable_map.mk fe sh ti mm).role_bm r)
        | none => em := by
  unfold kbase_hwcnt_gpu_enable_map_from_physical_block block_role v5_block_role
  by_cases hgt : kbase_hwcnt_metadata_group_type md it.1 = KBASE_HWCNT_GPU_GROUP_TYPE_V5
  · simp only [hgt, if_true]
    split <;> simp_all [kbase_hwcnt_physical_enable_map.role_bm]
  · simp only [hgt, if_false]

theorem from_physical_loop_first (md : kbase_hwcnt_metadata) (fe sh ti mm : Nat)
    (its : List (Nat × Nat × Nat)) (em : Nat → Nat → Nat → Nat → Nat) (g b i : Nat)
    (r : v5_role) (hr : block_role md (g, b, i) = some r) :
    (its.foldl (kbase_hwcnt_gpu_enable_map_from_physical_block md fe sh ti mm) em) g b i 0
      = if (g, b, i) ∈ its then (kbase_hwcnt_physical_enable_map.mk fe sh ti mm).role_bm r
        else em g b i 0 := by
  induction its generalizing em with
  | nil => simp
  | cons it its ih =>
    rw [List.foldl_cons, ih]
    by_cases hin : (g, b, i) ∈ its
    · simp [hin]
    · by_cases he : (g, b, i) = it
      · subst he
        simp [hin, from_physical_block_eq, hr, enable_map_store_first,
          block_instance_store_same]
      · have hnin : (g, b, i) ∉ it :: its := by
          simp only [List.mem_cons, not_or]
          exact ⟨he, hin⟩
        rw [if_neg hin, if_neg hnin, from_physical_block_eq]
        cases block_role md it with
        | none => rfl
        | some r' =>
          simp only [enable_map_store_first]
          rw [block_instance_store_other _ _ _ _ _ _ _ _ he]

theorem block_map_to_physical_zero :
    kbasep_hwcnt_backend_gpu_block_map_to_physical 0 0 = 0 := by
  decide

/-- The round trip from a physical enable map to an enable map and back, one
role at a time: the low 16 bits of the role's bitmap survive when some
block instance has that role, and nothing survives otherwise. -/
theorem enable_map_round_trip_role (em : kbase_hwcnt_enable_map)
    (out p : kbase_hwcnt_physical_enable_map) :
    ∃ m' p', kbase_hwcnt_gpu_enable_map_from_physical (some em) (some p) = some m' ∧
      kbase_hwcnt_gpu_enable_map_to_physical (some out) (some m') = some p' ∧
      ∀ r, p'.role_bm r
        = if ∃ it ∈ kbase_hwcnt_metadata_for_each_block em.metadata,
              block_role em.metadata it = some r then p.role_bm r % 2 ^ 16
          else 0 := by
  refine ⟨_, _, rfl, rfl, ?_⟩
  intro r
  have hfold := to_physical_loop_role_bm
    { metadata := em.metadata
      enable_map := (kbase_hwcnt_metadata_for_each_block em.metadata).foldl
        (kbase_hwcnt_gpu_enable_map_from_physical_block em.metadata
          (kbasep_hwcnt_backend_gpu_block_map_from_physical p.fe_bm).1
          (kbasep_hwcnt_backend_gpu_block_map_from_physical p.shader_bm).1
          (kbasep_hwcnt_backend_gpu_block_map_from_physical p.tiler_bm).1
          (kbasep_hwcnt_backend_gpu_block_map_from_physical p.mmu_l2_bm).1) em.enable_map } r
    (kbasep_hwcnt_backend_gpu_block_map_from_physical (p.role_bm r)).1
    (kbase_hwcnt_metadata_for_each_block em.metadata)
    { fe_bm := 0, shader_bm := 0, tiler_bm := 0, mmu_l2_bm := 0 }
    (by
      rintro ⟨g, b, i⟩ hit hrole
      simp only at hrole ⊢
      rw [from_physical_loop_first _ _ _ _ _ _ _ _ _ _ r hrole, if_pos hit]
      cases r <;> rfl)
  have hzero : (enable_map_to_physical_state.mk 0 0 0 0).role_bm r = 0 := by
    cases r <;> rfl
  rw [hzero, Nat.zero_or] at hfold
  have hres : ∀ st : enable_map_to_physical_state,
      (kbase_hwcnt_physical_enable_map.mk
        (kbasep_hwcnt_backend_gpu_block_map_to_physical st.fe_bm 0)
        (kbasep_hwcnt_backend_gpu_block_map_to_physical st.shader_bm 0)
        (kbasep_hwcnt_backend_gpu_block_map_to_physical st.tiler_bm 0)
        (kbasep_hwcnt_backend_gpu_block_map_to_physical st.mmu_l2_bm 0)).role_bm r
        = kbasep_hwcnt_backend_gpu_block_map_to_physical (st.role_bm r) 0 := by
    intro st
    cases r <;> rfl
  rw [hres, hfold]
  split_ifs
  · exact block_map_to_physical_from_physical _
  · exact block_map_to_physical_zero

/-! ## Properties of the enable-map conversions -/

set_option maxRecDepth 8000

theorem planner_primary_block_role (gpu_info : kbase_hwcnt_gpu_info) (is_csf : Bool)
    (md : kbase_hwcnt_metadata)
    (hg : md.grps = [ { type := KBASE_HWCNT_GPU_GROUP_TYPE_V5
                        blks := kbasep_hwcnt_backend_gpu_metadata_create_blks gpu_info is_csf
                          KBASE_HWCNT_SET_PRIMARY (fls64 gpu_info.core_mask) } ])
    (hl2 : 0 < gpu_info.l2_count) (hsc : 0 < fls64 gpu_info.core_mask) (r : v5_role) :
    ∃ it ∈ kbase_hwcnt_metadata_for_each_block md, block_role md it = some r := by
  rw [planner_for_each_block gpu_info is_csf KBASE_HWCNT_SET_PRIMARY md hg]
  cases r
  · refine ⟨(0, 0, 0), by simp, ?_⟩
    simp [block_role, v5_block_role, kbase_hwcnt_metadata_group_type,
      kbase_hwcnt_metadata_block_type, kbase_hwcnt_metadata_block, hg,
      kbasep_hwcnt_backend_gpu_metadata_create_blks, kbasep_get_fe_block_type]
  · refine ⟨(0, 1, 0), by simp, ?_⟩
    simp [block_role, v5_block_role, kbase_hwcnt_metadata_group_type,
      kbase_hwcnt_metadata_block_type, kbase_hwcnt_metadata_block, hg,
      kbasep_hwcnt_backend_gpu_metadata_create_blks, kbasep_get_tiler_block_type]
  · refine ⟨(0, 3, 0), by simp [hsc], ?_⟩
    simp [block_role, v5_block_role, kbase_hwcnt_metadata_group_type,
      kbase_hwcnt_metadata_block_type, kbase_hwcnt_metadata_block, hg,
      kbasep_hwcnt_backend_gpu_metadata_create_blks, kbasep_get_sc_block_type]
  · refine ⟨(0, 2, 0), by simp [hl2], ?_⟩
    simp [block_role, v5_block_role, kbase_hwcnt_metadata_group_type,
      kbase_hwcnt_metadata_block_type, kbase_hwcnt_metadata_block, hg,
      kbasep_hwcnt_backend_gpu_metadata_create_blks, kbasep_get_memsys_block_type]

/-- C1 as stated fails: on planner-built metadata the round trip
`kbase_hwcnt_gpu_enable_map_to_physical` after
`kbase_hwcnt_gpu_enable_map_from_physical` loses bit 16 of the front-end bitmap
(Primary set, core mask `0b101`), loses the tiler bitmap when the tiler type is
undefined (Secondary set on the legacy path), and loses the shader bitmap when
the core mask is empty. -/
theorem enable_map_physical_round_trip_counterexample :
    (kbasep_hwcnt_backend_gpu_metadata_create (kbase_hwcnt_metadata_create 0x1000)
        merge_example_gpu_info false KBASE_HWCNT_SET_PRIMARY = .ok merge_example_metadata ∧
      kbase_hwcnt_gpu_enable_map_to_physical (some ⟨0, 0, 0, 0⟩)
        (kbase_hwcnt_gpu_enable_map_from_physical (some merge_example_enable_map)
          (some ⟨0x10000, 0, 0, 0⟩)) ≠ some ⟨0x10000, 0, 0, 0⟩) ∧
    (kbasep_hwcnt_backend_gpu_metadata_create (kbase_hwcnt_metadata_create 0x2000)
        merge_example_gpu_info false KBASE_HWCNT_SET_SECONDARY
          = .ok secondary_example_metadata ∧
      kbase_hwcnt_gpu_enable_map_to_physical (some ⟨0, 0, 0, 0⟩)
        (kbase_hwcnt_gpu_enable_map_from_physical
          (some { metadata := secondary_example_metadata, enable_map := fun _ _ _ _ => 0 })
          (some ⟨0, 0, 1, 0⟩)) ≠ some ⟨0, 0, 1, 0⟩) ∧
    (kbasep_hwcnt_backend_gpu_metadata_create (kbase_hwcnt_metadata_create 0x3000)
        no_core_example_gpu_info false KBASE_HWCNT_SET_PRIMARY = .ok no_core_example_metadata ∧
      kbase_hwcnt_gpu_enable_map_to_physical (some ⟨0, 0, 0, 0⟩)
        (kbase_hwcnt_gpu_enable_map_from_physical
          (some { metadata := no_core_example_metadata, enable_map := fun _ _ _ _ => 0 })
          (some ⟨0, 1, 0, 0⟩)) ≠ some ⟨0, 1, 0, 0⟩) :=
  ⟨⟨rfl, by decide⟩, ⟨rfl, by decide⟩, ⟨rfl, by decide⟩⟩

/-- C1 as amended: for every metadata built by the planner for the Primary
counter set with at least one memory-system slice and at least one
shader-core instance, and every physical enable map whose four bitmaps are below `2 ^ 16`,
`kbase_hwcnt_gpu_enable_map_from_physical` followed by
`kbase_hwcnt_gpu_enable_map_to_physical` returns exactly that physical enable
map. -/
theorem enable_map_physical_round_trip_primary (addr : Nat)
    (gpu_info : kbase_hwcnt_gpu_info) (is_csf : Bool) (md : kbase_hwcnt_metadata) (em : kbase_hwcnt_enable_map)
    (out p : kbase_hwcnt_physical_enable_map)
    (hmd : kbasep_hwcnt_backend_gpu_metadata_create (kbase_hwcnt_metadata_create addr) gpu_info
      is_csf KBASE_HWCNT_SET_PRIMARY = .ok md)
    (hem : em.metadata = md) (hl2 : 0 < gpu_info.l2_count)
    (hsc : 0 < fls64 gpu_info.core_mask)
    (hfe : p.fe_bm < 2 ^ 16) (hsh : p.shader_bm < 2 ^ 16) (hti : p.tiler_bm < 2 ^ 16)
    (hmm : p.mmu_l2_bm < 2 ^ 16) :
    ∃ m', kbase_hwcnt_gpu_enable_map_from_physical (some em) (some p) = some m' ∧
      kbase_hwcnt_gpu_enable_map_to_physical (some out) (some m') = some p := by
  subst hem
  obtain ⟨m', p', hfrom, hto, hrole⟩ := enable_map_round_trip_role em out p
  refine ⟨m', hfrom, ?_⟩
  rw [hto]
  have hg := metadata_create_ok_grps gpu_info is_csf KBASE_HWCNT_SET_PRIMARY em.metadata hmd
  have hall : ∀ r, p'.role_bm r = p.role_bm r % 2 ^ 16 := by
    intro r
    rw [hrole r, if_pos (planner_primary_block_role gpu_info is_csf em.metadata hg hl2 hsc r)]
  have h1 := hall v5_role.FE
  have h2 := hall v5_role.SHADER
  have h3 := hall v5_role.TILER
  have h4 := hall v5_role.MEMSYS
  simp only [kbase_hwcnt_physical_enable_map.role_bm] at h1 h2 h3 h4
  rw [Nat.mod_eq_of_lt hfe] at h1
  rw [Nat.mod_eq_of_lt hsh] at h2
  rw [Nat.mod_eq_of_lt hti] at h3
  rw [Nat.mod_eq_of_lt hmm] at h4
  cases p'
  cases p
  simp only at h1 h2 h3 h4
  simp [h1, h2, h3, h4]

/-- C1 as amended, on the example metadata (Primary set, one slice, core mask
`0b101`) and the physical enable map `(0x0001, 0x0003, 0xFFFF, 0x8000)`. -/
theorem enable_map_physical_round_trip_primary_witness :
    ∃ m', kbase_hwcnt_gpu_enable_map_from_physical (some merge_example_enable_map)
        (some ⟨0x0001, 0x0003, 0xFFFF, 0x8000⟩) = some m' ∧
      kbase_hwcnt_gpu_enable_map_to_physical (some ⟨0, 0, 0, 0⟩) (some m')
        = some ⟨0x0001, 0x0003, 0xFFFF, 0x8000⟩ :=
  enable_map_physical_round_trip_primary 0x1000 merge_example_gpu_info false
    merge_example_metadata merge_example_enable_map ⟨0, 0, 0, 0⟩ ⟨0x0001, 0x0003, 0xFFFF, 0x8000⟩ rfl rfl
    (by decide) (by decide) (by decide) (by decide) (by decide) (by decide)

/-- C2 as stated fails: in `single_value_example_enable_map` every
block instance holds the first bitmap word 1, the front-end block has a defined
type, and after `kbase_hwcnt_gpu_enable_map_to_physical` followed by
`kbase_hwcnt_gpu_enable_map_from_physical` the front-end instance holds `0xF`,
not 1. -/
theorem enable_map_abstract_round_trip_counterexample :
    (∀ g b i g' b' i', single_value_example_enable_map.enable_map g b i 0
        = single_value_example_enable_map.enable_map g' b' i' 0) ∧
      block_role merge_example_metadata (0, 0, 0) = some v5_role.FE ∧
      single_value_example_enable_map.enable_map 0 0 0 0 = 1 ∧
      (kbase_hwcnt_gpu_enable_map_from_physical (some single_value_example_enable_map)
        (kbase_hwcnt_gpu_enable_map_to_physical (some ⟨0, 0, 0, 0⟩)
          (some single_value_example_enable_map))).map (fun m => m.enable_map 0 0 0 0)
        = some 0xF :=
  ⟨fun _ _ _ _ _ _ => rfl, by decide, rfl, by decide⟩

/-- C2 as amended: for every enable map `m` in which all block instances of the
same role hold an identical first bitmap word,
`kbase_hwcnt_gpu_enable_map_to_physical` followed by
`kbase_hwcnt_gpu_enable_map_from_physical` leaves, on every block instance
of defined type, the closure of that word under the aligned groups of four bits:
bit `n` below 64 is set iff the word of `m` has a bit set among
`4 * (n / 4) .. 4 * (n / 4) + 3`, and no bit at 64 or above is set; so
the instance gets back the word it held when that word is such a closure. -/
theorem enable_map_abstract_round_trip_closure (m dst : kbase_hwcnt_enable_map)
    (out : kbase_hwcnt_physical_enable_map) (hdst : dst.metadata = m.metadata)
    (hsame : ∀ it ∈ kbase_hwcnt_metadata_for_each_block m.metadata,
      ∀ it' ∈ kbase_hwcnt_metadata_for_each_block m.metadata,
        block_role m.metadata it = block_role m.metadata it' →
        block_role m.metadata it ≠ none →
        m.enable_map it.1 it.2.1 it.2.2 0 = m.enable_map it'.1 it'.2.1 it'.2.2 0) :
    ∃ p m', kbase_hwcnt_gpu_enable_map_to_physical (some out) (some m) = some p ∧
      kbase_hwcnt_gpu_enable_map_from_physical (some dst) (some p) = some m' ∧
      ∀ g b i, (g, b, i) ∈ kbase_hwcnt_metadata_for_each_block m.metadata →
        block_role m.metadata (g, b, i) ≠ none →
        (∀ n, (m'.enable_map g b i 0).testBit n
          = (decide (n < 64) &&
              ((m.enable_map g b i 0).testBit (4 * (n / 4)) ||
                (m.enable_map g b i 0).testBit (4 * (n / 4) + 1) ||
                (m.enable_map g b i 0).testBit (4 * (n / 4) + 2) ||
                (m.enable_map g b i 0).testBit (4 * (n / 4) + 3)))) ∧
        ((∀ n, (m.enable_map g b i 0).testBit n
          = (decide (n < 64) &&
              ((m.enable_map g b i 0).testBit (4 * (n / 4)) ||
                (m.enable_map g b i 0).testBit (4 * (n / 4) + 1) ||
                (m.enable_map g b i 0).testBit (4 * (n / 4) + 2) ||
                (m.enable_map g b i 0).testBit (4 * (n / 4) + 3)))) →
          m'.enable_map g b i 0 = m.enable_map g b i 0) := by
  refine ⟨_, _, rfl, rfl, ?_⟩
  intro g b i hin hrole
  refine (fun h => ⟨h, fun hc => Nat.eq_of_testBit_eq (fun n => (h n).trans (hc n).symm)⟩) ?_
  intro n
  obtain ⟨r, hr⟩ := Option.ne_none_iff_exists'.mp hrole
  have hfold := to_physical_loop_role_bm m r (m.enable_map g b i 0)
    (kbase_hwcnt_metadata_for_each_block m.metadata)
    { fe_bm := 0, shader_bm := 0, tiler_bm := 0, mmu_l2_bm := 0 }
    (fun it hit hitr => hsame it hit (g, b, i) hin (hitr.trans hr.symm) (by simp [hitr]))
  rw [if_pos ⟨(g, b, i), hin, hr⟩] at hfold
  have hzero : (enable_map_to_physical_state.mk 0 0 0 0).role_bm r = 0 := by
    cases r <;> rfl
  rw [hzero, Nat.zero_or] at hfold
  simp only
  rw [hdst, from_physical_loop_first _ _ _ _ _ _ _ _ _ _ r hr, if_pos hin,
    ← block_map_from_physical_to_physical_testBit, ← hfold]
  cases r <;> rfl

/-- C2 as amended, on `two_groups_example_enable_map`, where every
block instance has the values 0 to 7 enabled. -/
theorem enable_map_abstract_round_trip_closure_witness :
    ∃ p m', kbase_hwcnt_gpu_enable_map_to_physical (some ⟨0, 0, 0, 0⟩)
        (some two_groups_example_enable_map) = some p ∧
      kbase_hwcnt_gpu_enable_map_from_physical (some single_value_example_enable_map) (some p)
        = some m' ∧
      ∀ g b i, (g, b, i) ∈ kbase_hwcnt_metadata_for_each_block
          two_groups_example_enable_map.metadata →
        block_role two_groups_example_enable_map.metadata (g, b, i) ≠ none →
        (∀ n, (m'.enable_map g b i 0).testBit n
          = (decide (n < 64) &&
              ((two_groups_example_enable_map.enable_map g b i 0).testBit (4 * (n / 4)) ||
                (two_groups_example_enable_map.enable_map g b i 0).testBit (4 * (n / 4) + 1) ||
                (two_groups_example_enable_map.enable_map g b i 0).testBit (4 * (n / 4) + 2) ||
                (two_groups_example_enable_map.enable_map g b i 0).testBit
                  (4 * (n / 4) + 3)))) ∧
        ((∀ n, (two_groups_example_enable_map.enable_map g b i 0).testBit n
          = (decide (n < 64) &&
              ((two_groups_example_enable_map.enable_map g b i 0).testBit (4 * (n / 4)) ||
                (two_groups_example_enable_map.enable_map g b i 0).testBit (4 * (n / 4) + 1) ||
                (two_groups_example_enable_map.enable_map g b i 0).testBit (4 * (n / 4) + 2) ||
                (two_groups_example_enable_map.enable_map g b i 0).testBit
                  (4 * (n / 4) + 3)))) →
          m'.enable_map g b i 0 = two_groups_example_enable_map.enable_map g b i 0) :=
  enable_map_abstract_round_trip_closure two_groups_example_enable_map
    single_value_example_enable_map ⟨0, 0, 0, 0⟩ rfl (fun _ _ _ _ _ _ => rfl)

/-! ## The capacity check of the planner -/

theorem fls64_loop_le (x n : Nat) :
    (List.range n).foldl (fun r i => if x.testBit i then i + 1 else r) 0 ≤ n := by
  induction n with
  | zero => simp
  | succ n ih =>
    rw [List.range_succ, List.foldl_append, List.foldl_cons, List.foldl_nil]
    split_ifs
    · exact Nat.le_refl _
    · exact Nat.le_succ_of_le ih

theorem fls64_le (x : Nat) : fls64 x ≤ 64 := fls64_loop_le x 64

/-- C10 as stated fails: for `l2_count = 2 ^ 64 - 1` and an empty core mask the
total instance count `2 + l2_count + fls64 core_mask` exceeds 64, yet
`2 + l2_count` wraps to 1 in `size_t`, the capacity check passes and
`kbasep_hwcnt_backend_gpu_metadata_create` returns what the metadata container
returns for its description instead of `-EINVAL`. -/
theorem metadata_create_capacity_counterexample :
    64 < 2 + (2 ^ 64 - 1) + fls64 0 ∧
    kbasep_hwcnt_backend_gpu_metadata_create (kbase_hwcnt_metadata_create 0x1000)
        { l2_count := 2 ^ 64 - 1, core_mask := 0, clk_cnt := 1 } false KBASE_HWCNT_SET_PRIMARY
      = kbase_hwcnt_metadata_create 0x1000 (kbasep_hwcnt_backend_gpu_metadata_create_desc
          { l2_count := 2 ^ 64 - 1, core_mask := 0, clk_cnt := 1 } false
          KBASE_HWCNT_SET_PRIMARY) ∧
    kbasep_hwcnt_backend_gpu_metadata_create (kbase_hwcnt_metadata_create 0x1000)
        { l2_count := 2 ^ 64 - 1, core_mask := 0, clk_cnt := 1 } false KBASE_HWCNT_SET_PRIMARY
      ≠ .error (-EINVAL) := by
  have hc : ¬ ((fls64 0 + (2 + (2 ^ 64 - 1)) % 2 ^ 64) % 2 ^ 64 > KBASE_HWCNT_AVAIL_MASK_BITS) := by
    decide
  have hrun : kbasep_hwcnt_backend_gpu_metadata_create (kbase_hwcnt_metadata_create 0x1000)
        { l2_count := 2 ^ 64 - 1, core_mask := 0, clk_cnt := 1 } false KBASE_HWCNT_SET_PRIMARY
      = kbase_hwcnt_metadata_create 0x1000 (kbasep_hwcnt_backend_gpu_metadata_create_desc
          { l2_count := 2 ^ 64 - 1, core_mask := 0, clk_cnt := 1 } false
          KBASE_HWCNT_SET_PRIMARY) := by
    unfold kbasep_hwcnt_backend_gpu_metadata_create
    simp only [hc, if_false]
  refine ⟨by decide, hrun, ?_⟩
  rw [hrun]
  simp [kbase_hwcnt_metadata_create]

/-- C10 as amended: for every chip descriptor whose total instance count
`2 + l2_count + fls64 core_mask` is below `2 ^ 64` (no wrap-around in `size_t`),
whatever the metadata container does, `kbasep_hwcnt_backend_gpu_metadata_create`
fails with `-EINVAL` without consulting the container when the total exceeds
64, and hands its description to the container when the total is at most 64. -/
theorem metadata_create_capacity_in_range
    (metadata_create : kbase_hwcnt_description → Except Int kbase_hwcnt_metadata)
    (gpu_info : kbase_hwcnt_gpu_info) (is_csf : Bool) (counter_set : kbase_hwcnt_set)
    (hrange : 2 + gpu_info.l2_count + fls64 gpu_info.core_mask < 2 ^ 64) :
    (64 < 2 + gpu_info.l2_count + fls64 gpu_info.core_mask →
      kbasep_hwcnt_backend_gpu_metadata_create metadata_create gpu_info is_csf counter_set
        = .error (-EINVAL)) ∧
    (2 + gpu_info.l2_count + fls64 gpu_info.core_mask ≤ 64 →
      kbasep_hwcnt_backend_gpu_metadata_create metadata_create gpu_info is_csf counter_set
        = metadata_create
            (kbasep_hwcnt_backend_gpu_metadata_create_desc gpu_info is_csf counter_set)) := by
  have h1 : (2 + gpu_info.l2_count) % 2 ^ 64 = 2 + gpu_info.l2_count :=
    Nat.mod_eq_of_lt (by omega)
  have h2 : (fls64 gpu_info.core_mask + (2 + gpu_info.l2_count)) % 2 ^ 64
      = fls64 gpu_info.core_mask + (2 + gpu_info.l2_count) := Nat.mod_eq_of_lt (by omega)
  unfold kbasep_hwcnt_backend_gpu_metadata_create
  simp only [h1, h2, KBASE_HWCNT_AVAIL_MASK_BITS]
  constructor
  · intro h
    rw [if_pos (by omega)]
  · intro h
    rw [if_neg (by omega)]

/-- C10 as amended, at the boundary: a total of exactly 64 block instances (no
slice, highest core bit 61) reaches the metadata container, a total of 65
(one slice more) fails with `-EINVAL`. -/
theorem metadata_create_capacity_in_range_witness :
    kbasep_hwcnt_backend_gpu_metadata_create (kbase_hwcnt_metadata_create 0x1000)
        { l2_count := 0, core_mask := 2 ^ 61, clk_cnt := 1 } false KBASE_HWCNT_SET_PRIMARY
      = kbase_hwcnt_metadata_create 0x1000 (kbasep_hwcnt_backend_gpu_metadata_create_desc
          { l2_count := 0, core_mask := 2 ^ 61, clk_cnt := 1 } false KBASE_HWCNT_SET_PRIMARY) ∧
    kbasep_hwcnt_backend_gpu_metadata_create (kbase_hwcnt_metadata_create 0x1000)
        { l2_count := 1, core_mask := 2 ^ 61, clk_cnt := 1 } false KBASE_HWCNT_SET_PRIMARY
      = .error (-EINVAL) :=
  ⟨(metadata_create_capacity_in_range (kbase_hwcnt_metadata_create 0x1000)
      { l2_count := 0, core_mask := 2 ^ 61, clk_cnt := 1 } false KBASE_HWCNT_SET_PRIMARY
      (by decide)).2 (by decide),
   (metadata_create_capacity_in_range (kbase_hwcnt_metadata_create 0x1000)
      { l2_count := 1, core_mask := 2 ^ 61, clk_cnt := 1 } false KBASE_HWCNT_SET_PRIMARY
      (by decide)).1 (by decide)⟩

/-! ## The highest set bit -/

theorem fls64_loop_spec (x n : Nat) :
    (∀ i, i < n → x.testBit i = true →
      i < (List.range n).foldl (fun r i => if x.testBit i then i + 1 else r) 0) ∧
    ((List.range n).foldl (fun r i => if x.testBit i then i + 1 else r) 0 ≠ 0 →
      x.testBit ((List.range n).foldl (fun r i => if x.testBit i then i + 1 else r) 0 - 1)
        = true) := by
  induction n with
  | zero => simp
  | succ n ih =>
    rw [List.range_succ, List.foldl_append, List.foldl_cons, List.foldl_nil]
    by_cases hb : x.testBit n = true
    · simp only [hb, if_true]
      refine ⟨fun i hi _ => by omega, fun _ => ?_⟩
      simpa using hb
    · simp only [hb, if_false]
      refine ⟨fun i hi hbit => ?_, ih.2⟩
      have hne : i ≠ n := by
        rintro rfl
        exact hb hbit
      exact ih.1 i (by omega) hbit

theorem fls64_zero : fls64 0 = 0 := by decide

theorem fls64_testBit_lt (x i : Nat) (hi : i < 64) (hbit : x.testBit i = true) :
    i < fls64 x :=
  (fls64_loop_spec x 64).1 i hi hbit

theorem fls64_testBit_pred (x : Nat) (h : fls64 x ≠ 0) : x.testBit (fls64 x - 1) = true :=
  (fls64_loop_spec x 64).2 h

theorem fls64_testBit_ge (x i : Nat) (hx : x < 2 ^ 64) (hi : fls64 x ≤ i) :
    x.testBit i = false := by
  by_cases h64 : i < 64
  · cases hb : x.testBit i with
    | false => rfl
    | true =>
      have := fls64_testBit_lt x i h64 hb
      omega
  · exact Nat.testBit_lt_two_pow
      (Nat.lt_of_lt_of_le hx (Nat.pow_le_pow_right (by norm_num) (by omega)))

theorem lt_two_pow_fls64 (x : Nat) (hx : x < 2 ^ 64) : x < 2 ^ fls64 x := by
  apply Nat.lt_pow_two_of_testBit
  intro i hi
  apply fls64_testBit_ge x i hx
  by_contra hlt
  have : 2 ^ i < 2 ^ fls64 x := Nat.pow_lt_pow_right (by norm_num) (by omega)
  omega

/-! ## The availability mask -/

theorem shiftLeft_lt_of_fls64 (x n : Nat) (hx : x < 2 ^ 64) (hcap : n + fls64 x ≤ 64) :
    x <<< n < 2 ^ 64 := by
  rw [Nat.shiftLeft_eq]
  have h1 : x < 2 ^ fls64 x := lt_two_pow_fls64 x hx
  have h2 : x * 2 ^ n < 2 ^ fls64 x * 2 ^ n :=
    (Nat.mul_lt_mul_right (Nat.two_pow_pos n)).mpr h1
  have h3 : 2 ^ fls64 x * 2 ^ n = 2 ^ (fls64 x + n) := (Nat.pow_add 2 _ _).symm
  have h4 : 2 ^ (fls64 x + n) ≤ 2 ^ 64 := Nat.pow_le_pow_right (by norm_num) (by omega)
  omega

/-- The availability mask computed by the planner while the shift count
`non_sc_block_count` is below 64: the non-shader bits are all set and the core
mask sits above them, with no bit shifted out. -/
theorem avail_mask_in_range (gpu_info : kbase_hwcnt_gpu_info) (is_csf : Bool)
    (counter_set : kbase_hwcnt_set) (hcm : gpu_info.core_mask < 2 ^ 64)
    (hn : 2 + gpu_info.l2_count < 64)
    (hcap : 2 + gpu_info.l2_count + fls64 gpu_info.core_mask ≤ 64) :
    ∃ m, (kbasep_hwcnt_backend_gpu_metadata_create_desc gpu_info is_csf counter_set).avail_mask
        = some m ∧
      m < 2 ^ 64 ∧
      m = (2 ^ (2 + gpu_info.l2_count) - 1) ||| (gpu_info.core_mask <<< (2 + gpu_info.l2_count)) ∧
      (∀ j, m.testBit j = (decide (j < 2 + gpu_info.l2_count) ||
        (decide (2 + gpu_info.l2_count ≤ j) &&
          gpu_info.core_mask.testBit (j - (2 + gpu_info.l2_count))))) := by
  have hmod : (2 + gpu_info.l2_count) % 2 ^ 64 = 2 + gpu_info.l2_count :=
    Nat.mod_eq_of_lt (by omega)
  have hshift := shiftLeft_lt_of_fls64 gpu_info.core_mask (2 + gpu_info.l2_count) hcm hcap
  have hpow : (2 : Nat) ^ (2 + gpu_info.l2_count) < 2 ^ 64 :=
    Nat.pow_lt_pow_right (by norm_num) hn
  have hpos : 0 < (2 : Nat) ^ (2 + gpu_info.l2_count) := Nat.two_pow_pos _
  have hone : (1 <<< (2 + gpu_info.l2_count)) % 2 ^ 64 = 2 ^ (2 + gpu_info.l2_count) := by
    rw [Nat.shiftLeft_eq, Nat.one_mul, Nat.mod_eq_of_lt hpow]
  have hsub : (2 ^ (2 + gpu_info.l2_count) + 2 ^ 64 - 1) % 2 ^ 64
      = 2 ^ (2 + gpu_info.l2_count) - 1 := by
    have : 2 ^ (2 + gpu_info.l2_count) + 2 ^ 64 - 1
        = (2 ^ (2 + gpu_info.l2_count) - 1) + 2 ^ 64 := by omega
    rw [this, Nat.add_mod_right, Nat.mod_eq_of_lt (by omega)]
  refine ⟨(2 ^ (2 + gpu_info.l2_count) - 1) |||
      (gpu_info.core_mask <<< (2 + gpu_info.l2_count)), ?_, ?_, rfl, ?_⟩
  · simp only [kbasep_hwcnt_backend_gpu_metadata_create_desc, shl_u64, hmod, hn, if_true, hone,
      hsub, Nat.mod_eq_of_lt hshift]
  · exact Nat.or_lt_two_pow (by omega) hshift
  · intro j
    rw [Nat.testBit_or, Nat.testBit_two_pow_sub_one, Nat.testBit_shiftLeft]

/-- The shader region of the availability mask holds as many ones as the core
mask. -/
theorem avail_mask_shader_ones (cm n m : Nat) (hn : n ≤ 64) (hcm : cm < 2 ^ 64)
    (hcap : n + fls64 cm ≤ 64)
    (hm : ∀ j, m.testBit j = (decide (j < n) || (decide (n ≤ j) && cm.testBit (j - n)))) :
    (List.range 64).countP (fun j => decide (n ≤ j) && m.testBit j)
      = (List.range 64).countP (fun i => cm.testBit i) := by
  obtain ⟨k, hk⟩ : ∃ k, 64 = n + k := ⟨64 - n, by omega⟩
  have hleft : (List.range 64).countP (fun j => decide (n ≤ j) && m.testBit j)
      = (List.range k).countP (fun i => cm.testBit i) := by
    rw [hk, List.range_add, List.countP_append, List.countP_map]
    have hz : (List.range n).countP (fun j => decide (n ≤ j) && m.testBit j) = 0 := by
      rw [List.countP_eq_zero]
      intro a ha
      have : a < n := List.mem_range.mp ha
      simp
      intro h
      omega
    rw [hz, Nat.zero_add]
    apply List.countP_congr
    intro i _
    simp [hm]
  have hright : (List.range 64).countP (fun i => cm.testBit i)
      = (List.range k).countP (fun i => cm.testBit i) := by
    have hk' : 64 = k + n := by omega
    rw [hk', List.range_add, List.countP_append, List.countP_map]
    have hz : (List.range n).countP ((fun i => cm.testBit i) ∘ fun x => k + x) = 0 := by
      rw [List.countP_eq_zero]
      intro a _
      simp only [Function.comp]
      rw [fls64_testBit_ge cm (k + a) hcm (by omega)]
      simp
    rw [hz, Nat.add_zero]
  rw [hleft, hright]

/-! ## Properties of the planner -/

/-- C11 at the failing input `l2_count = 62`, `core_mask = 0`: the total instance
count is 64, the capacity check passes and the description reaches the
metadata container, but the non-shader instance count is 64 and the shifts
`1ull << 64` and `core_mask << 64` that build the availability mask have
no defined value, so the mask is not the claimed all-ones mask. -/
theorem avail_mask_undefined_at_64 :
    2 + 62 + fls64 0 = 64 ∧
    kbasep_hwcnt_backend_gpu_metadata_create (kbase_hwcnt_metadata_create 0x1000)
        { l2_count := 62, core_mask := 0, clk_cnt := 1 } false KBASE_HWCNT_SET_PRIMARY
      = kbase_hwcnt_metadata_create 0x1000 (kbasep_hwcnt_backend_gpu_metadata_create_desc
          { l2_count := 62, core_mask := 0, clk_cnt := 1 } false KBASE_HWCNT_SET_PRIMARY) ∧
    shl_u64 1 ((2 + 62) % 2 ^ 64) = none ∧
    (kbasep_hwcnt_backend_gpu_metadata_create_desc
        { l2_count := 62, core_mask := 0, clk_cnt := 1 } false
        KBASE_HWCNT_SET_PRIMARY).avail_mask = none ∧
    (kbasep_hwcnt_backend_gpu_metadata_create_desc
        { l2_count := 62, core_mask := 0, clk_cnt := 1 } false
        KBASE_HWCNT_SET_PRIMARY).avail_mask ≠ some (2 ^ 64 - 1) :=
  ⟨by decide, rfl, by decide, by decide, by decide⟩

/-- C12 (block layout): for every chip descriptor with a 64-bit core mask, every
counter set and variant flag, the description built by
`kbasep_hwcnt_backend_gpu_metadata_create` is one v5 group of exactly four
block descriptions, in the order front-end, tiler, memsys, shader core,
with instance counts 1, 1, `l2_count` and `fls64 core_mask` and with 4 headers and
60 counters each; an accepted descriptor hands exactly this description to the
metadata container; `fls64` of an empty mask is 0 and otherwise is the index of
the highest set bit plus one. -/
theorem planner_block_layout (gpu_info : kbase_hwcnt_gpu_info) (is_csf : Bool)
    (counter_set : kbase_hwcnt_set) (hcm : gpu_info.core_mask < 2 ^ 64) :
    (kbasep_hwcnt_backend_gpu_metadata_create_desc gpu_info is_csf counter_set).grps
      = [ { type := KBASE_HWCNT_GPU_GROUP_TYPE_V5
            blks := [ { type := kbasep_get_fe_block_type counter_set is_csf
                        inst_cnt := 1, hdr_cnt := 4, ctr_cnt := 60 },
                      { type := kbasep_get_tiler_block_type counter_set
                        inst_cnt := 1, hdr_cnt := 4, ctr_cnt := 60 },
                      { type := kbasep_get_memsys_block_type counter_set
                        inst_cnt := gpu_info.l2_count, hdr_cnt := 4, ctr_cnt := 60 },
                      { type := kbasep_get_sc_block_type counter_set is_csf
                        inst_cnt := fls64 gpu_info.core_mask, hdr_cnt := 4, ctr_cnt := 60 } ] } ] ∧
    (∀ metadata_create : kbase_hwcnt_description → Except Int kbase_hwcnt_metadata,
      kbasep_hwcnt_backend_gpu_metadata_create metadata_create gpu_info is_csf counter_set
          = .error (-EINVAL) ∨
        kbasep_hwcnt_backend_gpu_metadata_create metadata_create gpu_info is_csf counter_set
          = metadata_create
              (kbasep_hwcnt_backend_gpu_metadata_create_desc gpu_info is_csf counter_set)) ∧
    (∀ addr md, kbasep_hwcnt_backend_gpu_metadata_create (kbase_hwcnt_metadata_create addr)
        gpu_info is_csf counter_set = .ok md →
      md.grps = (kbasep_hwcnt_backend_gpu_metadata_create_desc gpu_info is_csf
        counter_set).grps) ∧
    (gpu_info.core_mask = 0 → fls64 gpu_info.core_mask = 0) ∧
    (gpu_info.core_mask ≠ 0 →
      0 < fls64 gpu_info.core_mask ∧
      gpu_info.core_mask.testBit (fls64 gpu_info.core_mask - 1) = true ∧
      ∀ i, fls64 gpu_info.core_mask ≤ i → gpu_info.core_mask.testBit i = false) := by
  refine ⟨rfl, ?_, ?_, ?_, ?_⟩
  · intro metadata_create
    unfold kbasep_hwcnt_backend_gpu_metadata_create
    simp only
    split_ifs
    · exact Or.inl rfl
    · exact Or.inr rfl
  · intro addr md hmd
    exact metadata_create_ok_grps gpu_info is_csf counter_set md hmd
  · intro h0
    rw [h0]
    exact fls64_zero
  · intro hne
    have hpos : 0 < fls64 gpu_info.core_mask := by
      by_contra hz
      have h0 : fls64 gpu_info.core_mask = 0 := by omega
      have := lt_two_pow_fls64 gpu_info.core_mask hcm
      rw [h0] at this
      omega
    exact ⟨hpos, fls64_testBit_pred _ (by omega),
      fun i hi => fls64_testBit_ge _ i hcm hi⟩

/-- C12 on the example descriptor (one slice, core mask `0b101`, Primary set on
the legacy path): three shader-core instances for two cores. -/
theorem planner_block_layout_witness :
    (kbasep_hwcnt_backend_gpu_metadata_create_desc merge_example_gpu_info false
        KBASE_HWCNT_SET_PRIMARY).grps
      = [ { type := KBASE_HWCNT_GPU_GROUP_TYPE_V5
            blks := [ { type := kbasep_get_fe_block_type KBASE_HWCNT_SET_PRIMARY false
                        inst_cnt := 1, hdr_cnt := 4, ctr_cnt := 60 },
                      { type := kbasep_get_tiler_block_type KBASE_HWCNT_SET_PRIMARY
                        inst_cnt := 1, hdr_cnt := 4, ctr_cnt := 60 },
                      { type := kbasep_get_memsys_block_type KBASE_HWCNT_SET_PRIMARY
                        inst_cnt := merge_example_gpu_info.l2_count, hdr_cnt := 4
                        ctr_cnt := 60 },
                      { type := kbasep_get_sc_block_type KBASE_HWCNT_SET_PRIMARY false
                        inst_cnt := fls64 merge_example_gpu_info.core_mask, hdr_cnt := 4
                        ctr_cnt := 60 } ] } ] ∧
    fls64 merge_example_gpu_info.core_mask = 3 ∧
    (List.range 64).countP (fun i => merge_example_gpu_info.core_mask.testBit i) = 2 :=
  ⟨(planner_block_layout merge_example_gpu_info false KBASE_HWCNT_SET_PRIMARY (by decide)).1,
    by decide, by decide⟩

/-- C13 (dump-size consistency on the legacy path; the byte size kept by the
metadata container is modelled from the specification): whenever
`kbase_hwcnt_jm_metadata_create` accepts a chip descriptor, the dump byte size
it reports is `(2 + l2_count + fls64 core_mask) * 64 * 4` in `size_t`, it
equals the byte size of the metadata, which is the sum over the block
descriptions of `inst_cnt * (hdr_cnt + ctr_cnt) * 4`, and the assertion
`WARN_ON(dump_bytes != metadata->dump_buf_bytes)` does not fire. -/
theorem jm_metadata_create_dump_bytes (addr : Nat) (gpu_info : kbase_hwcnt_gpu_info)
    (counter_set : kbase_hwcnt_set) (out_metadata : Option kbase_hwcnt_metadata)
    (out_dump_bytes : Nat)
    (hret : (kbase_hwcnt_jm_metadata_create (kbase_hwcnt_metadata_create addr) (some gpu_info)
      counter_set (some out_metadata) (some out_dump_bytes)).ret = 0) :
    ∃ md, (kbase_hwcnt_jm_metadata_create (kbase_hwcnt_metadata_create addr) (some gpu_info)
        counter_set (some out_metadata) (some out_dump_bytes))
        = { ret := 0, out_metadata := some (some md)
            out_dump_bytes := some (((2 + gpu_info.l2_count + fls64 gpu_info.core_mask)
              * 64 * 4) % 2 ^ 64)
            warned := false } ∧
      kbasep_hwcnt_backend_gpu_metadata_create (kbase_hwcnt_metadata_create addr) gpu_info
        false counter_set = .ok md ∧
      md.dump_buf_bytes = ((2 + gpu_info.l2_count + fls64 gpu_info.core_mask) * 64 * 4) % 2 ^ 64 ∧
      md.dump_buf_bytes
        = ((md.grps.map fun g =>
            (g.blks.map fun b => b.inst_cnt * (b.hdr_cnt + b.ctr_cnt) * 4).sum).sum) % 2 ^ 64 ∧
      (2 + gpu_info.l2_count + fls64 gpu_info.core_mask ≤ 64 →
        md.dump_buf_bytes = (2 + gpu_info.l2_count + fls64 gpu_info.core_mask) * 64 * 4) := by
  have hne : (-EINVAL : Int) ≠ 0 := by decide
  unfold kbase_hwcnt_jm_metadata_create at hret ⊢
  simp only at hret ⊢
  unfold kbasep_hwcnt_backend_gpu_metadata_create at hret ⊢
  simp only at hret ⊢
  split_ifs at hret ⊢ with hcap
  · exact absurd hret hne
  · have hbytes : kbase_hwcnt_description_dump_buf_bytes
        (kbasep_hwcnt_backend_gpu_metadata_create_desc gpu_info false counter_set).grps
        = ((2 + gpu_info.l2_count + fls64 gpu_info.core_mask) * 64 * 4) % 2 ^ 64 := by
      simp only [kbase_hwcnt_description_dump_buf_bytes,
        kbasep_hwcnt_backend_gpu_metadata_create_desc,
        kbasep_hwcnt_backend_gpu_metadata_create_blks, List.map_cons, List.map_nil,
        List.sum_cons, List.sum_nil, KBASE_HWCNT_V5_HEADERS_PER_BLOCK,
        KBASE_HWCNT_V5_COUNTERS_PER_BLOCK, KBASE_HWCNT_VALUE_BYTES]
      congr 1
      ring
    refine ⟨_, ?_, rfl, ?_, ?_, ?_⟩
    · simp only [kbase_hwcnt_metadata_create, kbasep_hwcnt_backend_jm_dump_bytes,
        KBASE_HWCNT_V5_VALUES_PER_BLOCK, KBASE_HWCNT_V5_HEADERS_PER_BLOCK,
        KBASE_HWCNT_V5_COUNTERS_PER_BLOCK, KBASE_HWCNT_VALUE_BYTES, hbytes]
      simp
    · exact hbytes
    · rfl
    · intro hle
      rw [hbytes]
      apply Nat.mod_eq_of_lt
      omega

/-- C13 on the example descriptor (one slice, core mask `0b101`): six block
instances, 1536 bytes, no warning. -/
theorem jm_metadata_create_dump_bytes_witness :
    ∃ md, (kbase_hwcnt_jm_metadata_create (kbase_hwcnt_metadata_create 0x1000)
        (some merge_example_gpu_info) KBASE_HWCNT_SET_PRIMARY (some none) (some 0))
        = { ret := 0, out_metadata := some (some md)
            out_dump_bytes := some (((2 + merge_example_gpu_info.l2_count
              + fls64 merge_example_gpu_info.core_mask) * 64 * 4) % 2 ^ 64)
            warned := false } ∧
      kbasep_hwcnt_backend_gpu_metadata_create (kbase_hwcnt_metadata_create 0x1000)
        merge_example_gpu_info false KBASE_HWCNT_SET_PRIMARY = .ok md ∧
      md.dump_buf_bytes = ((2 + merge_example_gpu_info.l2_count
        + fls64 merge_example_gpu_info.core_mask) * 64 * 4) % 2 ^ 64 ∧
      md.dump_buf_bytes
        = ((md.grps.map fun g =>
            (g.blks.map fun b => b.inst_cnt * (b.hdr_cnt + b.ctr_cnt) * 4).sum).sum) % 2 ^ 64 ∧
      (2 + merge_example_gpu_info.l2_count + fls64 merge_example_gpu_info.core_mask ≤ 64 →
        md.dump_buf_bytes = (2 + merge_example_gpu_info.l2_count
          + fls64 merge_example_gpu_info.core_mask) * 64 * 4) :=
  jm_metadata_create_dump_bytes 0x1000 merge_example_gpu_info KBASE_HWCNT_SET_PRIMARY none 0
    rfl

/-! ## The header patcher, one block instance at a time -/

theorem patch_block_same (md : kbase_hwcnt_metadata) (em : kbase_hwcnt_enable_map)
    (buf : Nat → Nat → Nat → Nat → Nat) (g b i j : Nat) :
    kbase_hwcnt_gpu_patch_dump_headers_block md em buf (g, b, i) g b i j
      = if kbase_hwcnt_metadata_group_type md g = KBASE_HWCNT_GPU_GROUP_TYPE_V5 ∧ j = 2 then
          kbasep_hwcnt_backend_gpu_block_map_to_physical (em.enable_map g b i 0) 0
        else buf g b i j := by
  simp only [kbase_hwcnt_gpu_patch_dump_headers_block, KBASE_HWCNT_V5_PRFCNT_EN_HEADER]
  by_cases hgt : kbase_hwcnt_metadata_group_type md g = KBASE_HWCNT_GPU_GROUP_TYPE_V5
  · simp only [hgt, if_true, block_instance_store_same, true_and]
  · simp only [hgt, if_false, false_and]

theorem patch_block_other (md : kbase_hwcnt_metadata) (em : kbase_hwcnt_enable_map)
    (buf : Nat → Nat → Nat → Nat → Nat) (it : Nat × Nat × Nat) (g b i : Nat)
    (h : (g, b, i) ≠ it) :
    kbase_hwcnt_gpu_patch_dump_headers_block md em buf it g b i = buf g b i := by
  obtain ⟨g0, b0, i0⟩ := it
  simp only [kbase_hwcnt_gpu_patch_dump_headers_block]
  split_ifs
  · exact block_instance_store_other buf g0 b0 i0 g b i _ h
  · rfl

theorem patch_loop_word (md : kbase_hwcnt_metadata) (em : kbase_hwcnt_enable_map)
    (its : List (Nat × Nat × Nat)) (buf : Nat → Nat → Nat → Nat → Nat) (g b i j : Nat) :
    (its.foldl (kbase_hwcnt_gpu_patch_dump_headers_block md em) buf) g b i j
      = if (g, b, i) ∈ its ∧
            kbase_hwcnt_metadata_group_type md g = KBASE_HWCNT_GPU_GROUP_TYPE_V5 ∧ j = 2 then
          kbasep_hwcnt_backend_gpu_block_map_to_physical (em.enable_map g b i 0) 0
        else buf g b i j := by
  induction its generalizing buf with
  | nil => simp
  | cons it its ih =>
    rw [List.foldl_cons, ih]
    by_cases hcond : kbase_hwcnt_metadata_group_type md g = KBASE_HWCNT_GPU_GROUP_TYPE_V5 ∧ j = 2
    · by_cases hin : (g, b, i) ∈ its
      · simp [hin, hcond]
      · by_cases he : (g, b, i) = it
        · subst he
          simp [hin, hcond, patch_block_same]
        · have hnin : (g, b, i) ∉ it :: its := by
            simp only [List.mem_cons, not_or]
            exact ⟨he, hin⟩
          simp only [hin, hnin, false_and, if_false]
          rw [patch_block_other md em buf it g b i he]
    · have h1 : ¬ ((g, b, i) ∈ its ∧
          kbase_hwcnt_metadata_group_type md g = KBASE_HWCNT_GPU_GROUP_TYPE_V5 ∧ j = 2) :=
        fun h => hcond h.2
      have h2 : ¬ ((g, b, i) ∈ it :: its ∧
          kbase_hwcnt_metadata_group_type md g = KBASE_HWCNT_GPU_GROUP_TYPE_V5 ∧ j = 2) :=
        fun h => hcond h.2
      rw [if_neg h1, if_neg h2]
      by_cases he : (g, b, i) = it
      · subst he
        rw [patch_block_same, if_neg hcond]
      · rw [patch_block_other md em buf it g b i he]

theorem patch_dump_headers_ok (b : kbase_hwcnt_dump_buffer) (em : kbase_hwcnt_enable_map)
    (hmd : b.metadata = em.metadata) :
    kbase_hwcnt_gpu_patch_dump_headers (some b) (some em)
      = some { metadata := b.metadata
               dump_buf := (kbase_hwcnt_metadata_for_each_block b.metadata).foldl
                 (kbase_hwcnt_gpu_patch_dump_headers_block b.metadata em) b.dump_buf } := by
  simp [kbase_hwcnt_gpu_patch_dump_headers, hmd]

/-! ## Properties of the header patcher -/

/-- C14 (header patch): for every buffer and enable map bound to the same
metadata, `kbase_hwcnt_gpu_patch_dump_headers` leaves in word 2 of every
block instance of a v5 group the Bit-Packing of the first bitmap word of
that instance with a zero high half, and leaves every other word of every
block instance as it was. -/
theorem patch_dump_headers_word (buf : kbase_hwcnt_dump_buffer) (em : kbase_hwcnt_enable_map)
    (hmd : buf.metadata = em.metadata) :
    ∃ buf', kbase_hwcnt_gpu_patch_dump_headers (some buf) (some em) = some buf' ∧
      buf'.metadata = buf.metadata ∧
      (∀ g b i, (g, b, i) ∈ kbase_hwcnt_metadata_for_each_block buf.metadata →
        kbase_hwcnt_metadata_group_type buf.metadata g = KBASE_HWCNT_GPU_GROUP_TYPE_V5 →
        buf'.dump_buf g b i KBASE_HWCNT_V5_PRFCNT_EN_HEADER
          = kbasep_hwcnt_backend_gpu_block_map_to_physical (em.enable_map g b i 0) 0) ∧
      (∀ g b i j, j ≠ KBASE_HWCNT_V5_PRFCNT_EN_HEADER →
        buf'.dump_buf g b i j = buf.dump_buf g b i j) := by
  refine ⟨_, patch_dump_headers_ok buf em hmd, rfl, ?_, ?_⟩
  · intro g b i hin hgt
    simp only [KBASE_HWCNT_V5_PRFCNT_EN_HEADER]
    rw [patch_loop_word, if_pos ⟨hin, hgt, rfl⟩]
  · intro g b i j hj
    simp only [KBASE_HWCNT_V5_PRFCNT_EN_HEADER] at hj
    simp only
    rw [patch_loop_word, if_neg (fun h => hj h.2.2)]

/-- C14 on the example of the specification: the values 0 to 3 enabled on the
front-end instance give header word 2 equal to `0x00000001`, and header word 3
keeps its pre-fill. -/
theorem patch_dump_headers_word_witness :
    ∃ buf', kbase_hwcnt_gpu_patch_dump_headers (some merge_example_dump_buffer)
        (some header_example_enable_map) = some buf' ∧
      buf'.dump_buf 0 0 0 2 = 0x00000001 ∧ buf'.dump_buf 0 0 0 3 = 1 := by
  obtain ⟨buf', hrun, _, hword, hrest⟩ :=
    patch_dump_headers_word merge_example_dump_buffer header_example_enable_map rfl
  refine ⟨buf', hrun, ?_, ?_⟩
  · have h := hword 0 0 0 (by decide) (by decide)
    rw [show KBASE_HWCNT_V5_PRFCNT_EN_HEADER = 2 from rfl] at h
    rw [h]
    decide
  · rw [hrest 0 0 0 3 (by decide)]
    rfl

/-! ## Definitions of the two enable-map conversions -/

theorem v5_block_role_none_of_undefined (grp_type : kbase_hwcnt_gpu_group_type) :
    v5_block_role grp_type KBASE_HWCNT_GPU_V5_BLOCK_TYPE_PERF_UNDEFINED = none := by
  cases grp_type <;> rfl

theorem to_physical_loop_role_or (m : kbase_hwcnt_enable_map) (r : v5_role)
    (its : List (Nat × Nat × Nat)) (st : enable_map_to_physical_state) :
    (its.foldl (kbase_hwcnt_gpu_enable_map_to_physical_block m) st).role_bm r
      = ((its.filter (fun it => decide (block_role m.metadata it = some r))).map
          (fun it => m.enable_map it.1 it.2.1 it.2.2 0)).foldl (fun a w => a ||| w)
            (st.role_bm r) := by
  induction its generalizing st with
  | nil => rfl
  | cons it its ih =>
    rw [List.foldl_cons, ih, to_physical_block_role_bm]
    by_cases hr : block_role m.metadata it = some r
    · simp [hr, List.filter_cons]
    · simp [hr, List.filter_cons]

theorem block_map_to_physical_low_lt (lo : Nat) :
    kbasep_hwcnt_backend_gpu_block_map_to_physical lo 0 < 2 ^ 16 := by
  apply Nat.lt_pow_two_of_testBit
  intro b hb
  rw [block_map_to_physical_testBit, if_neg (by omega)]
  simp

theorem from_physical_loop_none (md : kbase_hwcnt_metadata) (fe sh ti mm : Nat)
    (its : List (Nat × Nat × Nat)) (em : Nat → Nat → Nat → Nat → Nat) (g b i : Nat)
    (hr : block_role md (g, b, i) = none) :
    (its.foldl (kbase_hwcnt_gpu_enable_map_from_physical_block md fe sh ti mm) em) g b i
      = em g b i := by
  induction its generalizing em with
  | nil => rfl
  | cons it its ih =>
    rw [List.foldl_cons, ih, from_physical_block_eq]
    by_cases he : (g, b, i) = it
    · subst he
      rw [hr]
    · cases block_role md it with
      | none => rfl
      | some r' =>
        simp only [enable_map_store_first]
        rw [block_instance_store_other _ _ _ _ _ _ _ _ he]

/-- C15 (definition of the conversion to physical): for every enable map, each of
the four bitmaps written by `kbase_hwcnt_gpu_enable_map_to_physical` is the
Bit-Packing, with a zero high half, of the bitwise OR of the first bitmap words
of the block instances of that role (FE/FE2/FE3, TILER, SC/SC2/SC3,
MEMSYS/MEMSYS2 in a v5 group); block instances of undefined type have no role
and contribute to no bitmap; every bitmap is below `2 ^ 16`. -/
theorem enable_map_to_physical_definition (m : kbase_hwcnt_enable_map)
    (out : kbase_hwcnt_physical_enable_map) :
    (∃ p, kbase_hwcnt_gpu_enable_map_to_physical (some out) (some m) = some p ∧
      ∀ r, p.role_bm r
          = kbasep_hwcnt_backend_gpu_block_map_to_physical
              ((((kbase_hwcnt_metadata_for_each_block m.metadata).filter
                  (fun it => decide (block_role m.metadata it = some r))).map
                (fun it => m.enable_map it.1 it.2.1 it.2.2 0)).foldl (fun a w => a ||| w) 0) 0 ∧
        p.role_bm r < 2 ^ 16) ∧
    (∀ t, v5_block_role KBASE_HWCNT_GPU_GROUP_TYPE_V5 t = some v5_role.FE ↔
      (t = KBASE_HWCNT_GPU_V5_BLOCK_TYPE_PERF_FE ∨ t = KBASE_HWCNT_GPU_V5_BLOCK_TYPE_PERF_FE2 ∨
        t = KBASE_HWCNT_GPU_V5_BLOCK_TYPE_PERF_FE3)) ∧
    (∀ t, v5_block_role KBASE_HWCNT_GPU_GROUP_TYPE_V5 t = some v5_role.TILER ↔
      t = KBASE_HWCNT_GPU_V5_BLOCK_TYPE_PERF_TILER) ∧
    (∀ t, v5_block_role KBASE_HWCNT_GPU_GROUP_TYPE_V5 t = some v5_role.SHADER ↔
      (t = KBASE_HWCNT_GPU_V5_BLOCK_TYPE_PERF_SC ∨ t = KBASE_HWCNT_GPU_V5_BLOCK_TYPE_PERF_SC2 ∨
        t = KBASE_HWCNT_GPU_V5_BLOCK_TYPE_PERF_SC3)) ∧
    (∀ t, v5_block_role KBASE_HWCNT_GPU_GROUP_TYPE_V5 t = some v5_role.MEMSYS ↔
      (t = KBASE_HWCNT_GPU_V5_BLOCK_TYPE_PERF_MEMSYS ∨
        t = KBASE_HWCNT_GPU_V5_BLOCK_TYPE_PERF_MEMSYS2)) ∧
    (∀ it r, kbase_hwcnt_metadata_block_type m.metadata it.1 it.2.1
        = KBASE_HWCNT_GPU_V5_BLOCK_TYPE_PERF_UNDEFINED →
      block_role m.metadata it ≠ some r) := by
  refine ⟨⟨_, rfl, fun r => ⟨?_, ?_⟩⟩, ?_, ?_, ?_, ?_, ?_⟩
  · have hfold := to_physical_loop_role_or m r (kbase_hwcnt_metadata_for_each_block m.metadata)
      { fe_bm := 0, shader_bm := 0, tiler_bm := 0, mmu_l2_bm := 0 }
    have hzero : (enable_map_to_physical_state.mk 0 0 0 0).role_bm r = 0 := by
      cases r <;> rfl
    rw [hzero] at hfold
    rw [← hfold]
    cases r <;> rfl
  · cases r <;> exact block_map_to_physical_low_lt _
  · intro t
    cases t <;> simp [v5_block_role]
  · intro t
    cases t <;> simp [v5_block_role]
  · intro t
    cases t <;> simp [v5_block_role]
  · intro t
    cases t <;> simp [v5_block_role]
  · intro it r hty
    simp [block_role, hty, v5_block_role_none_of_undefined]

/-- C15 on `secondary_example_enable_map`, where every block instance is
enabled and the front-end and tiler blocks have the undefined type: the
front-end and tiler bitmaps are 0, the shader and memsys bitmaps `0xFFFF`. -/
theorem enable_map_to_physical_definition_witness :
    kbase_hwcnt_gpu_enable_map_to_physical (some ⟨0, 0, 0, 0⟩)
        (some secondary_example_enable_map) = some ⟨0, 0xFFFF, 0, 0xFFFF⟩ ∧
    ∀ r, (kbase_hwcnt_physical_enable_map.mk 0 0xFFFF 0 0xFFFF).role_bm r < 2 ^ 16 := by
  obtain ⟨⟨p, hrun, hp⟩, _⟩ :=
    enable_map_to_physical_definition secondary_example_enable_map ⟨0, 0, 0, 0⟩
  have hval : kbase_hwcnt_gpu_enable_map_to_physical (some ⟨0, 0, 0, 0⟩)
      (some secondary_example_enable_map) = some ⟨0, 0xFFFF, 0, 0xFFFF⟩ := by decide
  refine ⟨hval, fun r => ?_⟩
  rw [hval] at hrun
  cases hrun
  exact (hp r).2

/-- C16 (definition of the conversion from physical): for every physical enable
map and every block instance that has a role,
`kbase_hwcnt_gpu_enable_map_from_physical` stores in the first bitmap word of
the instance the unpacked low word of the role's bitmap, whose bit `n` below 64
is bit `n / 4` of that bitmap, so all instances of a role receive the same
word; block instances without a role, those of undefined type among them, keep
their previous bitmap. -/
theorem enable_map_from_physical_definition (dst : kbase_hwcnt_enable_map)
    (p : kbase_hwcnt_physical_enable_map) :
    ∃ m', kbase_hwcnt_gpu_enable_map_from_physical (some dst) (some p) = some m' ∧
      m'.metadata = dst.metadata ∧
      (∀ g b i r, (g, b, i) ∈ kbase_hwcnt_metadata_for_each_block dst.metadata →
        block_role dst.metadata (g, b, i) = some r →
        m'.enable_map g b i 0
            = (kbasep_hwcnt_backend_gpu_block_map_from_physical (p.role_bm r)).1 ∧
          ∀ n, n < 64 → (m'.enable_map g b i 0).testBit n = (p.role_bm r).testBit (n / 4)) ∧
      (∀ g b i, block_role dst.metadata (g, b, i) = none →
        m'.enable_map g b i = dst.enable_map g b i) ∧
      (∀ g b i, kbase_hwcnt_metadata_block_type dst.metadata g b
          = KBASE_HWCNT_GPU_V5_BLOCK_TYPE_PERF_UNDEFINED →
        m'.enable_map g b i = dst.enable_map g b i) := by
  have hnone : ∀ g b i, block_role dst.metadata (g, b, i) = none →
      ((kbase_hwcnt_metadata_for_each_block dst.metadata).foldl
        (kbase_hwcnt_gpu_enable_map_from_physical_block dst.metadata
          (kbasep_hwcnt_backend_gpu_block_map_from_physical p.fe_bm).1
          (kbasep_hwcnt_backend_gpu_block_map_from_physical p.shader_bm).1
          (kbasep_hwcnt_backend_gpu_block_map_from_physical p.tiler_bm).1
          (kbasep_hwcnt_backend_gpu_block_map_from_physical p.mmu_l2_bm).1) dst.enable_map) g b i
        = dst.enable_map g b i :=
    fun g b i hr => from_physical_loop_none _ _ _ _ _ _ _ g b i hr
  refine ⟨_, rfl, rfl, ?_, hnone, ?_⟩
  · intro g b i r hin hr
    have hword : ((kbase_hwcnt_metadata_for_each_block dst.metadata).foldl
        (kbase_hwcnt_gpu_enable_map_from_physical_block dst.metadata
          (kbasep_hwcnt_backend_gpu_block_map_from_physical p.fe_bm).1
          (kbasep_hwcnt_backend_gpu_block_map_from_physical p.shader_bm).1
          (kbasep_hwcnt_backend_gpu_block_map_from_physical p.tiler_bm).1
          (kbasep_hwcnt_backend_gpu_block_map_from_physical p.mmu_l2_bm).1) dst.enable_map)
          g b i 0
        = (kbasep_hwcnt_backend_gpu_block_map_from_physical (p.role_bm r)).1 := by
      rw [from_physical_loop_first _ _ _ _ _ _ _ _ _ _ r hr, if_pos hin]
      cases r <;> rfl
    refine ⟨hword, fun n hn => ?_⟩
    simp only
    rw [hword]
    simp only [kbasep_hwcnt_backend_gpu_block_map_from_physical,
      block_map_from_physical_dword_testBit]
    simp [hn]
  · intro g b i hty
    apply hnone
    simp [block_role, hty, v5_block_role_none_of_undefined]

/-- C16 on `secondary_example_enable_map_defined_only` and the physical enable
map `(0xFFFF, 0x0002, 0xFFFF, 0)`: shader-core instance 1 receives `0xF0`, the
front-end block of undefined type keeps its zero bitmap. -/
theorem enable_map_from_physical_definition_witness :
    ∃ m', kbase_hwcnt_gpu_enable_map_from_physical
        (some secondary_example_enable_map_defined_only) (some ⟨0xFFFF, 0x0002, 0xFFFF, 0⟩)
        = some m' ∧
      m'.enable_map 0 3 1 0 = 0xF0 ∧
      m'.enable_map 0 0 0 = secondary_example_enable_map_defined_only.enable_map 0 0 0 := by
  obtain ⟨m', hrun, _, hrole, _, hundef⟩ :=
    enable_map_from_physical_definition secondary_example_enable_map_defined_only
      ⟨0xFFFF, 0x0002, 0xFFFF, 0⟩
  refine ⟨m', hrun, ?_, hundef 0 0 0 (by decide)⟩
  rw [(hrole 0 3 1 v5_role.SHADER (by decide) (by decide)).1]
  decide

/-! ## The two merge loops side by side -/

theorem csf_block_src_offset (md : kbase_hwcnt_metadata) (em : kbase_hwcnt_enable_map)
    (src : Nat → Nat) (acc : Bool) (st : csf_dump_state) (it : Nat × Nat × Nat) :
    (kbase_hwcnt_csf_dump_get_block md em src acc st it).src_offset
      = (st.src_offset + block_src_words md it) % 2 ^ 64 := rfl

theorem csf_loop_append (md : kbase_hwcnt_metadata) (em : kbase_hwcnt_enable_map)
    (src : Nat → Nat) (acc : Bool) (st : csf_dump_state) (xs ys : List (Nat × Nat × Nat)) :
    kbase_hwcnt_csf_dump_get_loop md em src acc st (xs ++ ys)
      = kbase_hwcnt_csf_dump_get_loop md em src acc
          (kbase_hwcnt_csf_dump_get_loop md em src acc st xs) ys := by
  simp [kbase_hwcnt_csf_dump_get_loop, List.foldl_append]

theorem csf_loop_other (md : kbase_hwcnt_metadata) (em : kbase_hwcnt_enable_map)
    (src : Nat → Nat) (acc : Bool) (its : List (Nat × Nat × Nat)) (st : csf_dump_state)
    (g b i : Nat) (h : (g, b, i) ∉ its) :
    (kbase_hwcnt_csf_dump_get_loop md em src acc st its).dump_buf g b i = st.dump_buf g b i := by
  induction its generalizing st with
  | nil => rfl
  | cons it its ih =>
    rw [csf_loop_cons, ih _ (fun hm => h (List.mem_cons_of_mem _ hm)),
      csf_block_other md em src acc st it g b i (fun he => h (he ▸ List.mem_cons_self _ _))]

theorem csf_loop_src_offset (md : kbase_hwcnt_metadata) (em : kbase_hwcnt_enable_map)
    (src : Nat → Nat) (acc : Bool) (its : List (Nat × Nat × Nat)) (st : csf_dump_state)
    (hst : st.src_offset < 2 ^ 64) :
    (kbase_hwcnt_csf_dump_get_loop md em src acc st its).src_offset
      = (st.src_offset + (its.map (block_src_words md)).sum) % 2 ^ 64 := by
  induction its generalizing st with
  | nil =>
    simp only [List.map_nil, List.sum_nil, Nat.add_zero]
    exact (Nat.mod_eq_of_lt hst).symm
  | cons it its ih =>
    rw [csf_loop_cons, ih _ (by rw [csf_block_src_offset]; exact Nat.mod_lt _ (by norm_num)),
      csf_block_src_offset, List.map_cons, List.sum_cons, Nat.mod_add_mod, Nat.add_assoc]

theorem csf_block_enabled (md : kbase_hwcnt_metadata) (em : kbase_hwcnt_enable_map)
    (src : Nat → Nat) (acc : Bool) (st : csf_dump_state) (g b i : Nat)
    (h : kbase_hwcnt_enable_map_block_enabled em g b i = true) (j : Nat) :
    (kbase_hwcnt_csf_dump_get_block md em src acc st (g, b, i)).dump_buf g b i j
      = if j < block_src_words md (g, b, i) % 2 ^ 64 then
          (if acc then (st.dump_buf g b i j + src (st.src_offset + j)) % 2 ^ 32
           else src (st.src_offset + j))
        else st.dump_buf g b i j := by
  simp only [kbase_hwcnt_csf_dump_get_block, h, if_true]
  simp only [block_src_words]
  cases acc <;>
    simp [block_instance_store_same, kbase_hwcnt_dump_buffer_block_accumulate,
      kbase_hwcnt_dump_buffer_block_copy]

theorem csf_loop_at (md : kbase_hwcnt_metadata) (em : kbase_hwcnt_enable_map)
    (src : Nat → Nat) (acc : Bool) (L : List (Nat × Nat × Nat)) (hnd : L.Nodup)
    (st : csf_dump_state) (k g b i : Nat) (hk : L[k]? = some (g, b, i)) :
    (kbase_hwcnt_csf_dump_get_loop md em src acc st L).dump_buf g b i
        = (kbase_hwcnt_csf_dump_get_block md em src acc
            (kbase_hwcnt_csf_dump_get_loop md em src acc st (L.take k)) (g, b, i)).dump_buf g b i ∧
      (kbase_hwcnt_csf_dump_get_loop md em src acc st (L.take k)).dump_buf g b i
        = st.dump_buf g b i := by
  have hsplit := list_split_at L k (g, b, i) hk
  have hnd2 := hnd
  rw [hsplit, List.nodup_append, List.nodup_cons] at hnd2
  obtain ⟨_, ⟨hnotin, _⟩, hdisj⟩ := hnd2
  have hpre : (g, b, i) ∉ L.take k := fun hm => hdisj hm (List.mem_cons_self _ _)
  constructor
  · conv_lhs => rw [hsplit]
    rw [csf_loop_append, csf_loop_cons, csf_loop_other _ _ _ _ _ _ _ _ _ hnotin]
  · exact csf_loop_other md em src acc _ st g b i hpre

/-- One pass of the legacy loop does what one pass of the command-stream loop
does when the visited instance is not a shader core or bit 0 of `core_mask` is
set. -/
theorem jm_block_eq_csf_block (md : kbase_hwcnt_metadata) (em : kbase_hwcnt_enable_map)
    (src : Nat → Nat) (acc : Bool) (st : jm_dump_state) (it : Nat × Nat × Nat)
    (h : block_is_shader md it = false ∨ st.core_mask.testBit 0 = true) :
    (kbase_hwcnt_jm_dump_get_block md em src acc st it).dump_buf
      = (kbase_hwcnt_csf_dump_get_block md em src acc
          { dump_buf := st.dump_buf, src_offset := st.src_offset } it).dump_buf := by
  have hbit : ((st.core_mask &&& 1) != 0) = st.core_mask.testBit 0 := by
    simp [Nat.testBit, Nat.and_comm]
  have hcond : (!is_block_type_shader (kbase_hwcnt_metadata_group_type md it.1)
      (kbase_hwcnt_metadata_block_type md it.1 it.2.1) it.2.1
        || (st.core_mask &&& 1) != 0) = true := by
    rw [hbit]
    rcases h with h | h
    · simp only [block_is_shader] at h
      simp [h]
    · simp [h]
  simp only [kbase_hwcnt_jm_dump_get_block, kbase_hwcnt_csf_dump_get_block, hcond, if_true]

theorem jm_loop_eq_csf_loop (md : kbase_hwcnt_metadata) (em : kbase_hwcnt_enable_map)
    (src : Nat → Nat) (acc : Bool) (its : List (Nat × Nat × Nat)) (stj : jm_dump_state)
    (stc : csf_dump_state) (hbuf : stj.dump_buf = stc.dump_buf)
    (hoff : stj.src_offset = stc.src_offset)
    (hmask : ∀ n, n < its.countP (block_is_shader md) → stj.core_mask.testBit n = true) :
    (kbase_hwcnt_jm_dump_get_loop md em src acc stj its).dump_buf
      = (kbase_hwcnt_csf_dump_get_loop md em src acc stc its).dump_buf := by
  induction its generalizing stj stc with
  | nil => exact hbuf
  | cons it its ih =>
    rw [jm_loop_cons, csf_loop_cons]
    have hstc : stc = { dump_buf := stj.dump_buf, src_offset := stj.src_offset } := by
      cases stc
      simp only at hbuf hoff
      simp [hbuf, hoff]
    apply ih
    · rw [hstc]
      apply jm_block_eq_csf_block
      by_cases hs : block_is_shader md it = true
      · right
        apply hmask 0
        rw [List.countP_cons, hs]
        simp
      · left
        simpa using hs
    · rw [jm_block_src_offset, csf_block_src_offset, hoff]
    · intro n hn
      rw [jm_block_core_mask]
      by_cases hs : block_is_shader md it = true
      · simp only [hs, if_true]
        rw [Nat.testBit_shiftRight]
        apply hmask
        rw [List.countP_cons, hs]
        simp
        omega
      · simp only [hs]
        apply hmask
        rw [List.countP_cons]
        simp only [hs]
        simpa using hn

/-! ## Undefined block types downstream of the planner -/

/-- C17 as stated fails: in `secondary_example_metadata` the front-end block has
the undefined type; with that block enabled, `kbase_hwcnt_jm_dump_get` and
`kbase_hwcnt_csf_dump_get` in overwrite mode replace its word 0 (pre-filled
with 1) by the all-ones source word, and `kbase_hwcnt_gpu_patch_dump_headers`
replaces its word 2 by `0xFFFF`. -/
theorem undefined_block_downstream_counterexample :
    kbase_hwcnt_metadata_block_type secondary_example_metadata 0 0
      = KBASE_HWCNT_GPU_V5_BLOCK_TYPE_PERF_UNDEFINED ∧
    secondary_example_dump_buffer.dump_buf 0 0 0 0 = 1 ∧
    secondary_example_dump_buffer.dump_buf 0 0 0 2 = 1 ∧
    (kbase_hwcnt_jm_dump_get (some secondary_example_dump_buffer) (some merge_example_src)
        (some secondary_example_enable_map) 0b101 false).2.map (fun d => d.dump_buf 0 0 0 0)
      = some (2 ^ 32 - 1) ∧
    (kbase_hwcnt_csf_dump_get (some secondary_example_dump_buffer) (some merge_example_src)
        (some secondary_example_enable_map) false).2.map (fun d => d.dump_buf 0 0 0 0)
      = some (2 ^ 32 - 1) ∧
    (kbase_hwcnt_gpu_patch_dump_headers (some secondary_example_dump_buffer)
        (some secondary_example_enable_map)).map (fun d => d.dump_buf 0 0 0 2)
      = some 0xFFFF :=
  ⟨by decide, rfl, rfl, by decide, by decide, by decide⟩

/-- C17 as amended: for every metadata, enable map bound to it, raw source,
availability mask and mode, a block instance of undefined type in a v5 group
that is not enabled in the enable map keeps all its destination words through
`kbase_hwcnt_jm_dump_get` and `kbase_hwcnt_csf_dump_get`, whose loops only
advance the source offset over it and shift no bit out of the core mask;
`kbase_hwcnt_gpu_patch_dump_headers` keeps every word of it other than header
word 2 and overwrites word 2 with the Bit-Packing of its first bitmap word. -/
theorem undefined_block_downstream (d : kbase_hwcnt_dump_buffer) (src : Nat → Nat)
    (em : kbase_hwcnt_enable_map) (pm : Nat) (acc : Bool) (g b i : Nat)
    (hmd : em.metadata = d.metadata)
    (hin : (g, b, i) ∈ kbase_hwcnt_metadata_for_each_block d.metadata)
    (hgt : kbase_hwcnt_metadata_group_type d.metadata g = KBASE_HWCNT_GPU_GROUP_TYPE_V5)
    (hty : kbase_hwcnt_metadata_block_type d.metadata g b
      = KBASE_HWCNT_GPU_V5_BLOCK_TYPE_PERF_UNDEFINED)
    (hen : kbase_hwcnt_enable_map_block_enabled em g b i = false) :
    (∃ d', kbase_hwcnt_jm_dump_get (some d) (some src) (some em) pm acc = (0, some d') ∧
      ∀ j, d'.dump_buf g b i j = d.dump_buf g b i j) ∧
    (∃ d', kbase_hwcnt_csf_dump_get (some d) (some src) (some em) acc = (0, some d') ∧
      ∀ j, d'.dump_buf g b i j = d.dump_buf g b i j) ∧
    (∃ d', kbase_hwcnt_gpu_patch_dump_headers (some d) (some em) = some d' ∧
      (∀ j, j ≠ KBASE_HWCNT_V5_PRFCNT_EN_HEADER → d'.dump_buf g b i j = d.dump_buf g b i j) ∧
      d'.dump_buf g b i KBASE_HWCNT_V5_PRFCNT_EN_HEADER
        = kbasep_hwcnt_backend_gpu_block_map_to_physical (em.enable_map g b i 0) 0) ∧
    (∀ st : jm_dump_state,
      (kbase_hwcnt_jm_dump_get_block d.metadata em src acc st (g, b, i)).core_mask
          = st.core_mask ∧
        (kbase_hwcnt_jm_dump_get_block d.metadata em src acc st (g, b, i)).src_offset
          = (st.src_offset + block_src_words d.metadata (g, b, i)) % 2 ^ 64) := by
  refine ⟨⟨_, jm_dump_get_ok d src em pm acc hmd, ?_⟩,
    ⟨_, csf_dump_get_ok d src em acc hmd, ?_⟩,
    ⟨_, patch_dump_headers_ok d em hmd.symm, ?_, ?_⟩, ?_⟩
  · intro j
    exact congrFun (jm_loop_disabled d.metadata em src acc _ _ g b i hen) j
  · intro j
    exact congrFun (csf_loop_disabled d.metadata em src acc _ _ g b i hen) j
  · intro j hj
    simp only [KBASE_HWCNT_V5_PRFCNT_EN_HEADER] at hj
    simp only
    rw [patch_loop_word, if_neg (fun h => hj h.2.2)]
  · simp only [KBASE_HWCNT_V5_PRFCNT_EN_HEADER]
    rw [patch_loop_word, if_pos ⟨hin, hgt, rfl⟩]
  · intro st
    refine ⟨?_, rfl⟩
    rw [jm_block_core_mask]
    have hns : block_is_shader d.metadata (g, b, i) = false := by
      simp [block_is_shader, hty, hgt, is_block_type_shader]
    simp [hns]

/-- C17 as amended, on `secondary_example_metadata` with the blocks of undefined
type disabled: the front-end block keeps its pre-fill through both merges, and
the header patcher writes 0 into its word 2 and keeps the rest. -/
theorem undefined_block_downstream_witness :
    (∃ d', kbase_hwcnt_jm_dump_get (some secondary_example_dump_buffer)
        (some merge_example_src) (some secondary_example_enable_map_defined_only) 0b101 false
        = (0, some d') ∧
      ∀ j, d'.dump_buf 0 0 0 j = secondary_example_dump_buffer.dump_buf 0 0 0 j) ∧
    (∃ d', kbase_hwcnt_csf_dump_get (some secondary_example_dump_buffer)
        (some merge_example_src) (some secondary_example_enable_map_defined_only) false
        = (0, some d') ∧
      ∀ j, d'.dump_buf 0 0 0 j = secondary_example_dump_buffer.dump_buf 0 0 0 j) ∧
    (∃ d', kbase_hwcnt_gpu_patch_dump_headers (some secondary_example_dump_buffer)
        (some secondary_example_enable_map_defined_only) = some d' ∧
      (∀ j, j ≠ KBASE_HWCNT_V5_PRFCNT_EN_HEADER →
        d'.dump_buf 0 0 0 j = secondary_example_dump_buffer.dump_buf 0 0 0 j) ∧
      d'.dump_buf 0 0 0 KBASE_HWCNT_V5_PRFCNT_EN_HEADER
        = kbasep_hwcnt_backend_gpu_block_map_to_physical
            (secondary_example_enable_map_defined_only.enable_map 0 0 0 0) 0) ∧
    kbasep_hwcnt_backend_gpu_block_map_to_physical
      (secondary_example_enable_map_defined_only.enable_map 0 0 0 0) 0 = 0 :=
  ⟨(undefined_block_downstream secondary_example_dump_buffer merge_example_src
      secondary_example_enable_map_defined_only 0b101 false 0 0 0 rfl (by decide) (by decide)
      (by decide) (by decide)).1,
   (undefined_block_downstream secondary_example_dump_buffer merge_example_src
      secondary_example_enable_map_defined_only 0b101 false 0 0 0 rfl (by decide) (by decide)
      (by decide) (by decide)).2.1,
   (undefined_block_downstream secondary_example_dump_buffer merge_example_src
      secondary_example_enable_map_defined_only 0b101 false 0 0 0 rfl (by decide) (by decide)
      (by decide) (by decide)).2.2.1,
   by decide⟩

/-! ## Closure properties of the codec -/

/-- C18 (lossy closure of the codec): for all 64-bit `lo` and `hi`, unpacking the
packed value gives two words in which bit `n` below 64 is set iff some bit of
the aligned group `4 * (n / 4) .. 4 * (n / 4) + 3` of the input word is set (so
a group is all ones or all zeros) and no bit at 64 or above is set; the result
is a bitwise superset of `(lo, hi)`; and for `lo = 1`, `hi = 0` the result
`(0xF, 0)` differs from the input. -/
theorem block_map_round_trip_closure (lo hi : Nat) (hlo : lo < 2 ^ 64) (hhi : hi < 2 ^ 64) :
    (∀ n, (kbasep_hwcnt_backend_gpu_block_map_from_physical
        (kbasep_hwcnt_backend_gpu_block_map_to_physical lo hi)).1.testBit n
      = (decide (n < 64) &&
          (lo.testBit (4 * (n / 4)) || lo.testBit (4 * (n / 4) + 1) ||
            lo.testBit (4 * (n / 4) + 2) || lo.testBit (4 * (n / 4) + 3)))) ∧
    (∀ n, (kbasep_hwcnt_backend_gpu_block_map_from_physical
        (kbasep_hwcnt_backend_gpu_block_map_to_physical lo hi)).2.testBit n
      = (decide (n < 64) &&
          (hi.testBit (4 * (n / 4)) || hi.testBit (4 * (n / 4) + 1) ||
            hi.testBit (4 * (n / 4) + 2) || hi.testBit (4 * (n / 4) + 3)))) ∧
    lo &&& (kbasep_hwcnt_backend_gpu_block_map_from_physical
      (kbasep_hwcnt_backend_gpu_block_map_to_physical lo hi)).1 = lo ∧
    hi &&& (kbasep_hwcnt_backend_gpu_block_map_from_physical
      (kbasep_hwcnt_backend_gpu_block_map_to_physical lo hi)).2 = hi ∧
    kbasep_hwcnt_backend_gpu_block_map_from_physical
      (kbasep_hwcnt_backend_gpu_block_map_to_physical 1 0) = (0xF, 0) ∧
    kbasep_hwcnt_backend_gpu_block_map_from_physical
      (kbasep_hwcnt_backend_gpu_block_map_to_physical 1 0) ≠ (1, 0) := by
  have h1 : ∀ n, (kbasep_hwcnt_backend_gpu_block_map_from_physical
        (kbasep_hwcnt_backend_gpu_block_map_to_physical lo hi)).1.testBit n
      = (decide (n < 64) &&
          (lo.testBit (4 * (n / 4)) || lo.testBit (4 * (n / 4) + 1) ||
            lo.testBit (4 * (n / 4) + 2) || lo.testBit (4 * (n / 4) + 3))) := by
    intro n
    simp only [kbasep_hwcnt_backend_gpu_block_map_from_physical,
      block_map_from_physical_dword_testBit, block_map_to_physical_testBit]
    by_cases hn : n < 64
    · have hg : n / 4 < 16 := by omega
      simp [hn, hg]
    · simp [hn]
  have h2 : ∀ n, (kbasep_hwcnt_backend_gpu_block_map_from_physical
        (kbasep_hwcnt_backend_gpu_block_map_to_physical lo hi)).2.testBit n
      = (decide (n < 64) &&
          (hi.testBit (4 * (n / 4)) || hi.testBit (4 * (n / 4) + 1) ||
            hi.testBit (4 * (n / 4) + 2) || hi.testBit (4 * (n / 4) + 3))) := by
    intro n
    simp only [kbasep_hwcnt_backend_gpu_block_map_from_physical,
      block_map_from_physical_dword_testBit, block_map_to_physical_testBit]
    by_cases hn : n < 64
    · have hg1 : ¬ (16 * 1 + n / 4 < 16) := by omega
      have hg2 : 16 * 1 + n / 4 < 32 := by omega
      have hg3 : 16 * 1 + n / 4 - 16 = n / 4 := by omega
      simp [hn, hg1, hg2, hg3]
    · simp [hn]
  have hsup : ∀ w r : Nat, w < 2 ^ 64 →
      (∀ n, r.testBit n = (decide (n < 64) &&
          (w.testBit (4 * (n / 4)) || w.testBit (4 * (n / 4) + 1) ||
            w.testBit (4 * (n / 4) + 2) || w.testBit (4 * (n / 4) + 3)))) →
      w &&& r = w := by
    intro w r hw hr
    apply Nat.eq_of_testBit_eq
    intro n
    rw [Nat.testBit_and, hr n]
    cases hb : w.testBit n with
    | false => simp
    | true =>
      have hn : n < 64 := by
        by_contra hge
        have : w.testBit n = false := Nat.testBit_lt_two_pow
          (Nat.lt_of_lt_of_le hw (Nat.pow_le_pow_right (by norm_num) (by omega)))
        rw [this] at hb
        exact Bool.noConfusion hb
      have hk : n = 4 * (n / 4) ∨ n = 4 * (n / 4) + 1 ∨ n = 4 * (n / 4) + 2 ∨
          n = 4 * (n / 4) + 3 := by omega
      rcases hk with hk | hk | hk | hk <;> rw [hk] at hb <;> simp [hn, hb]
  exact ⟨h1, h2, hsup lo _ hlo h1, hsup hi _ hhi h2, by decide, by decide⟩

/-- C18 at `lo = 0x21`, `hi = 0x100`: the unpacked words are `0xFF` and `0xF00`. -/
theorem block_map_round_trip_closure_witness :
    kbasep_hwcnt_backend_gpu_block_map_from_physical
        (kbasep_hwcnt_backend_gpu_block_map_to_physical 0x21 0x100) = (0xFF, 0xF00) ∧
    0x21 &&& (kbasep_hwcnt_backend_gpu_block_map_from_physical
      (kbasep_hwcnt_backend_gpu_block_map_to_physical 0x21 0x100)).1 = 0x21 ∧
    0x100 &&& (kbasep_hwcnt_backend_gpu_block_map_from_physical
      (kbasep_hwcnt_backend_gpu_block_map_to_physical 0x21 0x100)).2 = 0x100 :=
  ⟨by decide,
   (block_map_round_trip_closure 0x21 0x100 (by decide) (by decide)).2.2.1,
   (block_map_round_trip_closure 0x21 0x100 (by decide) (by decide)).2.2.2.1⟩

/-! ## The legacy merge against the command-stream merge -/

/-- C19 (the two merge variants agree when no core is absent): for every
destination buffer, raw source, enable map and mode, absent or present, such
that the metadata of the destination has at most 64 shader-core block
instances, `kbase_hwcnt_jm_dump_get` with the all-ones availability mask
`2 ^ 64 - 1` gives the same return value and the same destination buffer as
`kbase_hwcnt_csf_dump_get`; and `kbase_hwcnt_csf_dump_get` merges every enabled
block instance: the instance at position `k` receives, word by word, the
source record that starts at the sum of the sizes of the blocks before it. -/
theorem jm_dump_get_all_ones_eq_csf (dst : Option kbase_hwcnt_dump_buffer)
    (src : Option (Nat → Nat)) (em : Option kbase_hwcnt_enable_map) (acc : Bool)
    (hcount : ∀ d, dst = some d →
      (kbase_hwcnt_metadata_for_each_block d.metadata).countP (block_is_shader d.metadata)
        ≤ 64) :
    kbase_hwcnt_jm_dump_get dst src em (2 ^ 64 - 1) acc = kbase_hwcnt_csf_dump_get dst src em acc ∧
    (∀ d s e k g b i, dst = some d → src = some s → em = some e →
      e.metadata = d.metadata →
      (kbase_hwcnt_metadata_for_each_block d.metadata)[k]? = some (g, b, i) →
      kbase_hwcnt_enable_map_block_enabled e g b i = true →
      ∃ d', kbase_hwcnt_csf_dump_get dst src em acc = (0, some d') ∧
        ∀ j, j < block_src_words d.metadata (g, b, i) % 2 ^ 64 →
          d'.dump_buf g b i j
            = if acc then
                (d.dump_buf g b i j + s ((((kbase_hwcnt_metadata_for_each_block d.metadata).take
                  k).map (block_src_words d.metadata)).sum % 2 ^ 64 + j)) % 2 ^ 32
              else
                s ((((kbase_hwcnt_metadata_for_each_block d.metadata).take k).map
                  (block_src_words d.metadata)).sum % 2 ^ 64 + j)) := by
  constructor
  · cases dst with
    | none => simp [kbase_hwcnt_jm_dump_get, kbase_hwcnt_csf_dump_get]
    | some d =>
      cases src with
      | none => simp [kbase_hwcnt_jm_dump_get, kbase_hwcnt_csf_dump_get]
      | some s =>
        cases em with
        | none => simp [kbase_hwcnt_jm_dump_get, kbase_hwcnt_csf_dump_get]
        | some e =>
          by_cases hmd : e.metadata.addr = d.metadata.addr
          · rw [jm_dump_get_same_addr d s e _ acc hmd, csf_dump_get_same_addr d s e acc hmd]
            have hloop := jm_loop_eq_csf_loop d.metadata e s acc
              (kbase_hwcnt_metadata_for_each_block d.metadata)
              { dump_buf := d.dump_buf, src_offset := 0, core_mask := 2 ^ 64 - 1 }
              { dump_buf := d.dump_buf, src_offset := 0 } rfl rfl
              (by
                intro n hn
                have h64 := hcount d rfl
                simp only
                rw [Nat.testBit_two_pow_sub_one]
                simp
                omega)
            rw [hloop]
          · simp [kbase_hwcnt_jm_dump_get, kbase_hwcnt_csf_dump_get, hmd]
  · rintro d s e k g b i rfl rfl rfl hmd hk hen
    refine ⟨_, csf_dump_get_ok d s e acc hmd, ?_⟩
    intro j hj
    obtain ⟨hat, hpre⟩ := csf_loop_at d.metadata e s acc
      (kbase_hwcnt_metadata_for_each_block d.metadata) (for_each_block_nodup d.metadata)
      { dump_buf := d.dump_buf, src_offset := 0 } k g b i hk
    have hoff := csf_loop_src_offset d.metadata e s acc
      ((kbase_hwcnt_metadata_for_each_block d.metadata).take k)
      { dump_buf := d.dump_buf, src_offset := 0 } (by norm_num)
    simp only [Nat.zero_add] at hoff
    simp only
    rw [hat, csf_block_enabled d.metadata e s acc _ g b i hen j, if_pos hj, hoff, hpre]

/-- C19 on the example of the specification (three shader-core instances): the
legacy merge with the all-ones mask and the command-stream merge give the same
result, and shader-core instance 1 at position 4 receives the source words
from offset 256 on. -/
theorem jm_dump_get_all_ones_eq_csf_witness :
    kbase_hwcnt_jm_dump_get (some merge_example_dump_buffer) (some (fun w => w))
        (some merge_example_enable_map) (2 ^ 64 - 1) false
      = kbase_hwcnt_csf_dump_get (some merge_example_dump_buffer) (some (fun w => w))
        (some merge_example_enable_map) false ∧
    ∃ d', kbase_hwcnt_csf_dump_get (some merge_example_dump_buffer) (some (fun w => w))
        (some merge_example_enable_map) false = (0, some d') ∧
      d'.dump_buf 0 3 1 5 = 261 := by
  have hthm := jm_dump_get_all_ones_eq_csf (some merge_example_dump_buffer)
    (some (fun w => w)) (some merge_example_enable_map) false
    (fun d hd => by cases hd; decide)
  refine ⟨hthm.1, ?_⟩
  obtain ⟨d', hrun, hwords⟩ := hthm.2 merge_example_dump_buffer (fun w => w)
    merge_example_enable_map 4 0 3 1 rfl rfl rfl rfl (by decide) (by decide)
  refine ⟨d', hrun, ?_⟩
  rw [hwords 5 (by decide)]
  decide

/-! ## The restricted round trip -/

/-- C20 (restricted round trip): for every metadata in which each of the four
roles has at least one block instance of a defined type of that role, and every
physical enable map whose four bitmaps are below `2 ^ 16`,
`kbase_hwcnt_gpu_enable_map_from_physical` followed by
`kbase_hwcnt_gpu_enable_map_to_physical` returns that physical enable map; and
packing the two words obtained by unpacking any 32-bit value returns the
value. -/
theorem enable_map_physical_round_trip_restricted (em : kbase_hwcnt_enable_map)
    (out p : kbase_hwcnt_physical_enable_map) (x : Nat)
    (hroles : ∀ r, ∃ it ∈ kbase_hwcnt_metadata_for_each_block em.metadata,
      block_role em.metadata it = some r)
    (hfe : p.fe_bm < 2 ^ 16) (hsh : p.shader_bm < 2 ^ 16) (hti : p.tiler_bm < 2 ^ 16)
    (hmm : p.mmu_l2_bm < 2 ^ 16) (hx : x < 2 ^ 32) :
    (∃ m', kbase_hwcnt_gpu_enable_map_from_physical (some em) (some p) = some m' ∧
      kbase_hwcnt_gpu_enable_map_to_physical (some out) (some m') = some p) ∧
    kbasep_hwcnt_backend_gpu_block_map_to_physical
      (kbasep_hwcnt_backend_gpu_block_map_from_physical x).1
      (kbasep_hwcnt_backend_gpu_block_map_from_physical x).2 = x := by
  constructor
  · obtain ⟨m', p', hfrom, hto, hrole⟩ := enable_map_round_trip_role em out p
    refine ⟨m', hfrom, ?_⟩
    rw [hto]
    have hall : ∀ r, p'.role_bm r = p.role_bm r % 2 ^ 16 := by
      intro r
      rw [hrole r, if_pos (hroles r)]
    have h1 := hall v5_role.FE
    have h2 := hall v5_role.SHADER
    have h3 := hall v5_role.TILER
    have h4 := hall v5_role.MEMSYS
    simp only [kbase_hwcnt_physical_enable_map.role_bm] at h1 h2 h3 h4
    rw [Nat.mod_eq_of_lt hfe] at h1
    rw [Nat.mod_eq_of_lt hsh] at h2
    rw [Nat.mod_eq_of_lt hti] at h3
    rw [Nat.mod_eq_of_lt hmm] at h4
    cases p'
    cases p
    simp only at h1 h2 h3 h4
    simp [h1, h2, h3, h4]
  · apply Nat.eq_of_testBit_eq
    intro n
    rw [block_map_to_physical_testBit]
    simp only [kbasep_hwcnt_backend_gpu_block_map_from_physical,
      block_map_from_physical_dword_testBit]
    by_cases h16 : n < 16
    · have e0 : (4 * n) / 4 = n := by omega
      have e1 : (4 * n + 1) / 4 = n := by omega
      have e2 : (4 * n + 2) / 4 = n := by omega
      have e3 : (4 * n + 3) / 4 = n := by omega
      have l0 : 4 * n < 64 := by omega
      have l1 : 4 * n + 1 < 64 := by omega
      have l2 : 4 * n + 2 < 64 := by omega
      have l3 : 4 * n + 3 < 64 := by omega
      simp [h16, e0, e1, e2, e3, l0, l1, l2, l3]
    · by_cases h32 : n < 32
      · have e0 : 16 * 1 + (4 * (n - 16)) / 4 = n := by omega
        have e1 : 16 * 1 + (4 * (n - 16) + 1) / 4 = n := by omega
        have e2 : 16 * 1 + (4 * (n - 16) + 2) / 4 = n := by omega
        have e3 : 16 * 1 + (4 * (n - 16) + 3) / 4 = n := by omega
        have l0 : 4 * (n - 16) < 64 := by omega
        have l1 : 4 * (n - 16) + 1 < 64 := by omega
        have l2 : 4 * (n - 16) + 2 < 64 := by omega
        have l3 : 4 * (n - 16) + 3 < 64 := by omega
        simp only [h16, h32, if_false, if_true, e0, e1, e2, e3, l0, l1, l2, l3, decide_True,
          Bool.true_and, Bool.or_self]
      · simp only [h16, h32, if_false]
        exact (Nat.testBit_lt_two_pow
          (Nat.lt_of_lt_of_le hx (Nat.pow_le_pow_right (by norm_num) (by omega)))).symm

/-- C20 on `two_groups_example_enable_map` (Primary set, every role present)
with the physical enable map `(0x00FF, 0x0001, 0x8000, 0x1234)` and the 32-bit
value `0x80010003`. -/
theorem enable_map_physical_round_trip_restricted_witness :
    (∃ m', kbase_hwcnt_gpu_enable_map_from_physical (some two_groups_example_enable_map)
        (some ⟨0x00FF, 0x0001, 0x8000, 0x1234⟩) = some m' ∧
      kbase_hwcnt_gpu_enable_map_to_physical (some ⟨0, 0, 0, 0⟩) (some m')
        = some ⟨0x00FF, 0x0001, 0x8000, 0x1234⟩) ∧
    kbasep_hwcnt_backend_gpu_block_map_to_physical
      (kbasep_hwcnt_backend_gpu_block_map_from_physical 0x80010003).1
      (kbasep_hwcnt_backend_gpu_block_map_from_physical 0x80010003).2 = 0x80010003 :=
  enable_map_physical_round_trip_restricted two_groups_example_enable_map ⟨0, 0, 0, 0⟩
    ⟨0x00FF, 0x0001, 0x8000, 0x1234⟩ 0x80010003
    (fun r => by
      cases r
      · exact ⟨(0, 0, 0), by decide, by decide⟩
      · exact ⟨(0, 1, 0), by decide, by decide⟩
      · exact ⟨(0, 3, 0), by decide, by decide⟩
      · exact ⟨(0, 2, 0), by decide, by decide⟩)
    (by decide) (by decide) (by decide) (by decide) (by decide)

/-! ## Packing and the bitwise OR -/

theorem block_map_to_physical_or (a b c d : Nat) :
    kbasep_hwcnt_backend_gpu_block_map_to_physical (a ||| b) (c ||| d)
      = kbasep_hwcnt_backend_gpu_block_map_to_physical a c |||
          kbasep_hwcnt_backend_gpu_block_map_to_physical b d := by
  apply Nat.eq_of_testBit_eq
  intro n
  rw [Nat.testBit_or]
  simp only [block_map_to_physical_testBit, Nat.testBit_or]
  by_cases h16 : n < 16
  · simp only [h16, if_true]
    cases a.testBit (4 * n) <;> cases a.testBit (4 * n + 1) <;> cases a.testBit (4 * n + 2) <;>
      cases a.testBit (4 * n + 3) <;> simp
  · by_cases h32 : n < 32
    · simp only [h16, h32, if_true, if_false]
      cases c.testBit (4 * (n - 16)) <;> cases c.testBit (4 * (n - 16) + 1) <;>
        cases c.testBit (4 * (n - 16) + 2) <;> cases c.testBit (4 * (n - 16) + 3) <;> simp
    · simp [h16, h32]

theorem block_map_to_physical_foldl_or (ws : List Nat) (a : Nat) :
    kbasep_hwcnt_backend_gpu_block_map_to_physical (ws.foldl (fun x w => x ||| w) a) 0
      = (ws.map (fun w => kbasep_hwcnt_backend_gpu_block_map_to_physical w 0)).foldl
          (fun x w => x ||| w) (kbasep_hwcnt_backend_gpu_block_map_to_physical a 0) := by
  induction ws generalizing a with
  | nil => rfl
  | cons w ws ih =>
    rw [List.foldl_cons, ih, List.map_cons, List.foldl_cons]
    have h := block_map_to_physical_or a w 0 0
    rw [Nat.or_self] at h
    rw [h]

theorem block_role_group_type (md : kbase_hwcnt_metadata) (it : Nat × Nat × Nat) (r : v5_role)
    (h : block_role md it = some r) :
    kbase_hwcnt_metadata_group_type md it.1 = KBASE_HWCNT_GPU_GROUP_TYPE_V5 := by
  by_contra hgt
  simp [block_role, v5_block_role, hgt] at h

/-- C21 (packing distributes over OR): for all `a`, `b`, `c`, `d`, 64-bit or not,
packing `a ||| b` and `c ||| d` gives the OR of the packing of `a`, `c` and the
packing of `b`, `d`; consequently, for every enable map and every buffer bound
to the same metadata, each role bitmap returned by
`kbase_hwcnt_gpu_enable_map_to_physical` is the bitwise OR, over the block
instances of that role, of the header word 2 that
`kbase_hwcnt_gpu_patch_dump_headers` writes for the instance. -/
theorem block_map_to_physical_or_header_words (a b c d : Nat) (m : kbase_hwcnt_enable_map)
    (buf : kbase_hwcnt_dump_buffer) (out : kbase_hwcnt_physical_enable_map)
    (hmd : buf.metadata = m.metadata) :
    kbasep_hwcnt_backend_gpu_block_map_to_physical (a ||| b) (c ||| d)
      = kbasep_hwcnt_backend_gpu_block_map_to_physical a c |||
          kbasep_hwcnt_backend_gpu_block_map_to_physical b d ∧
    ∃ p buf', kbase_hwcnt_gpu_enable_map_to_physical (some out) (some m) = some p ∧
      kbase_hwcnt_gpu_patch_dump_headers (some buf) (some m) = some buf' ∧
      ∀ r, p.role_bm r
        = (((kbase_hwcnt_metadata_for_each_block m.metadata).filter
              (fun it => decide (block_role m.metadata it = some r))).map
            (fun it => buf'.dump_buf it.1 it.2.1 it.2.2 KBASE_HWCNT_V5_PRFCNT_EN_HEADER)).foldl
          (fun x w => x ||| w) 0 := by
  refine ⟨block_map_to_physical_or a b c d, _, _, rfl, patch_dump_headers_ok buf m hmd, ?_⟩
  intro r
  have hfold := to_physical_loop_role_or m r (kbase_hwcnt_metadata_for_each_block m.metadata)
    { fe_bm := 0, shader_bm := 0, tiler_bm := 0, mmu_l2_bm := 0 }
  have hzero : (enable_map_to_physical_state.mk 0 0 0 0).role_bm r = 0 := by
    cases r <;> rfl
  rw [hzero] at hfold
  have hres : (kbase_hwcnt_physical_enable_map.mk
      (kbasep_hwcnt_backend_gpu_block_map_to_physical
        ((kbase_hwcnt_metadata_for_each_block m.metadata).foldl
          (kbase_hwcnt_gpu_enable_map_to_physical_block m)
          { fe_bm := 0, shader_bm := 0, tiler_bm := 0, mmu_l2_bm := 0 }).fe_bm 0)
      (kbasep_hwcnt_backend_gpu_block_map_to_physical
        ((kbase_hwcnt_metadata_for_each_block m.metadata).foldl
          (kbase_hwcnt_gpu_enable_map_to_physical_block m)
          { fe_bm := 0, shader_bm := 0, tiler_bm := 0, mmu_l2_bm := 0 }).shader_bm 0)
      (kbasep_hwcnt_backend_gpu_block_map_to_physical
        ((kbase_hwcnt_metadata_for_each_block m.metadata).foldl
          (kbase_hwcnt_gpu_enable_map_to_physical_block m)
          { fe_bm := 0, shader_bm := 0, tiler_bm := 0, mmu_l2_bm := 0 }).tiler_bm 0)
      (kbasep_hwcnt_backend_gpu_block_map_to_physical
        ((kbase_hwcnt_metadata_for_each_block m.metadata).foldl
          (kbase_hwcnt_gpu_enable_map_to_physical_block m)
          { fe_bm := 0, shader_bm := 0, tiler_bm := 0, mmu_l2_bm := 0 }).mmu_l2_bm 0)).role_bm r
      = kbasep_hwcnt_backend_gpu_block_map_to_physical
          (((kbase_hwcnt_metadata_for_each_block m.metadata).foldl
            (kbase_hwcnt_gpu_enable_map_to_physical_block m)
            { fe_bm := 0, shader_bm := 0, tiler_bm := 0, mmu_l2_bm := 0 }).role_bm r) 0 := by
    cases r <;> rfl
  simp only
  rw [hres, hfold, block_map_to_physical_foldl_or, block_map_to_physical_zero, List.map_map]
  congr 1
  apply List.map_congr_left
  rintro ⟨g, b, i⟩ hit
  rw [List.mem_filter] at hit
  have hrole : block_role m.metadata (g, b, i) = some r := by simpa using hit.2
  have hgt := block_role_group_type m.metadata (g, b, i) r hrole
  simp only [Function.comp, KBASE_HWCNT_V5_PRFCNT_EN_HEADER]
  rw [patch_loop_word, if_pos ⟨hmd ▸ hit.1, hmd ▸ hgt, rfl⟩]

/-- C21 on `two_groups_example_enable_map` (every block instance has the values
0 to 7 enabled): each header word 2 is `0x3`, and the shader bitmap `0x3` is
the OR of the three shader-core header words. -/
theorem block_map_to_physical_or_header_words_witness :
    kbasep_hwcnt_backend_gpu_block_map_to_physical (0x1 ||| 0x10) (0x100 ||| 0x1000)
      = kbasep_hwcnt_backend_gpu_block_map_to_physical 0x1 0x100 |||
          kbasep_hwcnt_backend_gpu_block_map_to_physical 0x10 0x1000 ∧
    ∃ p buf', kbase_hwcnt_gpu_enable_map_to_physical (some ⟨0, 0, 0, 0⟩)
        (some two_groups_example_enable_map) = some p ∧
      kbase_hwcnt_gpu_patch_dump_headers (some merge_example_dump_buffer)
        (some two_groups_example_enable_map) = some buf' ∧
      ∀ r, p.role_bm r
        = (((kbase_hwcnt_metadata_for_each_block two_groups_example_enable_map.metadata).filter
              (fun it => decide (block_role two_groups_example_enable_map.metadata it
                = some r))).map
            (fun it => buf'.dump_buf it.1 it.2.1 it.2.2 KBASE_HWCNT_V5_PRFCNT_EN_HEADER)).foldl
          (fun x w => x ||| w) 0 :=
  block_map_to_physical_or_header_words 0x1 0x10 0x100 0x1000 two_groups_example_enable_map
    merge_example_dump_buffer ⟨0, 0, 0, 0⟩ rfl

/-! ## The block-type table -/

/-- C22 (block-type table): for every counter set and both values of the variant
flag, each of the four roles receives a type of its own role or the undefined
type, and the planner stores the four types in the order front-end, tiler,
memsys, shader core; with the Primary set no role is undefined; the tiler type
is undefined exactly when the set is not Primary, the memsys type exactly when
the set is Tertiary, the front-end type exactly when the variant flag is false
and the set is not Primary, and the shader-core type exactly when the variant
flag is false and the set is Tertiary. -/
theorem block_type_table (counter_set : kbase_hwcnt_set) (is_csf : Bool)
    (gpu_info : kbase_hwcnt_gpu_info) :
    ((kbasep_hwcnt_backend_gpu_metadata_create_blks gpu_info is_csf counter_set
        (fls64 gpu_info.core_mask)).map (fun blk => blk.type)
      = [kbasep_get_fe_block_type counter_set is_csf, kbasep_get_tiler_block_type counter_set,
          kbasep_get_memsys_block_type counter_set,
          kbasep_get_sc_block_type counter_set is_csf]) ∧
    (kbasep_get_fe_block_type counter_set is_csf
        ∈ [KBASE_HWCNT_GPU_V5_BLOCK_TYPE_PERF_FE, KBASE_HWCNT_GPU_V5_BLOCK_TYPE_PERF_FE2,
            KBASE_HWCNT_GPU_V5_BLOCK_TYPE_PERF_FE3,
            KBASE_HWCNT_GPU_V5_BLOCK_TYPE_PERF_UNDEFINED] ∧
      kbasep_get_tiler_block_type counter_set
        ∈ [KBASE_HWCNT_GPU_V5_BLOCK_TYPE_PERF_TILER,
            KBASE_HWCNT_GPU_V5_BLOCK_TYPE_PERF_UNDEFINED] ∧
      kbasep_get_memsys_block_type counter_set
        ∈ [KBASE_HWCNT_GPU_V5_BLOCK_TYPE_PERF_MEMSYS,
            KBASE_HWCNT_GPU_V5_BLOCK_TYPE_PERF_MEMSYS2,
            KBASE_HWCNT_GPU_V5_BLOCK_TYPE_PERF_UNDEFINED] ∧
      kbasep_get_sc_block_type counter_set is_csf
        ∈ [KBASE_HWCNT_GPU_V5_BLOCK_TYPE_PERF_SC, KBASE_HWCNT_GPU_V5_BLOCK_TYPE_PERF_SC2,
            KBASE_HWCNT_GPU_V5_BLOCK_TYPE_PERF_SC3,
            KBASE_HWCNT_GPU_V5_BLOCK_TYPE_PERF_UNDEFINED]) ∧
    (counter_set = KBASE_HWCNT_SET_PRIMARY →
      kbasep_get_fe_block_type counter_set is_csf
          ≠ KBASE_HWCNT_GPU_V5_BLOCK_TYPE_PERF_UNDEFINED ∧
        kbasep_get_tiler_block_type counter_set
          ≠ KBASE_HWCNT_GPU_V5_BLOCK_TYPE_PERF_UNDEFINED ∧
        kbasep_get_memsys_block_type counter_set
          ≠ KBASE_HWCNT_GPU_V5_BLOCK_TYPE_PERF_UNDEFINED ∧
        kbasep_get_sc_block_type counter_set is_csf
          ≠ KBASE_HWCNT_GPU_V5_BLOCK_TYPE_PERF_UNDEFINED) ∧
    (kbasep_get_tiler_block_type counter_set = KBASE_HWCNT_GPU_V5_BLOCK_TYPE_PERF_UNDEFINED ↔
      counter_set ≠ KBASE_HWCNT_SET_PRIMARY) ∧
    (kbasep_get_memsys_block_type counter_set = KBASE_HWCNT_GPU_V5_BLOCK_TYPE_PERF_UNDEFINED ↔
      counter_set = KBASE_HWCNT_SET_TERTIARY) ∧
    (kbasep_get_fe_block_type counter_set is_csf
        = KBASE_HWCNT_GPU_V5_BLOCK_TYPE_PERF_UNDEFINED ↔
      (is_csf = false ∧ counter_set ≠ KBASE_HWCNT_SET_PRIMARY)) ∧
    (kbasep_get_sc_block_type counter_set is_csf
        = KBASE_HWCNT_GPU_V5_BLOCK_TYPE_PERF_UNDEFINED ↔
      (is_csf = false ∧ counter_set = KBASE_HWCNT_SET_TERTIARY)) := by
  refine ⟨rfl, ?_, ?_, ?_, ?_, ?_, ?_⟩ <;>
    cases counter_set <;> cases is_csf <;>
    simp [kbasep_get_fe_block_type, kbasep_get_tiler_block_type, kbasep_get_memsys_block_type,
      kbasep_get_sc_block_type]

/-- C22 for the Tertiary set on the legacy path: the front-end, tiler, memsys and
shader-core types are all undefined. -/
theorem block_type_table_witness :
    kbasep_get_fe_block_type KBASE_HWCNT_SET_TERTIARY false
      = KBASE_HWCNT_GPU_V5_BLOCK_TYPE_PERF_UNDEFINED ∧
    kbasep_get_tiler_block_type KBASE_HWCNT_SET_TERTIARY
      = KBASE_HWCNT_GPU_V5_BLOCK_TYPE_PERF_UNDEFINED ∧
    kbasep_get_memsys_block_type KBASE_HWCNT_SET_TERTIARY
      = KBASE_HWCNT_GPU_V5_BLOCK_TYPE_PERF_UNDEFINED ∧
    kbasep_get_sc_block_type KBASE_HWCNT_SET_TERTIARY false
      = KBASE_HWCNT_GPU_V5_BLOCK_TYPE_PERF_UNDEFINED :=
  ⟨(block_type_table KBASE_HWCNT_SET_TERTIARY false merge_example_gpu_info).2.2.2.2.2.1.mpr
      ⟨rfl, by decide⟩,
   (block_type_table KBASE_HWCNT_SET_TERTIARY false merge_example_gpu_info).2.2.2.1.mpr
      (by decide),
   (block_type_table KBASE_HWCNT_SET_TERTIARY false merge_example_gpu_info).2.2.2.2.1.mpr rfl,
   (block_type_table KBASE_HWCNT_SET_TERTIARY false merge_example_gpu_info).2.2.2.2.2.2.mpr
      ⟨rfl, rfl⟩⟩

end KbaseHwcnt
